import Mathlib

/-!
# DX11Renderer: the bloom render pass

A shallow embedding of `Source/RenderPasses/Source/BloomPass.cpp`.

* Calls that `BloomPass::Render` issues on the renderer, on the GPU profiler and on the
  logger are recorded, in program order, as a list of `Call` values.
* Handles (`TextureID`, `RenderTargetID`, `ShaderID`, sampler ids) are C++ `int`s and are
  carried as `Int`.
* Reading a fixed two-element array outside `0..1`, a zero divisor and the exceptions of
  `std::stoi` are faults: fallible code returns `Except Fault`.
* The preprocessor switches `ENABLE_COMPUTE_BLUR` and `ENABLE_COMPUTE_BLUR_TRANSPOZE`
  are the fields of `BuildConfig`; the source sets both to `0` (`defaultBuild`).
* `float` values are only handed through by this code; they are carried as bit patterns.
  The window dimensions are whole numbers stored in floats, so `static_cast<int>` of them
  gives the whole number back.
* The product `settings.blurStrength * 2` is an `int` product; its result is wrapped to 32
  bits (`wrapInt32`).
* `BloomPass::Initialize` and `BloomPass::UpdateSettings` change the renderer; they take
  the renderer and the pass and return both.
-/

namespace DX11Renderer

/-! ## Machine integers and faults -/

abbrev TextureID := Int
abbrev RenderTargetID := Int
abbrev ShaderID := Int
abbrev SamplerID := Int

/-- Bit pattern of a C++ `float` that the code passes along unchanged. -/
abbrev FloatBits := Nat

def INT_MAX : Int := 2147483647

def INT_MIN : Int := -2147483648

/-- Value a 32-bit two's complement `int` holds after the exact result `x` is stored in it. -/
def wrapInt32 (x : Int) : Int := (x + 2147483648) % 4294967296 - 2147483648

inductive Fault where
  | indexOutOfRange
  | divisionByZero
  | invalid_argument
  | out_of_range
  | filesystem_error
  | nullDereference
  | danglingPointer
  | assertionFailed
deriving DecidableEq, Repr

/-- C++ `a % b` on `int`: truncating remainder, a fault when the divisor is zero. -/
def cMod (a b : Int) : Except Fault Int :=
  if b = 0 then .error .divisionByZero else .ok (Int.tmod a b)

/-- A C++ array `T a[2]` of handles. -/
structure Array2 where
  e0 : Int
  e1 : Int
deriving DecidableEq, Repr

/-- Read of `a[i]`: only `0` and `1` address an element. -/
def Array2.read (a : Array2) (i : Int) : Except Fault Int :=
  if i = 0 then .ok a.e0 else if i = 1 then .ok a.e1 else .error .indexOutOfRange

/-- Store `a[i] = v`. -/
def Array2.write (a : Array2) (i : Int) (v : Int) : Except Fault Array2 :=
  if i = 0 then .ok { a with e0 := v } else if i = 1 then .ok { a with e1 := v }
  else .error .indexOutOfRange

/-! ## Build configuration (BloomPass.cpp lines 36-40) -/

structure BuildConfig where
  ENABLE_COMPUTE_BLUR : Bool
  ENABLE_COMPUTE_BLUR_TRANSPOZE : Bool
deriving DecidableEq, Repr

/-- The values the source file defines: both compute strategies compiled out. -/
def defaultBuild : BuildConfig := ⟨false, false⟩

/-- The macro `USE_COMPUTE_BLUR`. -/
def BuildConfig.USE_COMPUTE_BLUR (bc : BuildConfig) : Bool :=
  bc.ENABLE_COMPUTE_BLUR || bc.ENABLE_COMPUTE_BLUR_TRANSPOZE

def USE_CONSTANT_BUFFER_FOR_BLUR_STRENGTH : Bool := false

/-! ## The strategy selector -/

/-- Numeric values of the enumerators of `BloomPass::BloomShader`. The enumeration is
declared in `RenderPasses.h`, which is not among the sources, so the values are a
parameter. All four are labels of the one `switch` in `GetBloomTexture`, hence pairwise
different. -/
structure BloomShaderEnum where
  PS_1D_Kernels : Int
  CS_1D_Kernels : Int
  CS_1D_Kernels_Transpoze_Out : Int
  NUM_BLOOM_SHADERS : Int
  distinct : [PS_1D_Kernels, CS_1D_Kernels, CS_1D_Kernels_Transpoze_Out,
    NUM_BLOOM_SHADERS].Nodup

/-- The values an enumeration without initialisers gets, used for concrete evaluation. -/
def BloomShaderEnum.sequential : BloomShaderEnum := ⟨0, 1, 2, 3, by decide⟩

/-! ## Settings, renderer and pass state -/

/-- The struct `Settings::Bloom` as the parser fills it (CustomParser.cpp lines 1014-1016). -/
structure Settings.Bloom where
  bEnabled : Bool
  brightnessThreshold : FloatBits
  blurStrength : Int
deriving DecidableEq, Repr

structure ShaderMacro where
  name : String
  value : String
deriving DecidableEq, Repr

structure ShaderStageDesc where
  fileName : String
  macros : List ShaderMacro
deriving DecidableEq, Repr

/-- The struct `ShaderDesc`. `stages` lists the stage descriptors an initialiser spells
out, in order; the remaining entries of the fixed-size array are default-constructed. -/
structure ShaderDesc where
  shaderName : String
  stages : List ShaderStageDesc
deriving DecidableEq, Repr

structure TextureDesc where
  width : Int
  height : Int
  format : Nat
  usage : String
deriving DecidableEq, Repr

structure RenderTargetDesc where
  textureDesc : TextureDesc
  format : Nat
deriving DecidableEq, Repr

/-- The fields of `D3D11_SAMPLER_DESC` that `Initialize` sets; the others stay zero. -/
structure D3D11_SAMPLER_DESC where
  AddressU : String
  AddressV : String
  AddressW : String
  Filter : String
deriving DecidableEq, Repr

/-- What `GetTextureObject` gives back, reduced to the members `Render` reads. -/
structure Texture where
  _width : Int
  _height : Int
deriving DecidableEq, Repr

/-- Modelled from the spec: class `Renderer` (`Renderer/Renderer.h`) is not among the
sources. The resource tables hold the descriptors of everything created so far, a handle
being the position of its entry; `reloadCalls` counts the `ReloadShader` calls served.
The remaining fields are the answers of the renderer's read-only queries; `WindowWidth` and
`WindowHeight` answer both the integer queries of `Initialize` and, as whole-number floats,
`GetWindowDimensionsAsFloat2` in `Render`. -/
structure Renderer where
  mRenderTargets : List RenderTargetDesc
  mShaders : List ShaderDesc
  mSamplers : List D3D11_SAMPLER_DESC
  mTextures : List TextureDesc
  reloadCalls : Nat
  GetRenderTargetTexture : RenderTargetID → TextureID
  GetTextureObject : TextureID → Texture
  WindowWidth : Nat
  WindowHeight : Nat

/-- The data members of `BloomPass` that BloomPass.cpp uses. `sShaderTranspoze` is the
static member `RenderPass::sShaderTranspoze` of the base class. -/
structure BloomPass where
  _colorRT : RenderTargetID
  _brightRT : RenderTargetID
  _finalRT : RenderTargetID
  _blurPingPong : Array2
  _bloomFilterShader : ShaderID
  _blurShaderH : ShaderID
  _blurShaderV : ShaderID
  _bloomCombineShader : ShaderID
  _blurSampler : SamplerID
  mSelectedBloomShader : Int
  blurComputeOutputPingPong : Array2
  blurComputeShaderPingPong : Array2
  blurHorizontalTranspozeComputeShader : ShaderID
  texTransposedImage : TextureID
  sShaderTranspoze : ShaderID
deriving DecidableEq, Repr

/-! ## Recorded calls -/

/-- Second argument of `SetSamplerState`: a built-in state named by its enumerator, or a
sampler handle. -/
inductive SamplerArg where
  | defaultState (enumerator : String)
  | id (sampler : SamplerID)
deriving DecidableEq, Repr

/-- One call of `Render` with its arguments. Enumerators of renderer enumerations are
recorded by name, `SetShader` with the flags the call site writes out. -/
inductive Call where
  | BeginEvent (marker : String)
  | EndEvent
  | GPU_BeginEntry (tag : String)
  | GPU_EndEntry
  | SetShader (shader : ShaderID) (flags : List Bool)
  | BindRenderTargets (rt0 rt1 : RenderTargetID)
  | BindRenderTarget (rt : RenderTargetID)
  | UnbindDepthTarget
  | SetDepthStencilState (enumerator : String)
  | SetRasterizerState (enumerator : String)
  | SetTexture (name : String) (tex : TextureID)
  | SetRWTexture (name : String) (tex : TextureID)
  | SetSamplerState (name : String) (sampler : SamplerArg)
  | SetConstant1f (name : String) (bits : FloatBits)
  | SetConstant1i (name : String) (value : Int)
  | SetConstantStruct (name : String) (blurStrength : Int)
  | Apply
  | Draw (vertCount : Int) (topology : String)
  | DrawIndexed
  | Dispatch (x y z : Int)
  | Log_Warning (format : String) (arg : Int)
deriving DecidableEq, Repr

/-! ## BloomPass::GetBloomTexture (lines 394-405) -/

def GetBloomTexture (E : BloomShaderEnum) (r : Renderer) (p : BloomPass) :
    Except Fault TextureID :=
  if p.mSelectedBloomShader = E.PS_1D_Kernels then do
    let rt ← p._blurPingPong.read 0
    pure (r.GetRenderTargetTexture rt)
  else if p.mSelectedBloomShader = E.CS_1D_Kernels then
    p.blurComputeOutputPingPong.read 1
  else if p.mSelectedBloomShader = E.CS_1D_Kernels_Transpoze_Out then
    p.blurComputeOutputPingPong.read 0
  else
    pure (-1)

/-! ## BloomPass::Render (lines 226-390) -/

/-- The loop `for (int i = first; i < first + count; ++i)`: the calls of its `count`
iterations in order, stopping at the first fault. -/
def forLoop (body : Int → Except Fault (List Call)) : Int → Nat → Except Fault (List Call)
  | _, 0 => pure []
  | i, n + 1 => do
    let calls ← body i
    let later ← forLoop body (i + 1) n
    pure (calls ++ later)

/-- The bright filter, lines 232-249. -/
def brightFilterCalls (p : BloomPass) (inputTextureID : TextureID)
    (settings : Settings.Bloom) : List Call :=
  [ .BeginEvent "Bloom",
    .GPU_BeginEntry "Bloom Filter",
    .BeginEvent "Bright Filter",
    .SetShader p._bloomFilterShader [true],
    .BindRenderTargets p._colorRT p._brightRT,
    .UnbindDepthTarget,
    .SetDepthStencilState "DEPTH_STENCIL_DISABLED",
    .SetRasterizerState "CULL_FRONT",
    .SetTexture "colorInput" inputTextureID,
    .SetSamplerState "pointSampler" (.defaultState "POINT_SAMPLER"),
    .SetConstant1f "BrightnessThreshold" settings.brightnessThreshold,
    .Apply,
    .Draw 3 "TRIANGLE_LIST",
    .EndEvent,
    .GPU_EndEntry ]

/-- The local `BlurPassCount` of line 253. -/
def BlurPassCount (settings : Settings.Bloom) : Int :=
  wrapInt32 (settings.blurStrength * 2)

/-- The member `params.blurStrength` of line 256: the `int` converted to `unsigned`. -/
def paramsBlurStrength (settings : Settings.Bloom) : Int :=
  settings.blurStrength % 4294967296

/-- Body of the pixel-shader loop, lines 265-277. -/
def blurPassPS (r : Renderer) (p : BloomPass) (brightTexture : TextureID) (i : Int) :
    Except Fault (List Call) := do
  let isHorizontal ← cMod i 2
  let pingPong := r.GetRenderTargetTexture (← p._blurPingPong.read (1 - isHorizontal))
  let texWidth := (r.GetTextureObject pingPong)._width
  let texHeight := (r.GetTextureObject pingPong)._height
  let parity ← cMod i 2
  let target ← p._blurPingPong.read isHorizontal
  pure
    [ .SetShader (if parity = 0 then p._blurShaderH else p._blurShaderV) [true],
      .BindRenderTarget target,
      .SetConstant1i "textureWidth" texWidth,
      .SetConstant1i "textureHeight" texHeight,
      .SetTexture "InputTexture" (if i = 0 then brightTexture else pingPong),
      .SetSamplerState "BlurSampler" (.id p._blurSampler),
      .Apply,
      .DrawIndexed ]

/-- The call `SetConstantStruct("cBlurParameters", &params)` under its compile-time guard. -/
def blurParameterCalls (settings : Settings.Bloom) : List Call :=
  if USE_CONSTANT_BUFFER_FOR_BLUR_STRENGTH then
    [.SetConstantStruct "cBlurParameters" (paramsBlurStrength settings)]
  else []

/-- Body of the compute loop, lines 290-308. -/
def blurPassCS (r : Renderer) (p : BloomPass) (brightTexture : TextureID)
    (settings : Settings.Bloom) (i : Int) : Except Fault (List Call) := do
  let INDEX_PING_PONG ← cMod i 2
  let INDEX_PING_PONG_OTHER ← cMod (i + 1) 2
  let DISPATCH_GROUP_Y : Int := if (← cMod i 2) = 0 then (r.WindowHeight : Int) else 1
  let DISPATCH_GROUP_X : Int := if (← cMod i 2) ≠ 0 then (r.WindowWidth : Int) else 1
  let DISPATCH_GROUP_Z : Int := 1
  let shader ← p.blurComputeShaderPingPong.read INDEX_PING_PONG
  let texColorIn ←
    if i = 0 then pure brightTexture
    else p.blurComputeOutputPingPong.read INDEX_PING_PONG_OTHER
  let texColorOut ← p.blurComputeOutputPingPong.read INDEX_PING_PONG
  pure
    ([ .SetShader shader [true],
       .SetTexture "texColorIn" texColorIn,
       .SetRWTexture "texColorOut" texColorOut,
       .SetSamplerState "sSampler" (.defaultState "POINT_SAMPLER") ]
      ++ blurParameterCalls settings
      ++ [ .Apply,
           .Dispatch DISPATCH_GROUP_X DISPATCH_GROUP_Y DISPATCH_GROUP_Z ])

/-- The transpose strategy, lines 318-362. -/
def blurTranspozeCalls (r : Renderer) (p : BloomPass) (brightTexture : TextureID)
    (settings : Settings.Bloom) : Except Fault (List Call) := do
  let DISPATCH_GROUP_Z : Int := 1
  let shaderH ← p.blurComputeShaderPingPong.read 0
  let out0 ← p.blurComputeOutputPingPong.read 0
  let horizontal : List Call :=
    [ .SetShader shaderH [true, true],
      .SetTexture "texColorIn" brightTexture,
      .SetSamplerState "sSampler" (.defaultState "POINT_SAMPLER") ]
    ++ blurParameterCalls settings
    ++ [ .SetRWTexture "texColorOut" out0,
         .Apply,
         .Dispatch 1 (r.WindowHeight : Int) DISPATCH_GROUP_Z ]
  let imageIn ← p.blurComputeOutputPingPong.read 0
  let transpoze : List Call :=
    [ .SetShader p.sShaderTranspoze [true, true],
      .SetRWTexture "texImageIn" imageIn,
      .SetRWTexture "texTranspozeOut" p.texTransposedImage,
      .Apply,
      .Dispatch ((r.WindowWidth / 16 : Nat) : Int) ((r.WindowHeight / 16 : Nat) : Int)
        DISPATCH_GROUP_Z ]
  let out0Again ← p.blurComputeOutputPingPong.read 0
  let horizontalOnTransposed : List Call :=
    [ .SetShader p.blurHorizontalTranspozeComputeShader [true, true],
      .SetTexture "texColorIn" p.texTransposedImage,
      .SetSamplerState "sSampler" (.defaultState "POINT_SAMPLER") ]
    ++ blurParameterCalls settings
    ++ [ .SetRWTexture "texColorOut" out0Again,
         .Apply,
         .Dispatch 1 (r.WindowWidth : Int) DISPATCH_GROUP_Z ]
  pure (horizontal ++ transpoze ++ horizontalOnTransposed)

/-- The `switch (mSelectedBloomShader)` of lines 257-368. A compute `case` exists only
when its preprocessor switch is on. -/
def blurCalls (bc : BuildConfig) (E : BloomShaderEnum) (r : Renderer) (p : BloomPass)
    (settings : Settings.Bloom) : Except Fault (List Call) := do
  let brightTexture := r.GetRenderTargetTexture p._brightRT
  if p.mSelectedBloomShader = E.PS_1D_Kernels then do
    let passes ← forLoop (blurPassPS r p brightTexture) 0 (BlurPassCount settings).toNat
    pure ([.GPU_BeginEntry "Bloom Blur<PS>", .BeginEvent "Blur Pass"] ++ passes
      ++ [.EndEvent, .GPU_EndEntry])
  else if bc.ENABLE_COMPUTE_BLUR ∧ p.mSelectedBloomShader = E.CS_1D_Kernels then do
    let passes ← forLoop (blurPassCS r p brightTexture settings) 0 2
    pure ([.GPU_BeginEntry "Bloom Blur<CS>", .BeginEvent "Blur Compute Pass"] ++ passes
      ++ [.EndEvent, .GPU_EndEntry])
  else if bc.ENABLE_COMPUTE_BLUR_TRANSPOZE
      ∧ p.mSelectedBloomShader = E.CS_1D_Kernels_Transpoze_Out then do
    let passes ← blurTranspozeCalls r p brightTexture settings
    pure ([.GPU_BeginEntry "Bloom Blur<CS_T>", .BeginEvent "Blur Compute_Transpoze Pass"]
      ++ passes ++ [.EndEvent, .GPU_EndEntry])
  else
    pure [.Log_Warning "Unsupported Bloom Shader = %d" p.mSelectedBloomShader]

/-- The additive combine, lines 375-389, given the local `bloomTex` of line 373. -/
def combineCalls (r : Renderer) (p : BloomPass) (bloomTex : TextureID) : List Call :=
  let colorTex := r.GetRenderTargetTexture p._colorRT
  [ .GPU_BeginEntry "Bloom Combine",
    .BeginEvent "Combine",
    .SetShader p._bloomCombineShader [true, true],
    .Apply,
    .BindRenderTarget p._finalRT,
    .SetTexture "ColorTexture" colorTex,
    .SetTexture "BloomTexture" bloomTex,
    .SetSamplerState "BlurSampler" (.id p._blurSampler),
    .Apply,
    .DrawIndexed,
    .EndEvent,
    .EndEvent,
    .GPU_EndEntry ]

/-- The method `BloomPass::Render`: the calls it issues, in order. The method is `const`
and returns nothing, so the list is all it produces. The two queries of lines 228-229 change
nothing and their results are not used; queries are not recorded as calls. -/
def Render (bc : BuildConfig) (E : BloomShaderEnum) (r : Renderer) (p : BloomPass)
    (inputTextureID : TextureID) (settings : Settings.Bloom) : Except Fault (List Call) := do
  let blur ← blurCalls bc E r p settings
  let bloomTex ← GetBloomTexture E r p
  pure (brightFilterCalls p inputTextureID settings ++ blur ++ combineCalls r p bloomTex)

/-! ## Strings of numbers: `std::to_string` and `std::stoi` -/

/-- The function `std::to_string` on an `int`: decimal digits, a leading minus sign for
negative values. -/
def to_string (n : Int) : String :=
  if n < 0 then String.mk ('-' :: Nat.toDigits 10 n.natAbs)
  else String.mk (Nat.toDigits 10 n.toNat)

/-- The C function `isspace` in the "C" locale. -/
def isspace (c : Char) : Bool :=
  c = ' ' || (9 ≤ c.toNat && c.toNat ≤ 13)

/-- Value and length of the longest prefix of decimal digits, continuing from `acc` and
`count`. -/
def readDigits : List Char → Nat → Nat → Nat × Nat
  | [], acc, count => (acc, count)
  | c :: cs, acc, count =>
    if c.isDigit then readDigits cs (acc * 10 + (c.toNat - 48)) (count + 1)
    else (acc, count)

/-- The function `std::stoi` in base 10: leading white space is skipped, an optional sign
and the longest run of digits are read, what follows is ignored. No digit at all raises
`std::invalid_argument`, a value outside `int` raises `std::out_of_range`. -/
def stoi (s : String) : Except Fault Int :=
  let cs := s.data.dropWhile isspace
  let signed : Bool × List Char :=
    match cs with
    | '-' :: t => (true, t)
    | '+' :: t => (false, t)
    | _ => (false, cs)
  let digits := readDigits signed.2 0 0
  if digits.2 = 0 then .error .invalid_argument
  else
    let n : Int := if signed.1 then -(digits.1 : Int) else (digits.1 : Int)
    if n < INT_MIN ∨ INT_MAX < n then .error .out_of_range else .ok n

/-! ## Renderer operations used by Initialize and UpdateSettings -/

/-- Modelled from the spec: `Renderer::AddRenderTarget` is not among the sources. The
renderer records the requested descriptor and answers with the handle of the new entry. -/
def Renderer.AddRenderTarget (r : Renderer) (desc : RenderTargetDesc) :
    Renderer × RenderTargetID :=
  ({ r with mRenderTargets := r.mRenderTargets ++ [desc] }, (r.mRenderTargets.length : Int))

/-- Modelled from the spec: `Renderer::CreateShader` is not among the sources. The shader
factory records the descriptor and answers with the handle of the new shader object. -/
def Renderer.CreateShader (r : Renderer) (desc : ShaderDesc) : Renderer × ShaderID :=
  ({ r with mShaders := r.mShaders ++ [desc] }, (r.mShaders.length : Int))

/-- Modelled from the spec: `Renderer::CreateSamplerState` is not among the sources; it
records the descriptor and answers with the new handle. -/
def Renderer.CreateSamplerState (r : Renderer) (desc : D3D11_SAMPLER_DESC) :
    Renderer × SamplerID :=
  ({ r with mSamplers := r.mSamplers ++ [desc] }, (r.mSamplers.length : Int))

/-- Modelled from the spec: `Renderer::CreateTexture2D` is not among the sources; it records
the descriptor and answers with the new handle. -/
def Renderer.CreateTexture2D (r : Renderer) (desc : TextureDesc) : Renderer × TextureID :=
  ({ r with mTextures := r.mTextures ++ [desc] }, (r.mTextures.length : Int))

/-- Modelled from the spec: `Renderer::GetShaderDesc` is not among the sources; it answers
with the descriptor stored for the shader, a handle without a shader being a fault. -/
def Renderer.GetShaderDesc (r : Renderer) (shader : ShaderID) : Except Fault ShaderDesc :=
  if shader < 0 then .error .indexOutOfRange
  else
    match r.mShaders[shader.toNat]? with
    | some desc => .ok desc
    | none => .error .indexOutOfRange

/-- Modelled from the spec: `Renderer::ReloadShader` is not among the sources. The shader
is rebuilt from the descriptor passed in, which becomes its stored descriptor; the shader
keeps its handle, and the call is counted. -/
def Renderer.ReloadShader (r : Renderer) (desc : ShaderDesc) (shader : ShaderID) :
    Renderer × ShaderID :=
  ({ r with
      mShaders := if shader < 0 then r.mShaders else r.mShaders.set shader.toNat desc,
      reloadCalls := r.reloadCalls + 1 },
    shader)

/-! ## BloomPass::Initialize (lines 44-184) -/

def BLUR_KERNEL_DIMENSION : Int := 15

def COMPUTE_KERNEL_DIMENSION : Int := 1024

def pFSQ_VS : String := "FullScreenTriangle_vs.hlsl"

/-- The array `bloomPipelineShaders` of lines 54-72. -/
def bloomPipelineShaders : List ShaderDesc :=
  [ ⟨"Bloom", [⟨pFSQ_VS, []⟩, ⟨"Bloom_ps.hlsl", []⟩]⟩,
    ⟨"BlurH", [⟨pFSQ_VS, []⟩,
      ⟨"Blur_ps.hlsl", [⟨"KERNEL_DIMENSION", to_string BLUR_KERNEL_DIMENSION⟩,
        ⟨"HORIZONTAL_PASS", "1"⟩]⟩]⟩,
    ⟨"BlurV", [⟨pFSQ_VS, []⟩,
      ⟨"Blur_ps.hlsl", [⟨"KERNEL_DIMENSION", to_string BLUR_KERNEL_DIMENSION⟩,
        ⟨"VERTICAL_PASS", "1"⟩]⟩]⟩,
    ⟨"BloomCombine", [⟨pFSQ_VS, []⟩, ⟨"BloomCombine_ps.hlsl", []⟩]⟩ ]

/-- Element `i` of `bloomPipelineShaders`. -/
def bloomPipelineShader (i : Nat) : Except Fault ShaderDesc :=
  match bloomPipelineShaders[i]? with
  | some desc => .ok desc
  | none => .error .indexOutOfRange

def pCBufferPreProcessorValue : String :=
  if USE_CONSTANT_BUFFER_FOR_BLUR_STRENGTH then "1" else "0"

/-- The descriptor `CSDescV` of lines 104-119. -/
def CSDescV (texDesc : TextureDesc) (bloomSettings : Settings.Bloom) : ShaderDesc :=
  ⟨"Blur_Compute_Vertical", [⟨"Blur_cs.hlsl",
    [ ⟨"VERTICAL", "1"⟩,
      ⟨"HORIZONTAL", "0"⟩,
      ⟨"IMAGE_SIZE_X", to_string texDesc.width⟩,
      ⟨"IMAGE_SIZE_Y", to_string texDesc.height⟩,
      ⟨"THREAD_GROUP_SIZE_X", "1"⟩,
      ⟨"THREAD_GROUP_SIZE_Y", to_string COMPUTE_KERNEL_DIMENSION⟩,
      ⟨"THREAD_GROUP_SIZE_Z", "1"⟩,
      ⟨"USE_CONSTANT_BUFFER_FOR_BLUR_STRENGTH", pCBufferPreProcessorValue⟩,
      ⟨"PASS_COUNT", to_string bloomSettings.blurStrength⟩,
      ⟨"KERNEL_DIMENSION", to_string BLUR_KERNEL_DIMENSION⟩ ]⟩]⟩

/-- The descriptor `CSDescH` of lines 120-135. -/
def CSDescH (texDesc : TextureDesc) (bloomSettings : Settings.Bloom) : ShaderDesc :=
  ⟨"Blur_Compute_Horizontal", [⟨"Blur_cs.hlsl",
    [ ⟨"VERTICAL", "0"⟩,
      ⟨"HORIZONTAL", "1"⟩,
      ⟨"IMAGE_SIZE_X", to_string texDesc.width⟩,
      ⟨"IMAGE_SIZE_Y", to_string texDesc.height⟩,
      ⟨"THREAD_GROUP_SIZE_X", to_string COMPUTE_KERNEL_DIMENSION⟩,
      ⟨"THREAD_GROUP_SIZE_Y", "1"⟩,
      ⟨"THREAD_GROUP_SIZE_Z", "1"⟩,
      ⟨"USE_CONSTANT_BUFFER_FOR_BLUR_STRENGTH", pCBufferPreProcessorValue⟩,
      ⟨"PASS_COUNT", to_string bloomSettings.blurStrength⟩,
      ⟨"KERNEL_DIMENSION", to_string BLUR_KERNEL_DIMENSION⟩ ]⟩]⟩

/-- The descriptor `CSDescHTz` of lines 158-171. -/
def CSDescHTz (texDesc : TextureDesc) (bloomSettings : Settings.Bloom) : ShaderDesc :=
  ⟨"Blur_Compute_Transpoze", [⟨"BlurTranspoze_cs.hlsl",
    [ ⟨"IMAGE_SIZE_X", to_string texDesc.height⟩,
      ⟨"IMAGE_SIZE_Y", to_string texDesc.width⟩,
      ⟨"THREAD_GROUP_SIZE_X", to_string COMPUTE_KERNEL_DIMENSION⟩,
      ⟨"THREAD_GROUP_SIZE_Y", "1"⟩,
      ⟨"THREAD_GROUP_SIZE_Z", "1"⟩,
      ⟨"USE_CONSTANT_BUFFER_FOR_BLUR_STRENGTH", pCBufferPreProcessorValue⟩,
      ⟨"PASS_COUNT", to_string bloomSettings.blurStrength⟩,
      ⟨"KERNEL_DIMENSION", to_string BLUR_KERNEL_DIMENSION⟩ ]⟩]⟩

/-- Lines 46-84: the part of `Initialize` outside the preprocessor conditionals. -/
def initializeCommon (E : BloomShaderEnum) (r : Renderer) (p : BloomPass)
    (rtDesc : RenderTargetDesc) : Except Fault (Renderer × BloomPass) := do
  let (r, colorRT) := r.AddRenderTarget rtDesc
  let (r, brightRT) := r.AddRenderTarget rtDesc
  let (r, finalRT) := r.AddRenderTarget rtDesc
  let (r, pingPong0) := r.AddRenderTarget rtDesc
  let blurPingPong ← p._blurPingPong.write 0 pingPong0
  let (r, pingPong1) := r.AddRenderTarget rtDesc
  let blurPingPong ← blurPingPong.write 1 pingPong1
  let (r, bloomFilterShader) := r.CreateShader (← bloomPipelineShader 0)
  let (r, blurShaderH) := r.CreateShader (← bloomPipelineShader 1)
  let (r, blurShaderV) := r.CreateShader (← bloomPipelineShader 2)
  let (r, bloomCombineShader) := r.CreateShader (← bloomPipelineShader 3)
  let blurSamplerDesc : D3D11_SAMPLER_DESC :=
    { AddressU := "D3D11_TEXTURE_ADDRESS_CLAMP",
      AddressV := "D3D11_TEXTURE_ADDRESS_CLAMP",
      AddressW := "D3D11_TEXTURE_ADDRESS_CLAMP",
      Filter := "D3D11_FILTER_MIN_MAG_MIP_POINT" }
  let (r, blurSampler) := r.CreateSamplerState blurSamplerDesc
  pure (r,
    { p with
      _colorRT := colorRT, _brightRT := brightRT, _finalRT := finalRT,
      _blurPingPong := blurPingPong,
      _bloomFilterShader := bloomFilterShader, _blurShaderH := blurShaderH,
      _blurShaderV := blurShaderV, _bloomCombineShader := bloomCombineShader,
      _blurSampler := blurSampler,
      mSelectedBloomShader := E.PS_1D_Kernels })

/-- The local `texDesc` of lines 88-92. -/
def computeTexDesc (r : Renderer) (rtDesc : RenderTargetDesc) : TextureDesc :=
  { usage := "COMPUTE_RW_TEXTURE",
    height := (r.WindowHeight : Int),
    width := (r.WindowWidth : Int),
    format := rtDesc.textureDesc.format }

/-- Lines 137-144, compiled when `ENABLE_COMPUTE_BLUR` is on. -/
def initializeComputeBlur (E : BloomShaderEnum) (r : Renderer) (p : BloomPass)
    (bloomSettings : Settings.Bloom) (texDesc : TextureDesc) :
    Except Fault (Renderer × BloomPass) := do
  let (r, out0) := r.CreateTexture2D texDesc
  let outputs ← p.blurComputeOutputPingPong.write 0 out0
  let (r, out1) := r.CreateTexture2D texDesc
  let outputs ← outputs.write 1 out1
  let (r, shader0) := r.CreateShader (CSDescH texDesc bloomSettings)
  let shaders ← p.blurComputeShaderPingPong.write 0 shader0
  let (r, shader1) := r.CreateShader (CSDescV texDesc bloomSettings)
  let shaders ← shaders.write 1 shader1
  pure (r,
    { p with
      blurComputeOutputPingPong := outputs, blurComputeShaderPingPong := shaders,
      mSelectedBloomShader := E.CS_1D_Kernels })

/-- Lines 146-183, compiled when `ENABLE_COMPUTE_BLUR_TRANSPOZE` is on. -/
def initializeComputeBlurTranspoze (bc : BuildConfig) (E : BloomShaderEnum) (r : Renderer)
    (p : BloomPass) (bloomSettings : Settings.Bloom) (rtDesc : RenderTargetDesc)
    (texDesc : TextureDesc) : Except Fault (Renderer × BloomPass) := do
  let (r, p) ←
    if ¬ bc.ENABLE_COMPUTE_BLUR then do
      let (r, out0) := r.CreateTexture2D texDesc
      let outputs ← p.blurComputeOutputPingPong.write 0 out0
      let (r, shader0) := r.CreateShader (CSDescH texDesc bloomSettings)
      let shaders ← p.blurComputeShaderPingPong.write 0 shader0
      pure (r,
        { p with blurComputeOutputPingPong := outputs, blurComputeShaderPingPong := shaders })
    else pure (r, p)
  let (r, transpozeShader) := r.CreateShader (CSDescHTz texDesc bloomSettings)
  let transposedDesc : TextureDesc :=
    { usage := "COMPUTE_RW_TEXTURE",
      height := (r.WindowWidth : Int),
      width := (r.WindowHeight : Int),
      format := rtDesc.textureDesc.format }
  let (r, transposed) := r.CreateTexture2D transposedDesc
  pure (r,
    { p with
      blurHorizontalTranspozeComputeShader := transpozeShader,
      texTransposedImage := transposed,
      mSelectedBloomShader := E.CS_1D_Kernels_Transpoze_Out })

/-- The method `BloomPass::Initialize`: the renderer and the pass after the call. -/
def Initialize (bc : BuildConfig) (E : BloomShaderEnum) (r : Renderer) (p : BloomPass)
    (bloomSettings : Settings.Bloom) (rtDesc : RenderTargetDesc) :
    Except Fault (Renderer × BloomPass) := do
  let (r, p) ← initializeCommon E r p rtDesc
  let texDesc := computeTexDesc r rtDesc
  let (r, p) ←
    if bc.ENABLE_COMPUTE_BLUR then initializeComputeBlur E r p bloomSettings texDesc
    else pure (r, p)
  if bc.ENABLE_COMPUTE_BLUR_TRANSPOZE then
    initializeComputeBlurTranspoze bc E r p bloomSettings rtDesc texDesc
  else pure (r, p)

/-! ## BloomPass::UpdateSettings (lines 187-221) -/

/-- The element `CSDesc.stages[0]`: the first stage descriptor, a default-constructed one
when the initialiser spelled out none. -/
def ShaderDesc.stage0 (desc : ShaderDesc) : ShaderStageDesc :=
  desc.stages.headD ⟨"", []⟩

/-- Read of `Macros[Macros.size() - 2]`; the index is computed in `size_t`, so a list
shorter than two has no such element. -/
def macroBeforeLast (macros : List ShaderMacro) : Except Fault ShaderMacro :=
  if macros.length < 2 then .error .indexOutOfRange
  else
    match macros[macros.length - 2]? with
    | some m => .ok m
    | none => .error .indexOutOfRange

/-- The assignment `Macros[Macros.size() - 2] = { "PASS_COUNT", value }` inside `CSDesc`. -/
def setPassCount (desc : ShaderDesc) (value : String) : Except Fault ShaderDesc :=
  let macros := desc.stage0.macros
  if macros.length < 2 then .error .indexOutOfRange
  else
    .ok { desc with
      stages := { desc.stage0 with
        macros := macros.set (macros.length - 2) ⟨"PASS_COUNT", value⟩ } :: desc.stages.tail }

/-- Lines 198-199: the body of the guarded reload of the horizontal compute shader. -/
def reloadHorizontal (r : Renderer) (p : BloomPass) (bloomSettings : Settings.Bloom)
    (CSDesc : ShaderDesc) (shader0 : ShaderID) : Except Fault (Renderer × BloomPass) := do
  let CSDesc ← setPassCount CSDesc (to_string bloomSettings.blurStrength)
  let reloaded := r.ReloadShader CSDesc shader0
  let shaders ← p.blurComputeShaderPingPong.write 0 reloaded.2
  pure (reloaded.1, { p with blurComputeShaderPingPong := shaders })

/-- Lines 203-207, compiled when `ENABLE_COMPUTE_BLUR` is on: the vertical compute shader. -/
def reloadVertical (r : Renderer) (p : BloomPass) (bloomSettings : Settings.Bloom) :
    Except Fault (Renderer × BloomPass) := do
  let shader1 ← p.blurComputeShaderPingPong.read 1
  let CSDesc ← r.GetShaderDesc shader1
  let CSDesc ← setPassCount CSDesc (to_string bloomSettings.blurStrength)
  let reloaded := r.ReloadShader CSDesc shader1
  let shaders ← p.blurComputeShaderPingPong.write 1 reloaded.2
  pure (reloaded.1, { p with blurComputeShaderPingPong := shaders })

/-- Lines 210-217, compiled when `ENABLE_COMPUTE_BLUR_TRANSPOZE` is on: the shader for the
transposed image. -/
def reloadTranspoze (r : Renderer) (p : BloomPass) (bloomSettings : Settings.Bloom)
    (blurStrengthPrev : Int) : Except Fault (Renderer × BloomPass) := do
  let CSDesc ← r.GetShaderDesc p.blurHorizontalTranspozeComputeShader
  if blurStrengthPrev ≠ bloomSettings.blurStrength then do
    let CSDesc ← setPassCount CSDesc (to_string bloomSettings.blurStrength)
    let reloaded := r.ReloadShader CSDesc p.blurHorizontalTranspozeComputeShader
    pure (reloaded.1, { p with blurHorizontalTranspozeComputeShader := reloaded.2 })
  else pure (r, p)

/-- The method `BloomPass::UpdateSettings`: the renderer and the pass after the call. -/
def UpdateSettings (bc : BuildConfig) (r : Renderer) (p : BloomPass)
    (bloomSettings : Settings.Bloom) : Except Fault (Renderer × BloomPass) :=
  if bc.USE_COMPUTE_BLUR then do
    let shader0 ← p.blurComputeShaderPingPong.read 0
    let CSDesc ← r.GetShaderDesc shader0
    let pStrPassCount := (← macroBeforeLast CSDesc.stage0.macros).value
    let blurStrengthPrev ← stoi pStrPassCount
    let afterH ←
      (if blurStrengthPrev ≠ bloomSettings.blurStrength then
        reloadHorizontal r p bloomSettings CSDesc shader0
      else pure (r, p))
    let afterV ←
      (if bc.ENABLE_COMPUTE_BLUR then reloadVertical afterH.1 afterH.2 bloomSettings
      else pure afterH)
    (if bc.ENABLE_COMPUTE_BLUR_TRANSPOZE then
      reloadTranspoze afterV.1 afterV.2 bloomSettings blurStrengthPrev
    else pure afterV)
  else pure (r, p)

/-! ## Reading a call list

GPU work is submitted by `Draw`, `DrawIndexed` and `Dispatch`. Each submission is looked at
together with the renderer events open around it and the calls issued since the previous
submission. -/

structure Submission where
  /-- The `Draw`, `DrawIndexed` or `Dispatch` call. -/
  command : Call
  /-- Markers of the renderer events open at the call, innermost first. -/
  events : List String
  /-- The calls since the previous submission, most recent first. -/
  setup : List Call
deriving DecidableEq, Repr

def submissionsFrom (events : List String) (setup : List Call) :
    List Call → List Submission
  | [] => []
  | .Draw n t :: cs => ⟨.Draw n t, events, setup⟩ :: submissionsFrom events [] cs
  | .DrawIndexed :: cs => ⟨.DrawIndexed, events, setup⟩ :: submissionsFrom events [] cs
  | .Dispatch x y z :: cs => ⟨.Dispatch x y z, events, setup⟩ :: submissionsFrom events [] cs
  | .BeginEvent m :: cs => submissionsFrom (m :: events) (.BeginEvent m :: setup) cs
  | .EndEvent :: cs => submissionsFrom events.tail (.EndEvent :: setup) cs
  | c :: cs => submissionsFrom events (c :: setup) cs

/-- The submissions of a call list, in order. -/
def submissions (trace : List Call) : List Submission :=
  submissionsFrom [] [] trace

/-- Render target(s) bound for the submission: the most recent bind call before it. -/
def Submission.renderTargets (s : Submission) : Option (List RenderTargetID) :=
  s.setup.findSome? fun
    | .BindRenderTarget rt => some [rt]
    | .BindRenderTargets rt0 rt1 => some [rt0, rt1]
    | _ => none

/-- Texture most recently set under `name` before the submission. -/
def Submission.texture (s : Submission) (name : String) : Option TextureID :=
  s.setup.findSome? fun
    | .SetTexture n tex => if n = name then some tex else none
    | _ => none

/-- Read-write texture most recently set under `name` before the submission. -/
def Submission.rwTexture (s : Submission) (name : String) : Option TextureID :=
  s.setup.findSome? fun
    | .SetRWTexture n tex => if n = name then some tex else none
    | _ => none

/-- Shader most recently set before the submission. -/
def Submission.shader (s : Submission) : Option ShaderID :=
  s.setup.findSome? fun
    | .SetShader sh _ => some sh
    | _ => none

/-- Whether the innermost open renderer event carries the marker `m`. -/
def Submission.inEvent (s : Submission) (m : String) : Bool :=
  s.events.head? = some m

def Submission.isDispatch (s : Submission) : Bool :=
  match s.command with
  | .Dispatch _ _ _ => true
  | _ => false

/-- The draws issued inside the event "Blur Pass" of the pixel-shader strategy. -/
def blurDraws (trace : List Call) : List Submission :=
  (submissions trace).filter fun s => s.inEvent "Blur Pass"

/-- The draws issued inside the event "Combine". -/
def combineDraws (trace : List Call) : List Submission :=
  (submissions trace).filter fun s => s.inEvent "Combine"

def dispatches (trace : List Call) : List Submission :=
  (submissions trace).filter Submission.isDispatch

def warnings (trace : List Call) : List Call :=
  trace.filter fun
    | .Log_Warning _ _ => true
    | _ => false

/-- The calls of pixel-shader pass `k` written out, for `k` a natural number. -/
def psPassCalls (r : Renderer) (p : BloomPass) (k : Nat) : List Call :=
  let source := if k % 2 = 0 then p._blurPingPong.e1 else p._blurPingPong.e0
  let pingPong := r.GetRenderTargetTexture source
  [ .SetShader (if k % 2 = 0 then p._blurShaderH else p._blurShaderV) [true],
    .BindRenderTarget (if k % 2 = 0 then p._blurPingPong.e0 else p._blurPingPong.e1),
    .SetConstant1i "textureWidth" (r.GetTextureObject pingPong)._width,
    .SetConstant1i "textureHeight" (r.GetTextureObject pingPong)._height,
    .SetTexture "InputTexture"
      (if k = 0 then r.GetRenderTargetTexture p._brightRT else pingPong),
    .SetSamplerState "BlurSampler" (.id p._blurSampler),
    .Apply,
    .DrawIndexed ]

/-- The submissions of the pixel-shader passes `ks` inside the open events `events`, when
the calls `before` precede the first pass. -/
def psPassSubmissions (r : Renderer) (p : BloomPass) (events : List String) :
    List Call → List Nat → List Submission
  | _, [] => []
  | before, k :: ks =>
    ⟨.DrawIndexed, events, ((psPassCalls r p k).take 7).reverse ++ before⟩
      :: psPassSubmissions r p events [] ks

/-- The calls between the bright filter's draw and the first pixel-shader pass, most recent
first. -/
def psLoopPrologue : List Call :=
  [.BeginEvent "Blur Pass", .GPU_BeginEntry "Bloom Blur<PS>", .GPU_EndEntry, .EndEvent]

/-- The call list of `Render` on the pixel-shader strategy when the loop runs `n` times. -/
def psTrace (r : Renderer) (p : BloomPass) (inputTextureID : TextureID)
    (settings : Settings.Bloom) (n : Nat) : List Call :=
  brightFilterCalls p inputTextureID settings
    ++ ([.GPU_BeginEntry "Bloom Blur<PS>", .BeginEvent "Blur Pass"]
      ++ (List.range' 0 n).flatMap (psPassCalls r p)
      ++ [.EndEvent, .GPU_EndEntry])
    ++ combineCalls r p (r.GetRenderTargetTexture p._blurPingPong.e0)

/-- The call list of `Render` on the compute strategy, written out. -/
def csTrace (r : Renderer) (p : BloomPass) (inputTextureID : TextureID)
    (settings : Settings.Bloom) : List Call :=
  brightFilterCalls p inputTextureID settings
    ++ [ .GPU_BeginEntry "Bloom Blur<CS>", .BeginEvent "Blur Compute Pass",
         .SetShader p.blurComputeShaderPingPong.e0 [true],
         .SetTexture "texColorIn" (r.GetRenderTargetTexture p._brightRT),
         .SetRWTexture "texColorOut" p.blurComputeOutputPingPong.e0,
         .SetSamplerState "sSampler" (.defaultState "POINT_SAMPLER"),
         .Apply,
         .Dispatch 1 (r.WindowHeight : Int) 1,
         .SetShader p.blurComputeShaderPingPong.e1 [true],
         .SetTexture "texColorIn" p.blurComputeOutputPingPong.e0,
         .SetRWTexture "texColorOut" p.blurComputeOutputPingPong.e1,
         .SetSamplerState "sSampler" (.defaultState "POINT_SAMPLER"),
         .Apply,
         .Dispatch (r.WindowWidth : Int) 1 1,
         .EndEvent, .GPU_EndEntry ]
    ++ combineCalls r p p.blurComputeOutputPingPong.e1

/-- The call list of `Render` on the compute-transpose strategy, written out. -/
def cstTrace (r : Renderer) (p : BloomPass) (inputTextureID : TextureID)
    (settings : Settings.Bloom) : List Call :=
  brightFilterCalls p inputTextureID settings
    ++ [ .GPU_BeginEntry "Bloom Blur<CS_T>", .BeginEvent "Blur Compute_Transpoze Pass",
         .SetShader p.blurComputeShaderPingPong.e0 [true, true],
         .SetTexture "texColorIn" (r.GetRenderTargetTexture p._brightRT),
         .SetSamplerState "sSampler" (.defaultState "POINT_SAMPLER"),
         .SetRWTexture "texColorOut" p.blurComputeOutputPingPong.e0,
         .Apply,
         .Dispatch 1 (r.WindowHeight : Int) 1,
         .SetShader p.sShaderTranspoze [true, true],
         .SetRWTexture "texImageIn" p.blurComputeOutputPingPong.e0,
         .SetRWTexture "texTranspozeOut" p.texTransposedImage,
         .Apply,
         .Dispatch ((r.WindowWidth / 16 : Nat) : Int) ((r.WindowHeight / 16 : Nat) : Int) 1,
         .SetShader p.blurHorizontalTranspozeComputeShader [true, true],
         .SetTexture "texColorIn" p.texTransposedImage,
         .SetSamplerState "sSampler" (.defaultState "POINT_SAMPLER"),
         .SetRWTexture "texColorOut" p.blurComputeOutputPingPong.e0,
         .Apply,
         .Dispatch 1 (r.WindowWidth : Int) 1,
         .EndEvent, .GPU_EndEntry ]
    ++ combineCalls r p p.blurComputeOutputPingPong.e0

/-- The submission of the bright filter. -/
def brightSubmission (p : BloomPass) (inputTextureID : TextureID)
    (settings : Settings.Bloom) : Submission :=
  ⟨.Draw 3 "TRIANGLE_LIST", ["Bright Filter", "Bloom"],
    ((brightFilterCalls p inputTextureID settings).take 12).reverse⟩

/-- The submission of the combine step when the calls `before` precede it. -/
def combineSubmission (r : Renderer) (p : BloomPass) (bloomTex : TextureID)
    (before : List Call) : Submission :=
  ⟨.DrawIndexed, ["Combine", "Bloom"], ((combineCalls r p bloomTex).take 9).reverse ++ before⟩

/-! ## Concrete data for evaluation -/

/-- A renderer whose render target `n` has texture `n + 100`, all textures 512 x 512. -/
def sampleRenderer : Renderer where
  mRenderTargets := []
  mShaders := []
  mSamplers := []
  mTextures := []
  reloadCalls := 0
  GetRenderTargetTexture := fun rt => rt + 100
  GetTextureObject := fun _ => ⟨512, 512⟩
  WindowWidth := 1920
  WindowHeight := 1080

/-- A pass with pairwise different handles. -/
def samplePass (selected : Int) : BloomPass where
  _colorRT := 0
  _brightRT := 1
  _finalRT := 2
  _blurPingPong := ⟨3, 4⟩
  _bloomFilterShader := 10
  _blurShaderH := 11
  _blurShaderV := 12
  _bloomCombineShader := 13
  _blurSampler := 20
  mSelectedBloomShader := selected
  blurComputeOutputPingPong := ⟨30, 31⟩
  blurComputeShaderPingPong := ⟨14, 15⟩
  blurHorizontalTranspozeComputeShader := 16
  texTransposedImage := 32
  sShaderTranspoze := 17

def sampleSettings (blurStrength : Int) : Settings.Bloom := ⟨true, 0, blurStrength⟩

/-- A 512 x 512 render-target descriptor. -/
def sampleRenderTargetDesc : RenderTargetDesc :=
  ⟨⟨512, 512, 2, "RENDER_TARGET"⟩, 2⟩

/-! ## Reading a call list in parts -/

/-- The renderer events open after the calls `calls`, when `events` were open before. -/
def eventsAfter (events : List String) : List Call → List String
  | [] => events
  | .BeginEvent m :: cs => eventsAfter (m :: events) cs
  | .EndEvent :: cs => eventsAfter events.tail cs
  | _ :: cs => eventsAfter events cs

/-- The calls issued since the last submission after the calls `calls`, most recent first,
when `setup` were the calls since the last submission before. -/
def setupAfter (setup : List Call) : List Call → List Call
  | [] => setup
  | .Draw _ _ :: cs => setupAfter [] cs
  | .DrawIndexed :: cs => setupAfter [] cs
  | .Dispatch _ _ _ :: cs => setupAfter [] cs
  | c :: cs => setupAfter (c :: setup) cs

/-- Markers of the renderer events around the three blur strategies. -/
def blurEventMarkers : List String :=
  ["Blur Pass", "Blur Compute Pass", "Blur Compute_Transpoze Pass"]

/-- What every blur section of `Render` satisfies: it closes the events it opens, and each
of its submissions is a `DrawIndexed` or a `Dispatch` inside one of the blur events. -/
def IsBlurSection (blur : List Call) : Prop :=
  eventsAfter ["Bloom"] blur = ["Bloom"]
    ∧ ∀ before, ∀ s ∈ submissionsFrom ["Bloom"] before blur,
        (∃ m ∈ blurEventMarkers, s.events = [m, "Bloom"])
          ∧ (s.command = .DrawIndexed ∨ s.isDispatch = true)

/-- The blur section of `Render` on the compute strategy, written out. -/
def csBlurCalls (r : Renderer) (p : BloomPass) : List Call :=
  [ .GPU_BeginEntry "Bloom Blur<CS>", .BeginEvent "Blur Compute Pass",
    .SetShader p.blurComputeShaderPingPong.e0 [true],
    .SetTexture "texColorIn" (r.GetRenderTargetTexture p._brightRT),
    .SetRWTexture "texColorOut" p.blurComputeOutputPingPong.e0,
    .SetSamplerState "sSampler" (.defaultState "POINT_SAMPLER"),
    .Apply,
    .Dispatch 1 (r.WindowHeight : Int) 1,
    .SetShader p.blurComputeShaderPingPong.e1 [true],
    .SetTexture "texColorIn" p.blurComputeOutputPingPong.e0,
    .SetRWTexture "texColorOut" p.blurComputeOutputPingPong.e1,
    .SetSamplerState "sSampler" (.defaultState "POINT_SAMPLER"),
    .Apply,
    .Dispatch (r.WindowWidth : Int) 1 1,
    .EndEvent, .GPU_EndEntry ]

/-- The blur section of `Render` on the compute-transpose strategy, written out. -/
def cstBlurCalls (r : Renderer) (p : BloomPass) : List Call :=
  [ .GPU_BeginEntry "Bloom Blur<CS_T>", .BeginEvent "Blur Compute_Transpoze Pass",
    .SetShader p.blurComputeShaderPingPong.e0 [true, true],
    .SetTexture "texColorIn" (r.GetRenderTargetTexture p._brightRT),
    .SetSamplerState "sSampler" (.defaultState "POINT_SAMPLER"),
    .SetRWTexture "texColorOut" p.blurComputeOutputPingPong.e0,
    .Apply,
    .Dispatch 1 (r.WindowHeight : Int) 1,
    .SetShader p.sShaderTranspoze [true, true],
    .SetRWTexture "texImageIn" p.blurComputeOutputPingPong.e0,
    .SetRWTexture "texTranspozeOut" p.texTransposedImage,
    .Apply,
    .Dispatch ((r.WindowWidth / 16 : Nat) : Int) ((r.WindowHeight / 16 : Nat) : Int) 1,
    .SetShader p.blurHorizontalTranspozeComputeShader [true, true],
    .SetTexture "texColorIn" p.texTransposedImage,
    .SetSamplerState "sSampler" (.defaultState "POINT_SAMPLER"),
    .SetRWTexture "texColorOut" p.blurComputeOutputPingPong.e0,
    .Apply,
    .Dispatch 1 (r.WindowWidth : Int) 1,
    .EndEvent, .GPU_EndEntry ]

/-- Value most recently set for the float constant `name` before the submission. -/
def Submission.constant1f (s : Submission) (name : String) : Option FloatBits :=
  s.setup.findSome? fun
    | .SetConstant1f n bits => if n = name then some bits else none
    | _ => none

/-- Depth-stencil state most recently set before the submission. -/
def Submission.depthStencilState (s : Submission) : Option String :=
  s.setup.findSome? fun
    | .SetDepthStencilState e => some e
    | _ => none

/-- Rasterizer state most recently set before the submission. -/
def Submission.rasterizerState (s : Submission) : Option String :=
  s.setup.findSome? fun
    | .SetRasterizerState e => some e
    | _ => none

/-! ## The PASS_COUNT macro of the compute shaders -/

/-- The shaders `UpdateSettings` looks up in a build: slot 0 of `blurComputeShaderPingPong`
under `USE_COMPUTE_BLUR`, slot 1 under `ENABLE_COMPUTE_BLUR`,
`blurHorizontalTranspozeComputeShader` under `ENABLE_COMPUTE_BLUR_TRANSPOZE`. These are the
shaders `Initialize` creates from `CSDescH`, `CSDescV` and `CSDescHTz`. -/
def computeShaders (bc : BuildConfig) (p : BloomPass) : List ShaderID :=
  (if bc.USE_COMPUTE_BLUR then [p.blurComputeShaderPingPong.e0] else [])
    ++ (if bc.ENABLE_COMPUTE_BLUR then [p.blurComputeShaderPingPong.e1] else [])
    ++ (if bc.ENABLE_COMPUTE_BLUR_TRANSPOZE then [p.blurHorizontalTranspozeComputeShader]
        else [])

/-- Lines 190-195 of `UpdateSettings` for any shader: the integer `std::stoi` reads from the
value of the macro before the last of the shader's first stage. -/
def passCountOf (r : Renderer) (shader : ShaderID) : Except Fault Int := do
  let CSDesc ← r.GetShaderDesc shader
  let m ← macroBeforeLast CSDesc.stage0.macros
  stoi m.value

/-- One `UpdateSettings` call per element of `updates`, in order. -/
def updateSettingsEach (bc : BuildConfig) :
    Renderer × BloomPass → List Settings.Bloom → Except Fault (Renderer × BloomPass)
  | rp, [] => .ok rp
  | rp, s :: rest =>
    match UpdateSettings bc rp.1 rp.2 s with
    | .ok rp' => updateSettingsEach bc rp' rest
    | .error e => .error e

/-- The blur strength applied last: that of the last element of `updates`, the initial one
when there was no update. -/
def lastApplied : Int → List Settings.Bloom → Int
  | s, [] => s
  | _, u :: rest => lastApplied u.blurStrength rest

/-- The macro list of the first stage of `d'` has the length of that of `d` and the same
element at every index other than size-2. -/
def SameMacrosButPassCount (d d' : ShaderDesc) : Prop :=
  d'.stage0.macros.length = d.stage0.macros.length
    ∧ ∀ i, i ≠ d.stage0.macros.length - 2 → d'.stage0.macros[i]? = d.stage0.macros[i]?

/-- The shader has a descriptor whose macro at index size-2 is `PASS_COUNT` with the given
value. -/
def HasPassCount (r : Renderer) (shader : ShaderID) (value : String) : Prop :=
  ∃ d, r.GetShaderDesc shader = .ok d
    ∧ macroBeforeLast d.stage0.macros = .ok ⟨"PASS_COUNT", value⟩

/-- Every shader of `r` is a shader of `r'`, with the same macros except possibly the one
at index size-2, which is either unchanged or `PASS_COUNT` with the given value. -/
def ReloadStep (value : String) (r r' : Renderer) : Prop :=
  ∀ shader d, r.GetShaderDesc shader = .ok d →
    ∃ d', r'.GetShaderDesc shader = .ok d' ∧ SameMacrosButPassCount d d'
      ∧ (macroBeforeLast d'.stage0.macros = macroBeforeLast d.stage0.macros
          ∨ macroBeforeLast d'.stage0.macros = .ok ⟨"PASS_COUNT", value⟩)

/-! ## Shader.h: CPUConstant (lines 42-57) -/

/-- The struct `CPUConstant`. `_data` is the address held by the `void*` member (`nullptr`
is 0), `_size` a `size_t`. -/
structure CPUConstant where
  _name : String
  _size : Nat
  _data : Nat
deriving DecidableEq, Repr

/-- The member `CPUConstant::operator==` (line 55). -/
def CPUConstant.operator_eq (this c : CPUConstant) : Bool :=
  ((this._data == c._data) && this._size == c._size) && this._name == c._name

/-- The member `CPUConstant::operator!=` (line 56). -/
def CPUConstant.operator_ne (this c : CPUConstant) : Bool :=
  (this._data != c._data) || this._size != c._size || this._name != c._name

/-! ## Shader.h: ShaderLoadDesc (lines 104-116) -/

/-- A `std::filesystem::file_time_type` value, in ticks. -/
abbrev FileTimeStamp := Nat

/-- The files `std::filesystem::last_write_time` can stat: the time of the last write of
each path that names one, `none` for every other path. -/
abbrev FileTimes := String → Option FileTimeStamp

/-- The function `std::filesystem::last_write_time(p)` in the overload without an
`error_code` parameter, which the constructor calls: it throws `filesystem_error` when the
file cannot be stat-ed. -/
def last_write_time (files : FileTimes) (p : String) : Except Fault FileTimeStamp :=
  match files p with
  | some t => .ok t
  | none => .error .filesystem_error

structure ShaderLoadDesc where
  fullPath : String
  cachePath : String
  lastWriteTime : FileTimeStamp
  cacheLastWriteTime : FileTimeStamp
deriving DecidableEq, Repr

/-- The constructor `ShaderLoadDesc(path, cachePath_)` of lines 107-111. -/
def ShaderLoadDesc.ctor (files : FileTimes) (path cachePath_ : String) :
    Except Fault ShaderLoadDesc := do
  let lastWriteTime ← last_write_time files path
  let cacheLastWriteTime ← last_write_time files cachePath_
  pure ⟨path, cachePath_, lastWriteTime, cacheLastWriteTime⟩

/-! ## The shader cache store (spec section 4.1) -/

/-- Where a shader stage binary came from. -/
inductive StageBinary where
  /-- Through `CompileFromCachedBinary`. -/
  | fromCache
  /-- Through `CompileFromSource`, which succeeded. -/
  | fromSource
  /-- The `CompileFromSource` call failed: no binary. -/
  | compileFailed
deriving DecidableEq, Repr

/-- Modelled from the spec: the code that chooses between `CompileFromCachedBinary` and
`CompileFromSource` is in Shader.cpp, which is not among the sources. The store is the
last-write time of every file together with the counter of compile calls. -/
structure ShaderCacheStore where
  files : FileTimes
  compileCalls : Nat

/-- Modelled from the spec: the validity rule of section 4.1, missing from the sources.
The cached binary is usable iff the cache file exists and its last-write time is not
before that of the source; a file that cannot be stat-ed makes it a cache miss. -/
def IsCacheValid (files : FileTimes) (sourcePath cachePath : String) : Bool :=
  match files cachePath, files sourcePath with
  | some cacheTime, some sourceTime => decide (sourceTime ≤ cacheTime)
  | _, _ => false

/-- Modelled from the spec: loading one shader stage, missing from the sources. A valid
cache is loaded and nothing changes. Otherwise `CompileFromSource` is called (counted);
`compiles` is the flag it returns, and a successful compilation writes the cache file, at
time `now`, through `CacheShaderBinary`. -/
def LoadShaderStage (store : ShaderCacheStore) (sourcePath cachePath : String)
    (compiles : Bool) (now : FileTimeStamp) : ShaderCacheStore × StageBinary :=
  if IsCacheValid store.files sourcePath cachePath then (store, .fromCache)
  else if compiles then
    ({ files := fun p => if p = cachePath then some now else store.files p,
       compileCalls := store.compileCalls + 1 }, .fromSource)
  else ({ store with compileCalls := store.compileCalls + 1 }, .compileFailed)

/-- A write to the file `path` at time `t`. -/
def ShaderCacheStore.touch (store : ShaderCacheStore) (path : String) (t : FileTimeStamp) :
    ShaderCacheStore :=
  { store with files := fun p => if p = path then some t else store.files p }

/-- Files to evaluate on: a shader source written at tick 100 and no cache file. -/
def sampleFiles : FileTimes := fun p => if p = "Blur_cs.hlsl" then some 100 else none

/-! ## CustomParser.cpp: lookup tables and the data the scene parser fills -/

/-- The function `GetLowercased` (lines 57-62): every character through `::tolower`. -/
def GetLowercased (str : String) : String := String.mk (str.data.map Char.toLower)

/-- The member `std::unordered_map::at`: the value stored for the key,
`std::out_of_range` when there is none. -/
def mapAt {β : Type} (table : List (String × β)) (key : String) : Except Fault β :=
  match table.lookup key with
  | some v => .ok v
  | none => .error .out_of_range

/-- The table `sBoolTypeReflection` of lines 34-39. -/
def sBoolTypeReflection : List (String × Bool) :=
  [("true", true), ("false", false), ("yes", true), ("no", false), ("1", true), ("0", false)]

/-- The float literals of `ParseScene`, as IEEE-754 single precision bit patterns. -/
def float_1_5 : FloatBits := 0x3FC00000

def float_0_15 : FloatBits := 0x3E19999A

def float_0_01 : FloatBits := 0x3C23D70A

def float_1000 : FloatBits := 0x447A0000

def float_7 : FloatBits := 0x40E00000

def float_1 : FloatBits := 0x3F800000

/-- The struct `Settings::Camera`, reduced to the members `ParseScene` assigns. -/
structure Settings.Camera where
  nearPlane : FloatBits
  farPlane : FloatBits
  fovV : FloatBits
  x : FloatBits
  y : FloatBits
  z : FloatBits
  yaw : FloatBits
  pitch : FloatBits
deriving DecidableEq, Repr

structure Settings.SSAO where
  bEnabled : Bool
  ambientFactor : FloatBits
  radius : FloatBits
  intensity : FloatBits
deriving DecidableEq, Repr

/-- The member `SerializedScene::settings`, reduced to what `ParseScene` assigns. -/
structure Settings.SceneRender where
  bloom : Settings.Bloom
  ssao : Settings.SSAO
  bSkylightEnabled : Bool
deriving DecidableEq, Repr

inductive ELightType where
  | POINT
  | SPOT
  | DIRECTIONAL
deriving DecidableEq, Repr

inductive EColorValue where
  | ORANGE | BLACK | WHITE | RED | GREEN | BLUE | YELLOW | MAGENTA | CYAN | GRAY
  | LIGHT_GRAY | PURPLE | SUN
deriving DecidableEq, Repr

/-- A `LinearColor`: an entry of `LinearColor::s_palette` or the result of the constructor
`LinearColor(r, g, b)`. -/
inductive LinearColor where
  | s_palette (index : EColorValue)
  | rgb (r g b : FloatBits)
deriving DecidableEq, Repr

/-- The calls `ParseScene` makes on a `Transform`. -/
inductive TransformCall where
  | SetPosition (x y z : FloatBits)
  | RotateAroundGlobalXAxisDegrees (angle : FloatBits)
  | RotateAroundGlobalYAxisDegrees (angle : FloatBits)
  | RotateAroundGlobalZAxisDegrees (angle : FloatBits)
  | SetUniformScale (s : FloatBits)
  | SetScale (x y z : FloatBits)
deriving DecidableEq, Repr

/-- Modelled from the spec: class `Transform` is not among the sources (the spec keeps the
math utilities out of scope). A transform is the list of calls made on a
default-constructed one, in order. -/
abbrev Transform := List TransformCall

/-- The class `Light`, reduced to the members `ParseScene` assigns. -/
structure Light where
  mType : ELightType
  mColor : LinearColor
  mBrightness : FloatBits
  mbCastingShadows : Bool
  mDepthBias : FloatBits
  mNearPlaneDistance : FloatBits
  mFarPlaneDistance : FloatBits
  mRange : FloatBits
  mSpotOuterConeAngleDegrees : FloatBits
  mSpotInnerConeAngleDegrees : FloatBits
  mViewportX : FloatBits
  mViewportY : FloatBits
  mDistanceFromOrigin : FloatBits
  mAttenuationConstant : FloatBits
  mAttenuationLinear : FloatBits
  mAttenuationQuadratic : FloatBits
  mTransform : Transform
  mbEnabled : Bool
deriving DecidableEq, Repr

/-- The table `sLightTypeLookup` of lines 311-320. -/
def sLightTypeLookup : List (String × ELightType) :=
  [("s", .SPOT), ("p", .POINT), ("d", .DIRECTIONAL),
   ("spot", .SPOT), ("point", .POINT), ("directional", .DIRECTIONAL)]

/-- The table `sColorLookup` of lines 322-338; "orange" is listed twice. -/
def sColorLookup : List (String × LinearColor) :=
  [("orange", .s_palette .ORANGE), ("black", .s_palette .BLACK),
   ("white", .s_palette .WHITE), ("red", .s_palette .RED), ("green", .s_palette .GREEN),
   ("blue", .s_palette .BLUE), ("yellow", .s_palette .YELLOW),
   ("magenta", .s_palette .MAGENTA), ("cyan", .s_palette .CYAN), ("gray", .s_palette .GRAY),
   ("light_gray", .s_palette .LIGHT_GRAY), ("orange", .s_palette .ORANGE),
   ("purple", .s_palette .PURPLE), ("sun", .s_palette .SUN)]

/-- The table `TEXTURE_MAP_CMD_INDEX_LOOKUP` of lines 358-368. -/
def TEXTURE_MAP_CMD_INDEX_LOOKUP : List (String × Nat) :=
  [("colorMap", 0), ("diffuseMap", 0), ("albedoMap", 0), ("normalMap", 1), ("heightMap", 2),
   ("metallicMap", 3), ("roughnessMap", 4), ("emissiveMap", 5)]

/-- The enumerators of `EPBRTextures` (lines 280-299). -/
def COLOR_MAP : Nat := 0

def DIFFUSE_MAP : Nat := COLOR_MAP

def NORMAL_MAP : Nat := 1

def HEIGHT_MAP : Nat := 2

def METALLIC_MAP : Nat := 3

def ROUGHNESS_MAP : Nat := 4

def EMISSIVE_MAP : Nat := 5

def NUM_PBR_TEXTURE_INPUTS : Nat := 6

/-! ## CustomParser.cpp: scene, parser state and surroundings -/

inductive EMaterialType where
  | GGX_BRDF
  | BLINN_PHONG
deriving DecidableEq, Repr

/-- The classes `Material`, `BRDF_Material` and `BlinnPhong_Material`, reduced to the
members `ParseScene` assigns; one record stands for an object of any of the three. -/
structure Material where
  type : EMaterialType
  diffuseMap : TextureID
  normalMap : TextureID
  heightMap : TextureID
  metallicMap : TextureID
  roughnessMap : TextureID
  emissiveMap : TextureID
  diffuse : LinearColor
  alpha : FloatBits
  tiling : FloatBits × FloatBits
  emissiveColor : FloatBits × FloatBits × FloatBits
  emissiveIntensity : FloatBits
  roughness : FloatBits
  metalness : FloatBits
  shininess : FloatBits
deriving DecidableEq, Repr

inductive EGeometry where
  | TRIANGLE | QUAD | CUBE | SPHERE | GRID | CYLINDER | CONE
deriving DecidableEq, Repr

/-- The table `sMeshLookup` of lines 648-658. -/
def sMeshLookup : List (String × EGeometry) :=
  [("triangle", .TRIANGLE), ("quad", .QUAD), ("cube", .CUBE), ("sphere", .SPHERE),
   ("grid", .GRID), ("cylinder", .CYLINDER), ("cone", .CONE)]

/-- The struct `Model`, reduced to the members `ParseScene` assigns. -/
structure Model where
  mbLoaded : Bool
  mModelDirectory : String
  mModelName : String
deriving DecidableEq, Repr

/-- A pointer into the object pool or the material pool of a scene: the scene whose pool
it is, and the position in the pool. -/
structure PoolPtr where
  scene : Nat
  index : Nat
deriving DecidableEq, Repr

/-- Modelled from the spec: class `GameObject` is not among the sources. An object holds
what `AddMesh`, `AddMaterial`, `SetTransform` and `SetModel` were given. -/
structure GameObject where
  meshes : List EGeometry
  materials : List PoolPtr
  mModel : Model
  transform : Transform
deriving DecidableEq, Repr

/-- Modelled from the spec: struct `SerializedScene` is not among the sources. `id` tells
one scene object from another; `objects` and `materials` are the pools that
`CreateNewGameObject` and `materials.CreateAndGetMaterial` add to. -/
structure SerializedScene where
  id : Nat
  cameras : List Settings.Camera
  lights : List Light
  directionalLight : Light
  objects : List GameObject
  materials : List Material
  settings : Settings.SceneRender
  loadSuccess : Char
deriving DecidableEq, Repr

/-- The enumeration `MaterialType` of line 273. -/
inductive MaterialType where
  | UNKNOWN
  | BRDF
  | PHONG
deriving DecidableEq, Repr

/-- The file-scope variables of lines 269-278 and 306: the state `ParseScene` keeps between
calls. -/
structure ParserStatics where
  bIsReadingGameObject : Bool
  bIsReadingLight : Bool
  bIsReadingMaterial : Bool
  materialType : MaterialType
  pMaterial : Option PoolPtr
  pObject : Option PoolPtr
  sLight : Light
  sTextureSet : List TextureID
deriving DecidableEq, Repr

inductive LogLevel where
  | Info
  | Warning
  | Error
deriving DecidableEq, Repr

/-- One call of `Log::Info`, `Log::Warning` or `Log::Error`: format string and arguments. -/
structure LogLine where
  level : LogLevel
  format : String
  args : List String
deriving DecidableEq, Repr

/-- One call of `Renderer::CreateTextureFromFile`; an argument left out is `none`. -/
structure TextureRequest where
  fileName : String
  fileRoot : Option String
  bGenerateMips : Option Bool
deriving DecidableEq, Repr

/-- What `ParseScene` depends on and the sources do not define: `std::stof`, the helpers of
`StrUtil` and `DirectoryUtil`, the renderer's texture loader (the handle it returns, given
the requests served before), `std::filesystem`, the default constructors, and the
preprocessor switches. -/
structure ParserEnv where
  stof : String → Except Fault FloatBits
  split : String → List Char → List String
  IsImageName : String → Bool
  CreateTextureFromFile : List TextureRequest → TextureRequest → TextureID
  sTextureRoot : String
  INVALID_TEXTURE_ID : TextureID
  fileExists : String → Bool
  directory_iterator : String → List String
  defaultLight : Light
  defaultMaterial : EMaterialType → Material
  defaultGameObject : GameObject
  NDEBUG : Bool
  CPP17 : Bool
  ENABLE_PARALLAX_MAPPING : Bool

/-- Everything a `ParseScene` call can change: the file-scope variables, the scene passed
by reference, the log and the renderer's texture requests. -/
structure ParserWorld where
  statics : ParserStatics
  scene : SerializedScene
  log : List LogLine
  textureRequests : List TextureRequest
deriving DecidableEq, Repr

/-- The values of the file-scope variables at program start: the initialisers of lines
269-278, and zeroes for `sTextureSet`. -/
def ParserStatics.initial (env : ParserEnv) : ParserStatics :=
  { bIsReadingGameObject := false, bIsReadingLight := false, bIsReadingMaterial := false,
    materialType := .UNKNOWN, pMaterial := none, pObject := none,
    sLight := env.defaultLight, sTextureSet := List.replicate NUM_PBR_TEXTURE_INPUTS 0 }

/-! ## CustomParser.cpp: helpers of ParseScene -/

/-- Read of `command[i]`; an index past the end has no element. -/
def tokenAt (command : List String) (i : Nat) : Except Fault String :=
  match command[i]? with
  | some t => .ok t
  | none => .error .indexOutOfRange

def ParserWorld.Log_Info (w : ParserWorld) (format : String) (args : List String) :
    ParserWorld :=
  { w with log := w.log ++ [⟨.Info, format, args⟩] }

def ParserWorld.Log_Warning (w : ParserWorld) (format : String) (args : List String) :
    ParserWorld :=
  { w with log := w.log ++ [⟨.Warning, format, args⟩] }

def ParserWorld.Log_Error (w : ParserWorld) (format : String) (args : List String) :
    ParserWorld :=
  { w with log := w.log ++ [⟨.Error, format, args⟩] }

/-- The macro `assert`: nothing under `NDEBUG`, otherwise a failed condition aborts. -/
def cAssert (env : ParserEnv) (condition : Bool) : Except Fault Unit :=
  if env.NDEBUG || condition then .ok () else .error .assertionFailed

/-- A call of `pRenderer->CreateTextureFromFile`: the request is recorded, the handle is
the renderer's answer. -/
def ParserWorld.CreateTextureFromFile (env : ParserEnv) (w : ParserWorld)
    (request : TextureRequest) : ParserWorld × TextureID :=
  ({ w with textureRequests := w.textureRequests ++ [request] },
    env.CreateTextureFromFile w.textureRequests request)

/-- Modelled from the spec: `SerializedScene::CreateNewGameObject` is not among the sources;
it adds a default-constructed object to the pool and returns a pointer to it. -/
def SerializedScene.CreateNewGameObject (env : ParserEnv) (scene : SerializedScene) :
    SerializedScene × PoolPtr :=
  ({ scene with objects := scene.objects ++ [env.defaultGameObject] },
    ⟨scene.id, scene.objects.length⟩)

/-- Modelled from the spec: `MaterialPool::CreateAndGetMaterial` is not among the sources;
it adds a default-constructed material of the type to the pool and returns a pointer to
it. -/
def SerializedScene.CreateAndGetMaterial (env : ParserEnv) (scene : SerializedScene)
    (type : EMaterialType) : SerializedScene × PoolPtr :=
  ({ scene with materials := scene.materials ++ [env.defaultMaterial type] },
    ⟨scene.id, scene.materials.length⟩)

/-- An access through `pObject`: the object is replaced by `f` of it. A null pointer and a
pointer that is not into the pool of `scene` have no object. -/
def ParserWorld.throughObject (w : ParserWorld) (f : GameObject → GameObject) :
    Except Fault ParserWorld :=
  match w.statics.pObject with
  | none => .error .nullDereference
  | some ptr =>
    if ptr.scene ≠ w.scene.id then .error .danglingPointer
    else
      match w.scene.objects[ptr.index]? with
      | some object =>
        .ok { w with scene := { w.scene with
          objects := w.scene.objects.set ptr.index (f object) } }
      | none => .error .danglingPointer

/-- An access through `pMaterial`, as `throughObject`. -/
def ParserWorld.throughMaterial (w : ParserWorld) (f : Material → Material) :
    Except Fault ParserWorld :=
  match w.statics.pMaterial with
  | none => .error .nullDereference
  | some ptr =>
    if ptr.scene ≠ w.scene.id then .error .danglingPointer
    else
      match w.scene.materials[ptr.index]? with
      | some material =>
        .ok { w with scene := { w.scene with
          materials := w.scene.materials.set ptr.index (f material) } }
      | none => .error .danglingPointer

/-- The function `ResetPresets` (line 455). -/
def ResetPresets (_textureSet : List TextureID) : List TextureID :=
  List.replicate NUM_PBR_TEXTURE_INPUTS (-1)

/-- Element `textureSet[i]` of a `std::array` of `NUM_PBR_TEXTURE_INPUTS` handles. -/
def textureAt (textureSet : List TextureID) (i : Nat) : Except Fault TextureID :=
  match textureSet[i]? with
  | some t => .ok t
  | none => .error .indexOutOfRange

/-- The function `AssignPresets` (lines 456-465), on the material `pMat` points to. -/
def AssignPresets (w : ParserWorld) (textureSet : List TextureID) :
    Except Fault ParserWorld := do
  let diffuseMap ← textureAt textureSet COLOR_MAP
  let normalMap ← textureAt textureSet NORMAL_MAP
  let heightMap ← textureAt textureSet HEIGHT_MAP
  let metallicMap ← textureAt textureSet METALLIC_MAP
  let roughnessMap ← textureAt textureSet ROUGHNESS_MAP
  let emissiveMap ← textureAt textureSet EMISSIVE_MAP
  w.throughMaterial fun m =>
    { m with diffuseMap := diffuseMap, normalMap := normalMap, heightMap := heightMap,
             metallicMap := metallicMap, roughnessMap := roughnessMap,
             emissiveMap := emissiveMap }

/-- The test `str.find(pattern) != std::string::npos`. -/
def containsSubstring (str pattern : String) : Bool :=
  str.data.tails.any fun t => pattern.data.isPrefixOf t

/-- Read of `tokens[tokens.size() - k]`, the index computed in `size_t`: a list shorter
than `k` has no such element. `tokens.back()` is the case `k = 1`. -/
def fromEnd (tokens : List String) (k : Nat) : Except Fault String :=
  if tokens.length < k then .error .indexOutOfRange else tokenAt tokens (tokens.length - k)

/-- The value `stof(command[i])`. -/
def stofAt (env : ParserEnv) (command : List String) (i : Nat) : Except Fault FloatBits :=
  tokenAt command i >>= env.stof

/-- The table `CG_BOOKCASE_TEXTURE_TYPE_LOOKUP` of lines 375-404. -/
def CG_BOOKCASE_TEXTURE_TYPE_LOOKUP : List (String × Nat) :=
  [("_Base_Color", 0), ("Color", 0), ("_Normal", 1), ("Normal", 1), ("_Height", 2),
   ("Height", 2), ("_Metallic", 3), ("Metallic", 3), ("_Roughness", 4), ("Roughness", 4),
   ("_Emissive", 5), ("Emissive", 5)]

/-- One round of the loop of lines 424-442 of `LoadPBRPreset`, on one path of the preset
folder. -/
def loadPresetTexture (env : ParserEnv) (PBR_ROOT : String)
    (state : ParserWorld × List TextureID) (strTexMapPath : String) :
    Except Fault (ParserWorld × List TextureID) := do
  let tokens := env.split strTexMapPath ['/', '\\']
  let presetFolderName := (← fromEnd tokens 2) ++ "/"
  let presetLibraryName := (← fromEnd tokens 3) ++ "/"
  let fileName ← fromEnd tokens 1
  let fileNameNoExtension ← tokenAt (env.split fileName ['.']) 0
  let textureTypeToken ← fromEnd (env.split fileNameNoExtension ['_']) 1
  if textureTypeToken = "AO" then pure state
  else do
    let textureSetIndex ← mapAt CG_BOOKCASE_TEXTURE_TYPE_LOOKUP textureTypeToken
    if !env.ENABLE_PARALLAX_MAPPING && textureSetIndex == HEIGHT_MAP then pure state
    else
      let created := state.1.CreateTextureFromFile env
        ⟨fileName, some (PBR_ROOT ++ presetLibraryName ++ presetFolderName), some true⟩
      pure (created.1, state.2.set textureSetIndex created.2)

/-- The function `LoadPBRPreset(pRenderer, presetPath)` of lines 370-453: the texture set
of a preset folder. -/
def LoadPBRPreset (env : ParserEnv) (w : ParserWorld) (presetPath : String) :
    Except Fault (ParserWorld × List TextureID) :=
  let textureSet := List.replicate NUM_PBR_TEXTURE_INPUTS env.INVALID_TEXTURE_ID
  if env.CPP17 then
    let PBR_ROOT := env.sTextureRoot ++ "PBR/"
    let _presetPath := PBR_ROOT ++ presetPath
    if !env.fileExists _presetPath then
      .ok (w.Log_Error "LoadPBRPreset(): Path doesn't exist: %s" [_presetPath], textureSet)
    else
      (env.directory_iterator _presetPath).foldlM (loadPresetTexture env PBR_ROOT)
        (w, textureSet)
  else
    .ok (w.Log_Warning ("CPP17 not supported, directory functionality doesn't have "
      ++ "implementation for LoadPBRPreset()") [], textureSet)

/-- The overload `LoadPBRPreset(pRenderer, presetPath, pMaterial)` of lines 467-471. -/
def LoadPBRPresetInto (env : ParserEnv) (w : ParserWorld) (presetPath : String) :
    Except Fault ParserWorld := do
  let loaded ← LoadPBRPreset env w presetPath
  AssignPresets loaded.1 loaded.2

/-! ## CustomParser.cpp: the branches of ParseScene (lines 473-1027) -/

/-- Lines 477-498: `camera`. -/
def parseCamera (env : ParserEnv) (w : ParserWorld) (command : List String) :
    Except Fault ParserWorld := do
  let w ← (if command.length ≠ 9 then do
      let logged := w.Log_Info "camera input parameter count != 4" []
      cAssert env (command.length == 9)
      pure logged
    else pure w)
  let nearPlane ← stofAt env command 1
  let farPlane ← stofAt env command 2
  let fovV ← stofAt env command 3
  let x ← stofAt env command 4
  let y ← stofAt env command 5
  let z ← stofAt env command 6
  let yaw ← stofAt env command 7
  let pitch ← stofAt env command 8
  pure { w with scene := { w.scene with
    cameras := w.scene.cameras ++ [⟨nearPlane, farPlane, fovV, x, y, z, yaw, pitch⟩] } }

/-- Lines 517-530: the `if (objCmd == "end")` of `light`. -/
def parseLightEnd (w : ParserWorld) (objCmd : String) : ParserWorld :=
  if objCmd = "end" then
    if !w.statics.bIsReadingLight then
      w.Log_Error " expecting \"light begin\" before ending a light definition" []
    else
      let statics := { w.statics with bIsReadingLight := false }
      if w.statics.sLight.mType = .DIRECTIONAL then
        { w with statics := statics,
                 scene := { w.scene with directionalLight := w.statics.sLight } }
      else
        { w with statics := statics,
                 scene := { w.scene with lights := w.scene.lights ++ [w.statics.sLight] } }
  else w

/-- Lines 499-531: `light`. -/
def parseLight (env : ParserEnv) (w : ParserWorld) (command : List String) :
    Except Fault ParserWorld := do
  let objCmd := GetLowercased (← tokenAt command 1)
  if objCmd = "begin" then
    if w.statics.bIsReadingLight then
      pure (w.Log_Error
        " expecting \"light end\" before starting a new light definition" [])
    else
      pure (parseLightEnd
        { w with statics := { w.statics with
            bIsReadingLight := true, sLight := env.defaultLight } } objCmd)
  else pure (parseLightEnd w objCmd)

/-- Lines 552-561: the `if (objCmd == "end")` of `object`. -/
def parseObjectEnd (w : ParserWorld) (objCmd : String) : ParserWorld :=
  if objCmd = "end" then
    if !w.statics.bIsReadingGameObject then
      w.Log_Error " expecting \"object begin\" before ending an object definition" []
    else
      { w with statics := { w.statics with bIsReadingGameObject := false, pObject := none } }
  else w

/-- Lines 533-562: `object`. -/
def parseObject (env : ParserEnv) (w : ParserWorld) (command : List String) :
    Except Fault ParserWorld := do
  let objCmd := GetLowercased (← tokenAt command 1)
  if objCmd = "begin" then
    if w.statics.bIsReadingGameObject then
      pure (w.Log_Error
        " expecting \"object end\" before starting a new object definition" [])
    else
      let created := w.scene.CreateNewGameObject env
      pure (parseObjectEnd
        { w with scene := created.1,
                 statics := { w.statics with
                   bIsReadingGameObject := true, pObject := some created.2 } } objCmd)
  else pure (parseObjectEnd w objCmd)

/-- The statements `pMaterial = scene.materials.CreateAndGetMaterial(type);
pObject->AddMaterial(pMaterial);` of lines 581-582, 599-600, 690-691. -/
def createMaterialForObject (env : ParserEnv) (w : ParserWorld) (type : EMaterialType) :
    Except Fault ParserWorld :=
  let created := w.scene.CreateAndGetMaterial env type
  ParserWorld.throughObject
    { w with scene := created.1,
             statics := { w.statics with pMaterial := some created.2 } }
    fun object => { object with materials := object.materials ++ [created.2] }

/-- The statement `ResetPresets(sTextureSet);`. -/
def ParserWorld.resetPresets (w : ParserWorld) : ParserWorld :=
  { w with statics := { w.statics with sTextureSet := ResetPresets w.statics.sTextureSet } }

/-- Lines 587-593 and 682-686: a material block is closed. -/
def closeMaterialBlock (w : ParserWorld) : Except Fault ParserWorld := do
  let w := { w with statics := { w.statics with
    materialType := .UNKNOWN, bIsReadingMaterial := false } }
  let w ← AssignPresets w w.statics.sTextureSet
  pure w.resetPresets

/-- Lines 565-609: `pbr`. -/
def parsePbr (env : ParserEnv) (w : ParserWorld) (command : List String) :
    Except Fault ParserWorld :=
  if !w.statics.bIsReadingGameObject then
    .ok (w.Log_Error
      " Creating BRDF Material without defining a game object (missing cmd: \"%s\""
      ["object begin"])
  else do
    let pbrCmd := GetLowercased (← tokenAt command 1)
    if pbrCmd = "begin" then do
      let w := { w with statics := { w.statics with
        bIsReadingMaterial := true, materialType := .BRDF } }
      let w ← createMaterialForObject env w .GGX_BRDF
      pure w.resetPresets
    else if pbrCmd = "end" then closeMaterialBlock w
    else do
      let w ← createMaterialForObject env w .GGX_BRDF
      let w ← LoadPBRPresetInto env w pbrCmd
      let w := { w with statics := { w.statics with bIsReadingMaterial := false } }
      pure w.resetPresets

/-- Lines 610-636: a command with `Map` in its name. -/
def parseTextureMap (env : ParserEnv) (w : ParserWorld) (command : List String)
    (cmd : String) : Except Fault ParserWorld :=
  match TEXTURE_MAP_CMD_INDEX_LOOKUP.lookup cmd with
  | none => .ok (w.Log_Error "CustomParser: Texture command not found: %s" [cmd])
  | some textureMapIndex =>
    if !env.ENABLE_PARALLAX_MAPPING && textureMapIndex == HEIGHT_MAP then .ok w
    else do
      let tokens := env.split (← tokenAt command 1) ['/']
      let fileName ← fromEnd tokens 1
      let bHasFolder := decide (tokens.length > 3)
      let folderPath ←
        (if bHasFolder then do
          let library ← fromEnd tokens 3
          let folder ← fromEnd tokens 2
          pure (library ++ "/" ++ folder ++ "/")
        else if tokens.length ≥ 2 then do
          let folder ← fromEnd tokens 2
          pure (folder ++ "/")
        else pure "")
      let PBR_ROOT := env.sTextureRoot ++ "PBR/"
      let created := w.CreateTextureFromFile env
        ⟨fileName, some (PBR_ROOT ++ folderPath), some true⟩
      pure { created.1 with statics := { created.1.statics with
        sTextureSet := created.1.statics.sTextureSet.set textureMapIndex created.2 } }

/-- Lines 637-665: `mesh`. -/
def parseMesh (w : ParserWorld) (command : List String) : Except Fault ParserWorld :=
  if !w.statics.bIsReadingGameObject then
    .ok (w.Log_Error
      " Creating mesh without defining a game object (missing cmd: \"%s\"" ["object begin"])
  else do
    let mesh := GetLowercased (← tokenAt command 1)
    let geometry ← mapAt sMeshLookup mesh
    let w ← w.throughObject fun object => { object with meshes := object.meshes ++ [geometry] }
    w.throughObject fun object => { object with mModel := { object.mModel with mbLoaded := true } }

/-- Lines 666-696: `brdf`. -/
def parseBrdf (env : ParserEnv) (w : ParserWorld) : Except Fault ParserWorld :=
  if !w.statics.bIsReadingGameObject then
    .ok (w.Log_Error
      " Creating BRDF Material without defining a game object (missing cmd: \"%s\""
      ["object begin"])
  else if w.statics.bIsReadingMaterial then
    if w.statics.materialType ≠ .BRDF then
      .ok (w.Log_Error " Syntax Error: Already defining a Phong material!" [])
    else closeMaterialBlock w
  else do
    let w := { w with statics := { w.statics with
      bIsReadingMaterial := true, materialType := .BRDF } }
    let w ← createMaterialForObject env w .GGX_BRDF
    pure w.resetPresets

/-- Lines 697-725: `blinnphong` and `phong`; the function returns at line 700. -/
def parsePhong (w : ParserWorld) : Except Fault ParserWorld :=
  .ok (w.Log_Info "Todo: blinnphong mat" [])

/-- Lines 727-763: `diffuse` and `albedo`. -/
def parseDiffuse (env : ParserEnv) (w : ParserWorld) (command : List String)
    (cmd : String) : Except Fault ParserWorld :=
  if !w.statics.bIsReadingMaterial then
    .ok (w.Log_Error " Cannot define Material Property: %s" [cmd])
  else do
    let firstParam := GetLowercased (← tokenAt command 1)
    if env.IsImageName firstParam then
      let created := w.CreateTextureFromFile env ⟨firstParam, none, none⟩
      created.1.throughMaterial fun m => { m with diffuseMap := created.2 }
    else do
      cAssert env (decide (command.length ≥ 4))
      let r ← stofAt env command 1
      let g ← stofAt env command 2
      let b ← stofAt env command 3
      if command.length = 5 then do
        let a ← stofAt env command 4
        let w ← w.throughMaterial fun m => { m with diffuse := .rgb r g b }
        w.throughMaterial fun m => { m with alpha := a }
      else w.throughMaterial fun m => { m with diffuse := .rgb r g b }

/-- Lines 764-779: `tiling`. -/
def parseTiling (env : ParserEnv) (w : ParserWorld) (command : List String)
    (cmd : String) : Except Fault ParserWorld :=
  if !w.statics.bIsReadingMaterial then
    .ok (w.Log_Error " Cannot define Material Property: %s" [cmd])
  else do
    let tiling1 ← stofAt env command 1
    let tiling2 ← (if command.length > 2 then stofAt env command 2 else pure tiling1)
    w.throughMaterial fun m => { m with tiling := (tiling1, tiling2) }

/-- Lines 780-792: `roughness`. -/
def parseRoughness (env : ParserEnv) (w : ParserWorld) (command : List String) :
    Except Fault ParserWorld :=
  if !w.statics.bIsReadingMaterial || w.statics.materialType != .BRDF then
    .ok (w.Log_Error " Cannot define Material Property: roughness " [])
  else do
    let value ← stofAt env command 1
    w.throughMaterial fun m => { m with roughness := value }

/-- Lines 793-805: `metalness`. -/
def parseMetalness (env : ParserEnv) (w : ParserWorld) (command : List String) :
    Except Fault ParserWorld :=
  if !w.statics.bIsReadingMaterial || w.statics.materialType != .BRDF then
    .ok (w.Log_Error " Cannot define Material Property: metalness " [])
  else do
    let value ← stofAt env command 1
    w.throughMaterial fun m => { m with metalness := value }

/-- Lines 806-823: `emissive` and `emissiveColor`. -/
def parseEmissive (env : ParserEnv) (w : ParserWorld) (command : List String) :
    Except Fault ParserWorld :=
  if !w.statics.bIsReadingMaterial then
    .ok (w.Log_Error " Cannot define Material Property: emissive color " [])
  else do
    cAssert env (decide (command.length ≥ 4))
    let r ← stofAt env command 1
    let g ← stofAt env command 2
    let b ← stofAt env command 3
    let w ← w.throughMaterial fun m => { m with emissiveColor := (r, g, b) }
    if command.length > 4 then do
      let intensity ← stofAt env command 4
      w.throughMaterial fun m => { m with emissiveIntensity := intensity }
    else pure w

/-- Lines 824-833: `emissiveIntensity` and `emissiveColorIntensity`. -/
def parseEmissiveIntensity (env : ParserEnv) (w : ParserWorld) (command : List String) :
    Except Fault ParserWorld :=
  if !w.statics.bIsReadingMaterial then
    .ok (w.Log_Error " Cannot define Material Property: emissiveIntensity " [])
  else do
    let intensity ← stofAt env command 1
    w.throughMaterial fun m => { m with emissiveIntensity := intensity }

/-- Lines 834-846: `shininess`. -/
def parseShininess (env : ParserEnv) (w : ParserWorld) (command : List String) :
    Except Fault ParserWorld :=
  if !w.statics.bIsReadingMaterial || w.statics.materialType != .PHONG then
    .ok (w.Log_Error " Cannot define Material Property: shininess " [])
  else do
    let value ← stofAt env command 1
    w.throughMaterial fun m => { m with shininess := value }

/-- The assignment `sTextureSet[i] = pRenderer->CreateTextureFromFile(fileName)`. -/
def loadIntoTextureSet (env : ParserEnv) (w : ParserWorld) (fileName : String) (i : Nat) :
    ParserWorld :=
  let created := w.CreateTextureFromFile env ⟨fileName, none, none⟩
  { created.1 with statics := { created.1.statics with
    sTextureSet := created.1.statics.sTextureSet.set i created.2 } }

/-- Lines 847-877: `textures`. -/
def parseTextures (env : ParserEnv) (w : ParserWorld) (command : List String) :
    Except Fault ParserWorld :=
  if !w.statics.bIsReadingMaterial then
    .ok (w.Log_Error " Cannot define Material Property: textures " [])
  else do
    let first ← tokenAt command 1
    let w := if first ≠ "\"\"" then loadIntoTextureSet env w first DIFFUSE_MAP else w
    if command.length > 2 then do
      let second ← tokenAt command 2
      pure (loadIntoTextureSet env w second NORMAL_MAP)
    else pure w

/-- The assignment to a member of `sLight`. -/
def ParserWorld.setLight (w : ParserWorld) (f : Light → Light) : ParserWorld :=
  { w with statics := { w.statics with sLight := f w.statics.sLight } }

/-- Lines 880-892: `type`. -/
def parseType (w : ParserWorld) (command : List String) : Except Fault ParserWorld := do
  let typeValue ← tokenAt command 1
  match sLightTypeLookup.lookup (GetLowercased typeValue) with
  | none => pure (w.Log_Warning "Invalid light type: %s" [typeValue])
  | some type => pure (w.setLight fun l => { l with mType := type })

/-- Lines 893-905: `color`. -/
def parseColor (w : ParserWorld) (command : List String) : Except Fault ParserWorld := do
  let colorValue ← tokenAt command 1
  match sColorLookup.lookup (GetLowercased colorValue) with
  | none => pure (w.Log_Warning "Unknown color: %s" [colorValue])
  | some color => pure (w.setLight fun l => { l with mColor := color })

/-- Lines 906-909: `brightness`. -/
def parseBrightness (env : ParserEnv) (w : ParserWorld) (command : List String) :
    Except Fault ParserWorld := do
  let value ← stofAt env command 1
  pure (w.setLight fun l => { l with mBrightness := value })

/-- Lines 910-916: `shadows`. -/
def parseShadows (env : ParserEnv) (w : ParserWorld) (command : List String) :
    Except Fault ParserWorld := do
  let casting ← tokenAt command 1 >>= mapAt sBoolTypeReflection
  let depthBias ← (if command.length > 2 then stofAt env command 2 else pure float_0_15)
  let nearPlane ← (if command.length > 3 then stofAt env command 3 else pure float_0_01)
  let farPlane ← (if command.length > 4 then stofAt env command 4 else pure float_1000)
  pure (w.setLight fun l => { l with
    mbCastingShadows := casting, mDepthBias := depthBias, mNearPlaneDistance := nearPlane,
    mFarPlaneDistance := farPlane })

/-- Lines 917-920: `range`. -/
def parseRange (env : ParserEnv) (w : ParserWorld) (command : List String) :
    Except Fault ParserWorld := do
  let value ← stofAt env command 1
  pure (w.setLight fun l => { l with mRange := value })

/-- Lines 921-925: `spot`. -/
def parseSpot (env : ParserEnv) (w : ParserWorld) (command : List String) :
    Except Fault ParserWorld := do
  let outer ← stofAt env command 1
  let inner ← stofAt env command 2
  pure (w.setLight fun l => { l with
    mSpotOuterConeAngleDegrees := outer, mSpotInnerConeAngleDegrees := inner })

/-- Lines 926-930: `directional`. -/
def parseDirectional (env : ParserEnv) (w : ParserWorld) (command : List String) :
    Except Fault ParserWorld := do
  let viewport ← stofAt env command 1
  let distance ← stofAt env command 2
  pure (w.setLight fun l => { l with
    mViewportX := viewport, mViewportY := viewport, mDistanceFromOrigin := distance })

/-- Lines 931-936: `attenuation`. -/
def parseAttenuation (env : ParserEnv) (w : ParserWorld) (command : List String) :
    Except Fault ParserWorld := do
  let constant ← stofAt env command 1
  let w := w.setLight fun l => { l with mAttenuationConstant := constant }
  let w ← (if command.length > 2 then do
      let linear ← stofAt env command 2
      pure (w.setLight fun l => { l with mAttenuationLinear := linear })
    else pure w)
  if command.length > 3 then do
    let quadratic ← stofAt env command 3
    pure (w.setLight fun l => { l with mAttenuationQuadratic := quadratic })
  else pure w

/-- Lines 949-972 of `transform`: the local `tf` once the scale is set. -/
def readTransform (env : ParserEnv) (command : List String) : Except Fault Transform := do
  let x ← stofAt env command 1
  let y ← stofAt env command 2
  let z ← stofAt env command 3
  let rotX ← stofAt env command 4
  let rotY ← stofAt env command 5
  let rotZ ← stofAt env command 6
  let tf : Transform :=
    [ .SetPosition x y z,
      .RotateAroundGlobalXAxisDegrees rotX,
      .RotateAroundGlobalYAxisDegrees rotY,
      .RotateAroundGlobalZAxisDegrees rotZ ]
  let sclX ← stofAt env command 7
  if command.length ≤ 8 then pure (tf ++ [.SetUniformScale sclX])
  else do
    let sclY ← stofAt env command 8
    let sclZ ← stofAt env command 9
    pure (tf ++ [.SetScale sclX sclY sclZ])

/-- Lines 937-979: `transform`. -/
def parseTransform (env : ParserEnv) (w : ParserWorld) (command : List String) :
    Except Fault ParserWorld :=
  if !w.statics.bIsReadingGameObject && !w.statics.bIsReadingLight then
    .ok (w.Log_Error (" Creating Transform without defining a game object "
      ++ "(missing cmd: \"%s\"), or a light (missing cmd: \"light begin\")") ["object begin"])
  else do
    let tf ← readTransform env command
    let w ← (if w.statics.bIsReadingGameObject then
        w.throughObject fun object => { object with transform := tf }
      else pure w)
    if w.statics.bIsReadingLight then pure (w.setLight fun l => { l with mTransform := tf })
    else pure w

/-- Lines 980-993: `model`. -/
def parseModel (w : ParserWorld) (command : List String) : Except Fault ParserWorld :=
  if !w.statics.bIsReadingGameObject then
    .ok (w.Log_Error
      " Creating Transform without defining a game object (missing cmd: \"%s\""
      ["object begin"])
  else do
    let name ← tokenAt command 1
    w.throughObject fun object => { object with mModel := ⟨false, "", name⟩ }

/-- Lines 994-1001: `ao`. -/
def parseAo (env : ParserEnv) (w : ParserWorld) (command : List String) :
    Except Fault ParserWorld := do
  let bEnabled ← tokenAt command 1 >>= mapAt sBoolTypeReflection
  let ambientFactor ← stofAt env command 2
  let radius ← (if command.length > 3 then stofAt env command 3 else pure float_7)
  let intensity ← (if command.length > 4 then stofAt env command 4 else pure float_1)
  pure { w with scene := { w.scene with settings := { w.scene.settings with
    ssao := ⟨bEnabled, ambientFactor, radius, intensity⟩ } } }

/-- Lines 1002-1005: `skylight`. -/
def parseSkylight (w : ParserWorld) (command : List String) : Except Fault ParserWorld := do
  let bEnabled ← tokenAt command 1 >>= mapAt sBoolTypeReflection
  pure { w with scene := { w.scene with settings := { w.scene.settings with
    bSkylightEnabled := bEnabled } } }

/-- Lines 1006-1018: `bloom`. -/
def parseBloom (env : ParserEnv) (w : ParserWorld) (command : List String) :
    Except Fault ParserWorld := do
  let bEnabled ← tokenAt command 1 >>= fun t => mapAt sBoolTypeReflection (GetLowercased t)
  let brightnessThreshold ←
    (if command.length > 2 then stofAt env command 2 else pure float_1_5)
  let blurStrength ← (if command.length > 3 then tokenAt command 3 >>= stoi else pure 3)
  pure { w with scene := { w.scene with settings := { w.scene.settings with
    bloom := ⟨bEnabled, brightnessThreshold, blurStrength⟩ } } }

/-- Lines 1019-1026: any other command. The local `tokens` of line 1021 is not used. -/
def parseUnknown (w : ParserWorld) (cmd : String) : Except Fault ParserWorld :=
  if "//".data.isPrefixOf cmd.data then .ok w
  else .ok (w.Log_Error "Parser: Unknown command \"%s\"" [cmd])

/-- The method `Parser::ParseScene` (lines 473-1027): the file-scope variables, the scene,
the log and the texture requests after the call. -/
def ParseScene (env : ParserEnv) (w : ParserWorld) (command : List String) :
    Except Fault ParserWorld :=
  match command with
  | [] => .ok w
  | cmd :: _ =>
    if cmd = "camera" then parseCamera env w command
    else if cmd = "light" then parseLight env w command
    else if cmd = "object" then parseObject env w command
    else if cmd = "pbr" then parsePbr env w command
    else if containsSubstring cmd "Map" && decide (cmd.utf8ByteSize ≥ 5) then
      parseTextureMap env w command cmd
    else if cmd = "mesh" then parseMesh w command
    else if cmd = "brdf" then parseBrdf env w
    else if cmd = "blinnphong" ∨ cmd = "phong" then parsePhong w
    else if cmd = "diffuse" ∨ cmd = "albedo" then parseDiffuse env w command cmd
    else if cmd = "tiling" then parseTiling env w command cmd
    else if cmd = "roughness" then parseRoughness env w command
    else if cmd = "metalness" then parseMetalness env w command
    else if cmd = "emissive" ∨ cmd = "emissiveColor" then parseEmissive env w command
    else if cmd = "emissiveIntensity" ∨ cmd = "emissiveColorIntensity" then
      parseEmissiveIntensity env w command
    else if cmd = "shininess" then parseShininess env w command
    else if cmd = "textures" then parseTextures env w command
    else if cmd = "type" then parseType w command
    else if cmd = "color" then parseColor w command
    else if cmd = "brightness" then parseBrightness env w command
    else if cmd = "shadows" then parseShadows env w command
    else if cmd = "range" then parseRange env w command
    else if cmd = "spot" then parseSpot env w command
    else if cmd = "directional" then parseDirectional env w command
    else if cmd = "attenuation" then parseAttenuation env w command
    else if cmd = "transform" then parseTransform env w command
    else if cmd = "model" then parseModel w command
    else if cmd = "ao" then parseAo env w command
    else if cmd = "skylight" then parseSkylight w command
    else if cmd = "bloom" then parseBloom env w command
    else parseUnknown w cmd

/-! ## Concrete data for evaluating the parser -/

/-- A `stof` to evaluate on: it knows the texts "0", "1", "1.5" and "7". -/
def sampleStof (s : String) : Except Fault FloatBits :=
  if s = "0" then .ok 0
  else if s = "1" then .ok float_1
  else if s = "1.5" then .ok float_1_5
  else if s = "7" then .ok float_7
  else .error .invalid_argument

def sampleLight : Light :=
  { mType := .POINT, mColor := .s_palette .WHITE, mBrightness := 0, mbCastingShadows := false,
    mDepthBias := 0, mNearPlaneDistance := 0, mFarPlaneDistance := 0, mRange := 0,
    mSpotOuterConeAngleDegrees := 0, mSpotInnerConeAngleDegrees := 0, mViewportX := 0,
    mViewportY := 0, mDistanceFromOrigin := 0, mAttenuationConstant := 0,
    mAttenuationLinear := 0, mAttenuationQuadratic := 0, mTransform := [],
    mbEnabled := true }

def sampleMaterial (type : EMaterialType) : Material :=
  { type := type, diffuseMap := -1, normalMap := -1, heightMap := -1, metallicMap := -1,
    roughnessMap := -1, emissiveMap := -1, diffuse := .s_palette .WHITE, alpha := float_1,
    tiling := (float_1, float_1), emissiveColor := (0, 0, 0), emissiveIntensity := 0,
    roughness := 0, metalness := 0, shininess := 0 }

def sampleEnv : ParserEnv :=
  { stof := sampleStof,
    split := fun s delimiters => (s.split fun c => delimiters.contains c),
    IsImageName := fun s => s.endsWith ".png",
    CreateTextureFromFile := fun served _ => (served.length : Int),
    sTextureRoot := "Data/Textures/",
    INVALID_TEXTURE_ID := -1,
    fileExists := fun _ => false,
    directory_iterator := fun _ => [],
    defaultLight := sampleLight,
    defaultMaterial := sampleMaterial,
    defaultGameObject := ⟨[], [], ⟨false, "", ""⟩, []⟩,
    NDEBUG := true,
    CPP17 := true,
    ENABLE_PARALLAX_MAPPING := false }

/-- An empty scene, as `ReadScene` has it before the first line. -/
def sampleScene : SerializedScene :=
  { id := 0, cameras := [], lights := [], directionalLight := { sampleLight with mbEnabled := false },
    objects := [], materials := [],
    settings := ⟨⟨false, 0, 0⟩, ⟨false, 0, 0, 0⟩, false⟩, loadSuccess := '0' }

/-- The parser at program start, on the empty scene. -/
def sampleWorld : ParserWorld :=
  ⟨ParserStatics.initial sampleEnv, sampleScene, [], []⟩

/-- The parser after `object begin` on the empty scene: the object block is open and
`pObject` points to the one object of the scene. -/
def sampleObjectBlock : ParserWorld :=
  { sampleWorld with
    statics := { sampleWorld.statics with
      bIsReadingGameObject := true, pObject := some ⟨0, 0⟩ },
    scene := { sampleWorld.scene with objects := [sampleEnv.defaultGameObject] } }

/-- The parser after `object begin` and `object end` on the empty scene: the block is closed
again, `pObject` is null and the scene keeps the one object. -/
def sampleClosedBlock : ParserWorld :=
  { sampleObjectBlock with
    statics := { sampleObjectBlock.statics with
      bIsReadingGameObject := false, pObject := none } }

/-! ## Begin and end calls of a call list -/

def Call.isBeginEvent : Call → Bool
  | .BeginEvent _ => true
  | _ => false

def Call.isEndEvent : Call → Bool
  | .EndEvent => true
  | _ => false

/-- The call `pGPU->BeginEntry`. -/
def Call.isBeginEntry : Call → Bool
  | .GPU_BeginEntry _ => true
  | _ => false

/-- The call `pGPU->EndEntry`. -/
def Call.isEndEntry : Call → Bool
  | .GPU_EndEntry => true
  | _ => false

/-- Number of begins still open after the calls, starting from `depth` open ones; `none`
when some end comes with no begin open. -/
def depthAfter (isBegin isEnd : Call → Bool) : Nat → List Call → Option Nat
  | depth, [] => some depth
  | depth, c :: cs =>
    if isBegin c then depthAfter isBegin isEnd (depth + 1) cs
    else if isEnd c then
      match depth with
      | 0 => none
      | d + 1 => depthAfter isBegin isEnd d cs
    else depthAfter isBegin isEnd depth cs

/-! ## CustomParser.cpp: Parser::ParseSetting (lines 94-214) -/

/-- The member `Settings::Engine::window`; the four members hold what `stoi` returns. -/
structure Settings.Window where
  width : Int
  height : Int
  fullscreen : Int
  vsync : Int
deriving DecidableEq, Repr

structure Settings.Logger where
  bConsole : Bool
  bFile : Bool
deriving DecidableEq, Repr

structure Settings.ShadowMap where
  spotShadowMapDimensions : Int
  directionalShadowMapDimensions : Int
  pointShadowMapDimensions : Int
deriving DecidableEq, Repr

structure Settings.ToneMapping where
  exposure : FloatBits
deriving DecidableEq, Repr

structure Settings.PostProcess where
  toneMapping : Settings.ToneMapping
  HDREnabled : Bool
deriving DecidableEq, Repr

inductive EAntiAliasingTechnique where
  | NO_ANTI_ALIASING
  | SSAA
deriving DecidableEq, Repr

structure Settings.AntiAliasing where
  eAntiAliasingTechnique : EAntiAliasingTechnique
  fUpscaleFactor : FloatBits
deriving DecidableEq, Repr

/-- The member `Settings::Engine::rendering`, reduced to what `ParseSetting` assigns. -/
structure Settings.Rendering where
  shadowMap : Settings.ShadowMap
  bUseBRDFLighting : Bool
  bUseDeferredRendering : Bool
  bAmbientOcclusion : Bool
  postProcess : Settings.PostProcess
  bEnableEnvironmentLighting : Bool
  bPreLoadEnvironmentMaps : Bool
  antiAliasing : Settings.AntiAliasing
deriving DecidableEq, Repr

/-- The struct `Settings::Engine`, reduced to what `ParseSetting` assigns. -/
structure Settings.Engine where
  window : Settings.Window
  logger : Settings.Logger
  rendering : Settings.Rendering
  bCacheEnvironmentMapsOnDisk : Bool
  sceneNames : List String
  levelToLoad : Int
deriving DecidableEq, Repr

/-- The table `sAATypeReflection` of lines 42-54. -/
def sAATypeReflection : List (String × EAntiAliasingTechnique) :=
  [("0", .NO_ANTI_ALIASING), ("none", .NO_ANTI_ALIASING), ("ssaa", .SSAA), ("SSAA", .SSAA)]

/-- The value `stoi(line[i])`. -/
def stoiAt (line : List String) (i : Nat) : Except Fault Int :=
  tokenAt line i >>= stoi

/-- The value `sBoolTypeReflection.at(line[i])`. -/
def boolAt (line : List String) (i : Nat) : Except Fault Bool :=
  tokenAt line i >>= mapAt sBoolTypeReflection

/-- The value `sBoolTypeReflection.at(GetLowercased(line[i]))`. -/
def boolLowercasedAt (line : List String) (i : Nat) : Except Fault Bool :=
  tokenAt line i >>= fun t => mapAt sBoolTypeReflection (GetLowercased t)

/-- The loop of lines 184-192 of `levels` from round `i` on, `remaining` rounds to go. -/
def readSceneNames (env : ParserEnv) (line : List String) (countScenes : Nat) :
    Nat → Nat → List String → Except Fault (List String)
  | _, 0, sceneNames => .ok sceneNames
  | i, remaining + 1, sceneNames => do
    let token ← tokenAt line (i + 1)
    let name ← (if i = countScenes - 1 then pure token
      else tokenAt (env.split token [',']) 0)
    readSceneNames env line countScenes (i + 1) remaining (sceneNames ++ [name])

/-- Lines 194-202: `level`. The subtraction is done in `int`. -/
def parseLevel (settings : Settings.Engine) (line : List String) :
    Except Fault Settings.Engine := do
  let levelToLoad := wrapInt32 ((← stoiAt line 1) - 1)
  pure { settings with levelToLoad := if levelToLoad = -1 then 0 else levelToLoad }

/-- Lines 159-172: `environmentMapping`; `_DEBUG` is the preprocessor symbol of line 168. -/
def parseEnvironmentMapping (_DEBUG : Bool) (settings : Settings.Engine)
    (line : List String) : Except Fault Settings.Engine := do
  let bEnable ← boolLowercasedAt line 1
  let bPreLoad ← boolLowercasedAt line 2
  let settings := { settings with rendering := { settings.rendering with
    bEnableEnvironmentLighting := bEnable, bPreLoadEnvironmentMaps := bPreLoad } }
  let settings ← (if line.length > 3 then do
      let bCache ← boolLowercasedAt line 3
      pure { settings with bCacheEnvironmentMapsOnDisk := bCache }
    else pure settings)
  if _DEBUG then
    pure { settings with rendering := { settings.rendering with
      bPreLoadEnvironmentMaps := false } }
  else pure settings

/-- The method `Parser::ParseSetting` (lines 94-214): the settings and the log after the
call. -/
def ParseSetting (env : ParserEnv) (_DEBUG : Bool) (settings : Settings.Engine)
    (log : List LogLine) (line : List String) :
    Except Fault (Settings.Engine × List LogLine) :=
  match line with
  | [] => .ok (settings, log ++ [⟨.Error, "Empty Command in ParseSettings().", []⟩])
  | cmd :: _ =>
    if cmd = "window" then do
      let width ← stoiAt line 1
      let height ← stoiAt line 2
      let fullscreen ← stoiAt line 3
      let vsync ← stoiAt line 4
      pure ({ settings with window := ⟨width, height, fullscreen, vsync⟩ }, log)
    else if cmd = "logger" ∨ cmd = "logging" ∨ cmd = "log" then do
      let bConsole ← boolAt line 1
      let bFile ← boolAt line 2
      pure ({ settings with logger := ⟨bConsole, bFile⟩ }, log)
    else if cmd = "shadowMap" then do
      let spot ← stoiAt line 1
      let directional ← stoiAt line 2
      let point ← stoiAt line 3
      pure ({ settings with rendering := { settings.rendering with
        shadowMap := ⟨spot, directional, point⟩ } }, log)
    else if cmd = "lightingModel" then do
      let lightingModel := GetLowercased (← tokenAt line 1)
      pure ({ settings with rendering := { settings.rendering with
        bUseBRDFLighting := decide (lightingModel = "brdf") } }, log)
    else if cmd = "deferredRendering" then do
      let value ← boolAt line 1
      pure ({ settings with rendering := { settings.rendering with
        bUseDeferredRendering := value } }, log)
    else if cmd = "ambientOcclusion" then do
      let value ← boolAt line 1
      pure ({ settings with rendering := { settings.rendering with
        bAmbientOcclusion := value } }, log)
    else if cmd = "tonemapping" then do
      let exposure ← stofAt env line 1
      pure ({ settings with rendering := { settings.rendering with
        postProcess := { settings.rendering.postProcess with
          toneMapping := ⟨exposure⟩ } } }, log)
    else if cmd = "environmentMapping" then do
      let settings ← parseEnvironmentMapping _DEBUG settings line
      pure (settings, log)
    else if cmd = "HDR" then do
      let value ← boolLowercasedAt line 1
      pure ({ settings with rendering := { settings.rendering with
        postProcess := { settings.rendering.postProcess with HDREnabled := value } } }, log)
    else if cmd = "levels" then do
      let countScenes := line.length - 1
      let sceneNames ← readSceneNames env line countScenes 0 countScenes settings.sceneNames
      pure ({ settings with sceneNames := sceneNames }, log)
    else if cmd = "level" then do
      let settings ← parseLevel settings line
      pure (settings, log)
    else if cmd = "antialiasing" ∨ cmd = "antiAliasing" then do
      cAssert env (decide (line.length ≥ 3))
      let technique ← tokenAt line 1 >>= mapAt sAATypeReflection
      let factor ← stofAt env line 2
      pure ({ settings with rendering := { settings.rendering with
        antiAliasing := ⟨technique, factor⟩ } }, log)
    else
      .ok (settings, log ++ [⟨.Error, "Setting Parser: Unknown command: %s", [cmd]⟩])

/-- Settings to evaluate on. -/
def sampleEngineSettings : Settings.Engine :=
  { window := ⟨1920, 1080, 0, 0⟩, logger := ⟨false, false⟩,
    rendering :=
      { shadowMap := ⟨1024, 2048, 512⟩, bUseBRDFLighting := true,
        bUseDeferredRendering := false, bAmbientOcclusion := false,
        postProcess := ⟨⟨float_1⟩, false⟩, bEnableEnvironmentLighting := false,
        bPreLoadEnvironmentMaps := false, antiAliasing := ⟨.NO_ANTI_ALIASING, float_1⟩ },
    bCacheEnvironmentMapsOnDisk := false, sceneNames := [], levelToLoad := 0 }

/-! ## CustomParser.cpp: Parser::ReadScene (lines 216-250) -/

def scene_root : String := "Data\\SceneFiles\\"

/-- The character `str[i]` of a `std::string`: position `size()` holds the terminating
`'\0'`, a position past it is outside the string. -/
def charAt (str : String) (i : Nat) : Except Fault Char :=
  if str.data.length < i then .error .indexOutOfRange
  else .ok (str.data.getD i '\x00')

/-- The test of line 235: the first token starts with two slashes. -/
def startsWithTwoSlashes (command : List String) : Except Fault Bool :=
  match command with
  | [] => .ok false
  | front :: _ => do
    let c0 ← charAt front 0
    let c1 ← charAt front 1
    if c0 == c1 then do
      let c0 ← charAt front 0
      pure (c0 == '/')
    else pure false

/-- One round of the loop of lines 229-239, on one line of the scene file. -/
def readSceneLine (env : ParserEnv) (w : ParserWorld) (line : String) :
    Except Fault ParserWorld := do
  let first ← charAt line 0
  if first == '/' || first == '#' || first == '\x00' then pure w
  else do
    let command := env.split line [' ', '\t']
    if (← startsWithTwoSlashes command) then pure w
    else ParseScene env w command

/-- The method `Parser::ReadScene`. `files` gives the lines of each file that can be opened,
`fresh` is the default-constructed local `scene`; the world passed in supplies the
file-scope variables, the log and the texture requests, and the scene of the world
returned is the scene the method returns. -/
def ReadScene (env : ParserEnv) (files : String → Option (List String))
    (fresh : SerializedScene) (w : ParserWorld) (sceneFileName : String) :
    Except Fault ParserWorld :=
  let filePath := scene_root ++ sceneFileName
  let scene : SerializedScene :=
    { fresh with
      materials := [],
      directionalLight := { fresh.directionalLight with mbEnabled := false } }
  match files filePath with
  | some lines => do
    let w ← lines.foldlM (readSceneLine env) { w with scene := scene }
    pure { w with scene := { w.scene with loadSuccess := '1' } }
  | none =>
    .ok { w with
      scene := { scene with loadSuccess := '0' },
      log := w.log ++ [⟨.Error, "Cannot open scene file: %s", [filePath]⟩] }

/-! ## States the parser can reach -/

/-- The worlds reachable from the start of the program: the file-scope variables start at
their initialisers; a `ParseScene` call that returns leads to the world it returns; between
calls the caller may pass another scene (`ReadScene` parses every file into a scene of its
own). -/
inductive Reachable (env : ParserEnv) : ParserWorld → Prop where
  | initial (scene : SerializedScene) (log : List LogLine)
      (textureRequests : List TextureRequest) :
      Reachable env ⟨ParserStatics.initial env, scene, log, textureRequests⟩
  | command (w w' : ParserWorld) (command : List String) :
      Reachable env w → ParseScene env w command = .ok w' → Reachable env w'
  | otherScene (w : ParserWorld) (scene : SerializedScene) :
      Reachable env w → Reachable env { w with scene := scene }

/-- The reading-object flag is set exactly when `pObject` is not null, and `pMaterial` is
not null while the reading-material flag is set. -/
def PointersMatchFlags (w : ParserWorld) : Prop :=
  (w.statics.bIsReadingGameObject = true ↔ w.statics.pObject ≠ none)
    ∧ (w.statics.bIsReadingMaterial = true → w.statics.pMaterial ≠ none)

/-- The exceptions `std::stof` throws are `invalid_argument` and `out_of_range`. -/
def StofThrowsAsDocumented (env : ParserEnv) : Prop :=
  ∀ s e, env.stof s = .error e → e = .invalid_argument ∨ e = .out_of_range

/-- `StrUtil::split` on a list of characters: the maximal runs of characters that are not
delimiters, used to evaluate the parser on concrete lines. -/
def splitRuns (delimiters : List Char) : List Char → List Char → List String
  | [], [] => []
  | [], token => [String.mk token.reverse]
  | c :: cs, token =>
    if delimiters.contains c then
      match token with
      | [] => splitRuns delimiters cs []
      | _ => String.mk token.reverse :: splitRuns delimiters cs []
    else splitRuns delimiters cs (c :: token)

/-- The sample environment with a `split` that evaluates. -/
def sampleSceneEnv : ParserEnv :=
  { sampleEnv with split := fun s delimiters => splitRuns delimiters s.data [] }

/-- A scene folder with one file, whose only line opens an object block. -/
def sampleSceneFiles : String → Option (List String) := fun path =>
  if path = "Data\\SceneFiles\\Open.scn" then some ["object begin"] else none

/-- The parser at program start for `sampleSceneEnv`. -/
def sampleSceneWorld : ParserWorld :=
  ⟨ParserStatics.initial sampleSceneEnv, sampleScene, [], []⟩

/-- The computation ends in a null-pointer dereference only when `B` holds, and the value it
returns, when it returns, satisfies `P`. -/
def Safe {α : Type} (B : Prop) (x : Except Fault α) (P : α → Prop) : Prop :=
  (x = .error .nullDereference → B) ∧ ∀ a, x = .ok a → P a

/-- The two worlds agree in everything but the log. -/
def SameButLog (w1 w2 : ParserWorld) : Prop :=
  w1.statics = w2.statics ∧ w1.scene = w2.scene ∧ w1.textureRequests = w2.textureRequests

/-- The two computations end alike: both return, with values related by `R`, or both end in
the same fault. -/
def Alike {α : Type} (R : α → α → Prop) : Except Fault α → Except Fault α → Prop
  | .ok a, .ok b => R a b
  | .error e1, .error e2 => e1 = e2
  | _, _ => False

/-! # Theorems -/

/-! ## The pixel-shader loop -/

theorem cMod_two_natCast (k : Nat) : cMod (k : Int) 2 = .ok (((k % 2 : Nat) : Int)) := by
  simp [cMod]
  rfl

theorem blurPassPS_natCast (r : Renderer) (p : BloomPass) (k : Nat) :
    blurPassPS r p (r.GetRenderTargetTexture p._brightRT) (k : Int)
      = .ok (psPassCalls r p k) := by
  unfold blurPassPS
  rw [cMod_two_natCast]
  rcases Nat.mod_two_eq_zero_or_one k with h | h
  · simp [h, Array2.read, psPassCalls, bind, Except.bind, pure, Except.pure]
  · have hk : k ≠ 0 := by rintro rfl; simp at h
    simp [h, hk, Array2.read, psPassCalls, bind, Except.bind, pure, Except.pure]

theorem forLoop_blurPassPS (r : Renderer) (p : BloomPass) (n start : Nat) :
    forLoop (blurPassPS r p (r.GetRenderTargetTexture p._brightRT)) (start : Int) n
      = .ok ((List.range' start n).flatMap (psPassCalls r p)) := by
  induction n generalizing start with
  | zero => rfl
  | succ n ih =>
    have h := ih (start + 1)
    simp only [Nat.cast_add, Nat.cast_one] at h
    simp [forLoop, blurPassPS_natCast, h, List.range'_succ, bind, Except.bind, pure,
      Except.pure]

/-! ## Submissions of the three parts of a frame -/

theorem submissionsFrom_psPasses (r : Renderer) (p : BloomPass) (events : List String)
    (rest : List Call) (ks : List Nat) (before : List Call) :
    submissionsFrom events before (ks.flatMap (psPassCalls r p) ++ rest)
      = psPassSubmissions r p events before ks
        ++ submissionsFrom events (if ks = [] then before else []) rest := by
  induction ks generalizing before with
  | nil => simp [psPassSubmissions]
  | cons k ks ih =>
    have h := ih []
    simp only [ite_self] at h
    simp [psPassCalls, submissionsFrom, psPassSubmissions]
    simpa using h

theorem submissionsFrom_bright (p : BloomPass) (inputTextureID : TextureID)
    (settings : Settings.Bloom) (rest : List Call) :
    submissionsFrom [] [] (brightFilterCalls p inputTextureID settings ++ rest)
      = brightSubmission p inputTextureID settings
        :: submissionsFrom ["Bloom"] [.GPU_EndEntry, .EndEvent] rest := by
  simp [brightFilterCalls, submissionsFrom, brightSubmission]

theorem GetBloomTexture_PS (E : BloomShaderEnum) (r : Renderer) (p : BloomPass)
    (hsel : p.mSelectedBloomShader = E.PS_1D_Kernels) :
    GetBloomTexture E r p = .ok (r.GetRenderTargetTexture p._blurPingPong.e0) := by
  simp [GetBloomTexture, hsel, Array2.read, bind, Except.bind, pure, Except.pure]

/-- The calls of `Render` on the pixel-shader strategy, written out. -/
theorem Render_PS (bc : BuildConfig) (E : BloomShaderEnum) (r : Renderer) (p : BloomPass)
    (inputTextureID : TextureID) (settings : Settings.Bloom)
    (hsel : p.mSelectedBloomShader = E.PS_1D_Kernels) :
    Render bc E r p inputTextureID settings
      = .ok (psTrace r p inputTextureID settings (BlurPassCount settings).toNat) := by
  have h := forLoop_blurPassPS r p (BlurPassCount settings).toNat 0
  simp only [Nat.cast_zero] at h
  simp [Render, blurCalls, hsel, h, GetBloomTexture_PS E r p hsel, psTrace, bind,
    Except.bind, pure, Except.pure]

/-- The submissions of `Render` on the pixel-shader strategy: the bright filter, the blur
passes, the combine step. -/
theorem submissions_psTrace (r : Renderer) (p : BloomPass)
    (inputTextureID : TextureID) (settings : Settings.Bloom) (n : Nat) :
    ∃ before,
      submissions (psTrace r p inputTextureID settings n)
        = brightSubmission p inputTextureID settings
          :: (psPassSubmissions r p ["Blur Pass", "Bloom"] psLoopPrologue (List.range' 0 n)
              ++ [combineSubmission r p (r.GetRenderTargetTexture p._blurPingPong.e0)
                    before]) := by
  refine ⟨.GPU_EndEntry :: .EndEvent ::
      (if List.range' 0 n = [] then psLoopPrologue else []), ?_⟩
  unfold submissions psTrace
  rw [List.append_assoc, submissionsFrom_bright]
  simp only [List.cons_append, List.nil_append, List.append_assoc]
  simp only [submissionsFrom]
  rw [submissionsFrom_psPasses]
  simp only [submissionsFrom, List.tail_cons]
  rfl

theorem psPassSubmissions_length (r : Renderer) (p : BloomPass) (events : List String)
    (ks : List Nat) (before : List Call) :
    (psPassSubmissions r p events before ks).length = ks.length := by
  induction ks generalizing before with
  | nil => rfl
  | cons k ks ih => simp [psPassSubmissions, ih]

theorem psPassSubmissions_getElem? (r : Renderer) (p : BloomPass) (events : List String)
    (ks : List Nat) (before : List Call) (i : Nat) :
    (psPassSubmissions r p events before ks)[i]?
      = (ks[i]?).map fun k =>
          ⟨.DrawIndexed, events,
            ((psPassCalls r p k).take 7).reverse ++ (if i = 0 then before else [])⟩ := by
  induction ks generalizing before i with
  | nil => simp [psPassSubmissions]
  | cons k ks ih =>
    cases i with
    | zero => simp [psPassSubmissions]
    | succ i => simp [psPassSubmissions, ih]

theorem psPassSubmissions_mem (r : Renderer) (p : BloomPass) (events : List String)
    (ks : List Nat) (before : List Call) :
    ∀ s ∈ psPassSubmissions r p events before ks,
      s.events = events ∧ s.command = .DrawIndexed := by
  induction ks generalizing before with
  | nil => simp [psPassSubmissions]
  | cons k ks ih =>
    intro s hs
    simp only [psPassSubmissions, List.mem_cons] at hs
    rcases hs with rfl | hs
    · exact ⟨rfl, rfl⟩
    · exact ih [] s hs

theorem psPassSubmissions_filter_events (r : Renderer) (p : BloomPass) (m : String)
    (outer : List String) (ks : List Nat) (before : List Call) :
    (psPassSubmissions r p (m :: outer) before ks).filter (fun s => s.inEvent m)
      = psPassSubmissions r p (m :: outer) before ks := by
  rw [List.filter_eq_self]
  intro s hs
  simp [Submission.inEvent, (psPassSubmissions_mem r p (m :: outer) ks before s hs).1]

theorem psPassSubmissions_filter_other (r : Renderer) (p : BloomPass) (m m' : String)
    (outer : List String) (hm : m ≠ m') (ks : List Nat) (before : List Call) :
    (psPassSubmissions r p (m :: outer) before ks).filter (fun s => s.inEvent m') = [] := by
  rw [List.filter_eq_nil_iff]
  intro s hs
  simp [Submission.inEvent, (psPassSubmissions_mem r p (m :: outer) ks before s hs).1, hm]

theorem blurDraws_psTrace (r : Renderer) (p : BloomPass)
    (inputTextureID : TextureID) (settings : Settings.Bloom) (n : Nat) :
    blurDraws (psTrace r p inputTextureID settings n)
      = psPassSubmissions r p ["Blur Pass", "Bloom"] psLoopPrologue (List.range' 0 n) := by
  obtain ⟨before, h⟩ := submissions_psTrace r p inputTextureID settings n
  have hf := psPassSubmissions_filter_events r p "Blur Pass" ["Bloom"] (List.range' 0 n)
    psLoopPrologue
  unfold blurDraws
  rw [h, List.filter_cons, List.filter_append, hf]
  simp [brightSubmission, combineSubmission, Submission.inEvent]

theorem combineDraws_psTrace (r : Renderer) (p : BloomPass)
    (inputTextureID : TextureID) (settings : Settings.Bloom) (n : Nat) :
    ∃ before, combineDraws (psTrace r p inputTextureID settings n)
      = [combineSubmission r p (r.GetRenderTargetTexture p._blurPingPong.e0) before] := by
  obtain ⟨before, h⟩ := submissions_psTrace r p inputTextureID settings n
  have hf := psPassSubmissions_filter_other r p "Blur Pass" "Combine" ["Bloom"] (by decide)
    (List.range' 0 n) psLoopPrologue
  refine ⟨before, ?_⟩
  unfold combineDraws
  rw [h, List.filter_cons, List.filter_append, hf]
  simp [brightSubmission, combineSubmission, Submission.inEvent]

theorem BlurPassCount_of_representable (settings : Settings.Bloom)
    (hN : 0 ≤ settings.blurStrength) (hrep : 2 * settings.blurStrength ≤ INT_MAX) :
    BlurPassCount settings = 2 * settings.blurStrength := by
  unfold BlurPassCount wrapInt32
  unfold INT_MAX at hrep
  omega

/-! ## What a pixel-shader pass binds -/

theorem psPass_observed (r : Renderer) (p : BloomPass) (events : List String) (k : Nat)
    (extra : List Call) (sub : Submission)
    (hsub : sub = ⟨.DrawIndexed, events, ((psPassCalls r p k).take 7).reverse ++ extra⟩) :
    sub.renderTargets
        = some [if k % 2 = 0 then p._blurPingPong.e0 else p._blurPingPong.e1]
      ∧ sub.texture "InputTexture"
        = some (if k = 0 then r.GetRenderTargetTexture p._brightRT
            else r.GetRenderTargetTexture
              (if k % 2 = 0 then p._blurPingPong.e1 else p._blurPingPong.e0))
      ∧ sub.shader = some (if k % 2 = 0 then p._blurShaderH else p._blurShaderV) := by
  subst hsub
  simp [psPassCalls, Submission.renderTargets, Submission.texture, Submission.shader]

theorem blurDraws_psTrace_getElem? (r : Renderer) (p : BloomPass)
    (inputTextureID : TextureID) (settings : Settings.Bloom) (n i : Nat) :
    (i < n → ∃ extra, (blurDraws (psTrace r p inputTextureID settings n))[i]?
        = some ⟨.DrawIndexed, ["Blur Pass", "Bloom"],
            ((psPassCalls r p i).take 7).reverse ++ extra⟩)
      ∧ (n ≤ i → (blurDraws (psTrace r p inputTextureID settings n))[i]? = none) := by
  rw [blurDraws_psTrace, psPassSubmissions_getElem?]
  constructor
  · intro hi
    refine ⟨if i = 0 then psLoopPrologue else [], ?_⟩
    simp [List.getElem?_range', hi]
  · intro hi
    simp [List.getElem?_range', hi]

theorem slot_read_natCast (a : Array2) (k : Nat) :
    a.read ((k : Int) % 2) = .ok (if k % 2 = 0 then a.e0 else a.e1)
      ∧ a.read (1 - (k : Int) % 2) = .ok (if k % 2 = 0 then a.e1 else a.e0) := by
  have hk : ((k : Int) % 2) = ((k % 2 : Nat) : Int) := by omega
  rw [hk]
  rcases Nat.mod_two_eq_zero_or_one k with h | h <;> simp [h, Array2.read]

/-- C1: on the pixel-shader strategy, for blur strength N >= 0 and pass index i with
0 <= i < 2N, the i-th blur draw of `Render` has ping-pong buffer `i % 2` bound as render
target and takes "InputTexture" from the bright render target when i = 0 and from
ping-pong buffer `1 - i % 2` otherwise; for i >= 1 that is the buffer pass i - 1 had
bound as its target, and the slot read is never the slot written. The pass is issued
whenever 2N fits an `int`. -/
theorem C1_ps_pass_reads_previous_output (bc : BuildConfig) (E : BloomShaderEnum)
    (r : Renderer) (p : BloomPass) (inputTextureID : TextureID)
    (settings : Settings.Bloom) (i : Nat)
    (hsel : p.mSelectedBloomShader = E.PS_1D_Kernels)
    (hN : 0 ≤ settings.blurStrength) (hi : (i : Int) < 2 * settings.blurStrength) :
    ∃ trace, Render bc E r p inputTextureID settings = .ok trace
      ∧ (2 * settings.blurStrength ≤ INT_MAX → ∃ sub, (blurDraws trace)[i]? = some sub)
      ∧ ∀ sub, (blurDraws trace)[i]? = some sub →
          ∃ target source,
            p._blurPingPong.read ((i : Int) % 2) = .ok target
            ∧ p._blurPingPong.read (1 - (i : Int) % 2) = .ok source
            ∧ sub.renderTargets = some [target]
            ∧ sub.texture "InputTexture"
              = some (if i = 0 then r.GetRenderTargetTexture p._brightRT
                  else r.GetRenderTargetTexture source)
            ∧ (1 ≤ i → ∃ prev, (blurDraws trace)[i - 1]? = some prev
                ∧ prev.renderTargets = some [source])
            ∧ 1 - (i : Int) % 2 ≠ (i : Int) % 2
            ∧ (p._blurPingPong.e0 ≠ p._blurPingPong.e1 → source ≠ target) := by
  refine ⟨_, Render_PS bc E r p inputTextureID settings hsel, ?_, ?_⟩
  · intro hrep
    have hn : i < (BlurPassCount settings).toNat := by
      rw [BlurPassCount_of_representable settings hN hrep]
      omega
    obtain ⟨extra, h⟩ :=
      (blurDraws_psTrace_getElem? r p inputTextureID settings _ i).1 hn
    exact ⟨_, h⟩
  · intro sub hsub
    have hn : i < (BlurPassCount settings).toNat := by
      by_contra hcon
      rw [(blurDraws_psTrace_getElem? r p inputTextureID settings _ i).2 (by omega)] at hsub
      cases hsub
    obtain ⟨extra, h⟩ :=
      (blurDraws_psTrace_getElem? r p inputTextureID settings _ i).1 hn
    rw [h] at hsub
    obtain ⟨hrt, htex, -⟩ :=
      psPass_observed r p _ i extra sub (Option.some.inj hsub).symm
    obtain ⟨hread, hread'⟩ := slot_read_natCast p._blurPingPong i
    refine ⟨_, _, hread, hread', hrt, ?_, ?_, by omega, ?_⟩
    · rw [htex]
    · intro h1
      have hn' : i - 1 < (BlurPassCount settings).toNat := by omega
      obtain ⟨extra', h'⟩ :=
        (blurDraws_psTrace_getElem? r p inputTextureID settings _ (i - 1)).1 hn'
      refine ⟨_, h', ?_⟩
      rw [(psPass_observed r p _ (i - 1) extra' _ rfl).1]
      rcases Nat.mod_two_eq_zero_or_one i with h2 | h2
      · have : (i - 1) % 2 = 1 := by omega
        simp [h2, this]
      · have : (i - 1) % 2 = 0 := by omega
        simp [h2, this]
    · intro hne
      rcases Nat.mod_two_eq_zero_or_one i with h2 | h2
      · simp [h2]; exact fun h => hne h.symm
      · simp [h2]; exact hne

theorem C1_ps_pass_reads_previous_output_witness :
    (samplePass 0).mSelectedBloomShader = BloomShaderEnum.sequential.PS_1D_Kernels
      ∧ 0 ≤ (sampleSettings 3).blurStrength
      ∧ ((5 : Nat) : Int) < 2 * (sampleSettings 3).blurStrength
      ∧ ∃ trace, Render defaultBuild BloomShaderEnum.sequential sampleRenderer (samplePass 0) 7
            (sampleSettings 3) = .ok trace
          ∧ (2 * (sampleSettings 3).blurStrength ≤ INT_MAX
              → ∃ sub, (blurDraws trace)[5]? = some sub)
          ∧ ∀ sub, (blurDraws trace)[5]? = some sub →
              ∃ target source,
                (samplePass 0)._blurPingPong.read (((5 : Nat) : Int) % 2) = .ok target
                ∧ (samplePass 0)._blurPingPong.read (1 - ((5 : Nat) : Int) % 2) = .ok source
                ∧ sub.renderTargets = some [target]
                ∧ sub.texture "InputTexture"
                  = some (if 5 = 0 then
                      sampleRenderer.GetRenderTargetTexture (samplePass 0)._brightRT
                      else sampleRenderer.GetRenderTargetTexture source)
                ∧ (1 ≤ 5 → ∃ prev, (blurDraws trace)[5 - 1]? = some prev
                    ∧ prev.renderTargets = some [source])
                ∧ 1 - ((5 : Nat) : Int) % 2 ≠ ((5 : Nat) : Int) % 2
                ∧ ((samplePass 0)._blurPingPong.e0 ≠ (samplePass 0)._blurPingPong.e1
                    → source ≠ target) :=
  ⟨rfl, by decide, by decide,
    C1_ps_pass_reads_previous_output defaultBuild BloomShaderEnum.sequential sampleRenderer
      (samplePass 0) 7 (sampleSettings 3) 5 rfl (by decide) (by decide)⟩

/-! ## Counts, the bloom texture and the unknown selector -/

theorem BloomShaderEnum.ne (E : BloomShaderEnum) :
    E.PS_1D_Kernels ≠ E.CS_1D_Kernels
      ∧ E.PS_1D_Kernels ≠ E.CS_1D_Kernels_Transpoze_Out
      ∧ E.CS_1D_Kernels ≠ E.CS_1D_Kernels_Transpoze_Out := by
  have h := E.distinct
  simp only [List.nodup_cons, List.mem_cons, List.mem_singleton, not_or] at h
  exact ⟨h.1.1, h.1.2.1, h.2.1.1⟩

theorem submissions_psTrace_length (r : Renderer) (p : BloomPass)
    (inputTextureID : TextureID) (settings : Settings.Bloom) (n : Nat) :
    (submissions (psTrace r p inputTextureID settings n)).length = n + 2 := by
  obtain ⟨before, h⟩ := submissions_psTrace r p inputTextureID settings n
  simp [h, psPassSubmissions_length]

/-- C3: on the pixel-shader strategy, for blur strength N >= 0 with 2N representable as
`int`, one `Render` call issues exactly 2N blur draws and exactly one combine draw (and,
with the bright filter, 2N + 2 submissions in all). -/
theorem C3_blur_and_combine_draw_counts (bc : BuildConfig) (E : BloomShaderEnum)
    (r : Renderer) (p : BloomPass) (inputTextureID : TextureID)
    (settings : Settings.Bloom)
    (hsel : p.mSelectedBloomShader = E.PS_1D_Kernels)
    (hN : 0 ≤ settings.blurStrength) (hrep : 2 * settings.blurStrength ≤ INT_MAX) :
    ∃ trace, Render bc E r p inputTextureID settings = .ok trace
      ∧ ((blurDraws trace).length : Int) = 2 * settings.blurStrength
      ∧ (∀ s ∈ blurDraws trace, s.command = .DrawIndexed)
      ∧ (combineDraws trace).length = 1
      ∧ (dispatches trace).length = 0
      ∧ ((submissions trace).length : Int) = 2 * settings.blurStrength + 2 := by
  have hcount := BlurPassCount_of_representable settings hN hrep
  refine ⟨_, Render_PS bc E r p inputTextureID settings hsel, ?_, ?_, ?_, ?_, ?_⟩
  · rw [blurDraws_psTrace, psPassSubmissions_length, List.length_range']
    omega
  · intro s hs
    rw [blurDraws_psTrace] at hs
    exact (psPassSubmissions_mem r p _ _ _ s hs).2
  · obtain ⟨before, h⟩ := combineDraws_psTrace r p inputTextureID settings
      (BlurPassCount settings).toNat
    rw [h]
    rfl
  · obtain ⟨before, h⟩ := submissions_psTrace r p inputTextureID settings
      (BlurPassCount settings).toNat
    unfold dispatches
    rw [h, List.length_eq_zero, List.filter_eq_nil_iff]
    intro s hs
    simp only [List.mem_cons, List.mem_append, List.not_mem_nil, or_false] at hs
    rcases hs with rfl | hs | rfl
    · simp [Submission.isDispatch, brightSubmission]
    · simp [Submission.isDispatch, (psPassSubmissions_mem r p _ _ _ s hs).2]
    · simp [Submission.isDispatch, combineSubmission]
  · rw [submissions_psTrace_length]
    omega

theorem C3_blur_and_combine_draw_counts_witness :
    (samplePass 0).mSelectedBloomShader = BloomShaderEnum.sequential.PS_1D_Kernels
      ∧ 0 ≤ (sampleSettings 3).blurStrength
      ∧ 2 * (sampleSettings 3).blurStrength ≤ INT_MAX
      ∧ ∃ trace, Render defaultBuild BloomShaderEnum.sequential sampleRenderer (samplePass 0) 7
            (sampleSettings 3) = .ok trace
          ∧ ((blurDraws trace).length : Int) = 2 * (sampleSettings 3).blurStrength
          ∧ (∀ s ∈ blurDraws trace, s.command = .DrawIndexed)
          ∧ (combineDraws trace).length = 1
          ∧ (dispatches trace).length = 0
          ∧ ((submissions trace).length : Int) = 2 * (sampleSettings 3).blurStrength + 2 :=
  ⟨rfl, by decide, by decide,
    C3_blur_and_combine_draw_counts defaultBuild BloomShaderEnum.sequential sampleRenderer
      (samplePass 0) 7 (sampleSettings 3) rfl (by decide) (by decide)⟩

/-- On the pixel-shader strategy with N >= 1 (2N representable), the last blur draw has
ping-pong slot 1 bound as render target, while `GetBloomTexture` resolves the texture of
slot 0, the slot the draw before it had bound. -/
theorem final_ps_pass_writes_slot_1 (bc : BuildConfig) (E : BloomShaderEnum)
    (r : Renderer) (p : BloomPass) (inputTextureID : TextureID)
    (settings : Settings.Bloom)
    (hsel : p.mSelectedBloomShader = E.PS_1D_Kernels)
    (hN : 1 ≤ settings.blurStrength) (hrep : 2 * settings.blurStrength ≤ INT_MAX) :
    ∃ trace last, Render bc E r p inputTextureID settings = .ok trace
      ∧ (blurDraws trace).getLast? = some last
      ∧ last.renderTargets = some [p._blurPingPong.e1]
      ∧ GetBloomTexture E r p = .ok (r.GetRenderTargetTexture p._blurPingPong.e0) := by
  have hcount := BlurPassCount_of_representable settings (by omega) hrep
  have hlen : (blurDraws (psTrace r p inputTextureID settings
      (BlurPassCount settings).toNat)).length = (BlurPassCount settings).toNat := by
    rw [blurDraws_psTrace, psPassSubmissions_length, List.length_range']
  have hn : (BlurPassCount settings).toNat - 1 < (BlurPassCount settings).toNat := by omega
  obtain ⟨extra, h⟩ := (blurDraws_psTrace_getElem? r p inputTextureID settings
    (BlurPassCount settings).toNat ((BlurPassCount settings).toNat - 1)).1 hn
  refine ⟨_, ⟨.DrawIndexed, ["Blur Pass", "Bloom"],
      ((psPassCalls r p ((BlurPassCount settings).toNat - 1)).take 7).reverse ++ extra⟩,
    Render_PS bc E r p inputTextureID settings hsel, ?_, ?_,
    GetBloomTexture_PS E r p hsel⟩
  · rw [List.getLast?_eq_getElem?, hlen]
    exact h
  · rw [(psPass_observed r p _ _ extra _ rfl).1]
    have : ((BlurPassCount settings).toNat - 1) % 2 = 1 := by omega
    simp [this]

/-- C2 (evaluation): with blur strength 3 the sixth, final blur draw has render target 4
(ping-pong slot 1) bound, whereas `GetBloomTexture`, and with it the combine step, resolves
texture 103, the texture of render target 3 (ping-pong slot 0); the texture of the final
pass's target is 104. -/
theorem C2_bloom_texture_is_not_final_pass_output :
    ∃ trace last combine,
      Render defaultBuild BloomShaderEnum.sequential sampleRenderer (samplePass 0) 7
          (sampleSettings 3) = .ok trace
        ∧ (blurDraws trace).length = 6
        ∧ (blurDraws trace)[5]? = some last
        ∧ last.renderTargets = some [(samplePass 0)._blurPingPong.e1]
        ∧ (samplePass 0)._blurPingPong.e1 = 4
        ∧ sampleRenderer.GetRenderTargetTexture 4 = 104
        ∧ GetBloomTexture BloomShaderEnum.sequential sampleRenderer (samplePass 0) = .ok 103
        ∧ combineDraws trace = [combine]
        ∧ combine.texture "BloomTexture" = some 103 :=
  ⟨_, _, _, rfl, rfl, rfl, rfl, rfl, rfl, rfl, rfl, rfl⟩

theorem GetBloomTexture_default (E : BloomShaderEnum) (r : Renderer) (p : BloomPass)
    (hPS : p.mSelectedBloomShader ≠ E.PS_1D_Kernels)
    (hCS : p.mSelectedBloomShader ≠ E.CS_1D_Kernels)
    (hCST : p.mSelectedBloomShader ≠ E.CS_1D_Kernels_Transpoze_Out) :
    GetBloomTexture E r p = .ok (-1) := by
  simp [GetBloomTexture, hPS, hCS, hCST, pure, Except.pure]

theorem GetBloomTexture_CS (E : BloomShaderEnum) (r : Renderer) (p : BloomPass)
    (hsel : p.mSelectedBloomShader = E.CS_1D_Kernels) :
    GetBloomTexture E r p = .ok p.blurComputeOutputPingPong.e1 := by
  simp [GetBloomTexture, hsel, E.ne.1.symm, Array2.read]

theorem GetBloomTexture_CST (E : BloomShaderEnum) (r : Renderer) (p : BloomPass)
    (hsel : p.mSelectedBloomShader = E.CS_1D_Kernels_Transpoze_Out) :
    GetBloomTexture E r p = .ok p.blurComputeOutputPingPong.e0 := by
  simp [GetBloomTexture, hsel, E.ne.2.1.symm, E.ne.2.2.symm, Array2.read]

/-- C7: `GetBloomTexture` is determined by the selector and the stored handles: it gives
the texture of ping-pong render target 0 for PS_1D_Kernels, compute output slot 1 for
CS_1D_Kernels, compute output slot 0 for CS_1D_Kernels_Transpoze_Out and -1 for every
other selector value, and any two states that agree on the selector, on ping-pong slot 0,
on the compute outputs and on the render-target texture lookup give the same value. It
takes no settings, and `Render` leaves the pass state as it is. -/
theorem C7_GetBloomTexture_is_a_table (E : BloomShaderEnum) (r : Renderer) (p : BloomPass) :
    (p.mSelectedBloomShader = E.PS_1D_Kernels →
        GetBloomTexture E r p = .ok (r.GetRenderTargetTexture p._blurPingPong.e0))
      ∧ (p.mSelectedBloomShader = E.CS_1D_Kernels →
        GetBloomTexture E r p = .ok p.blurComputeOutputPingPong.e1)
      ∧ (p.mSelectedBloomShader = E.CS_1D_Kernels_Transpoze_Out →
        GetBloomTexture E r p = .ok p.blurComputeOutputPingPong.e0)
      ∧ (p.mSelectedBloomShader ≠ E.PS_1D_Kernels →
          p.mSelectedBloomShader ≠ E.CS_1D_Kernels →
          p.mSelectedBloomShader ≠ E.CS_1D_Kernels_Transpoze_Out →
        GetBloomTexture E r p = .ok (-1))
      ∧ (∀ (r2 : Renderer) (p2 : BloomPass),
          p2.mSelectedBloomShader = p.mSelectedBloomShader →
          p2._blurPingPong.e0 = p._blurPingPong.e0 →
          p2.blurComputeOutputPingPong = p.blurComputeOutputPingPong →
          (∀ rt, r2.GetRenderTargetTexture rt = r.GetRenderTargetTexture rt) →
        GetBloomTexture E r2 p2 = GetBloomTexture E r p) := by
  refine ⟨GetBloomTexture_PS E r p, GetBloomTexture_CS E r p, GetBloomTexture_CST E r p,
    GetBloomTexture_default E r p, ?_⟩
  · intro r2 p2 hs hp hc hr
    simp [GetBloomTexture, hs, hp, hc, hr, Array2.read, bind, Except.bind, pure, Except.pure]

/-- The calls of `Render` when the `switch` takes its `default` branch. -/
theorem Render_default (bc : BuildConfig) (E : BloomShaderEnum) (r : Renderer)
    (p : BloomPass) (inputTextureID : TextureID) (settings : Settings.Bloom)
    (hPS : p.mSelectedBloomShader ≠ E.PS_1D_Kernels)
    (hCS : p.mSelectedBloomShader ≠ E.CS_1D_Kernels)
    (hCST : p.mSelectedBloomShader ≠ E.CS_1D_Kernels_Transpoze_Out) :
    Render bc E r p inputTextureID settings
      = .ok (brightFilterCalls p inputTextureID settings
          ++ [.Log_Warning "Unsupported Bloom Shader = %d" p.mSelectedBloomShader]
          ++ combineCalls r p (-1)) := by
  simp [Render, blurCalls, GetBloomTexture, hPS, hCS, hCST, bind, Except.bind, pure,
    Except.pure]

/-- C5: for every selector value that is none of the three strategies, `GetBloomTexture`
returns -1, and `Render` completes without a fault, logs exactly one warning, issues no
blur draw and no dispatch, and performs exactly one combine draw (its only submission
besides the bright filter). -/
theorem C5_unknown_selector (bc : BuildConfig) (E : BloomShaderEnum) (r : Renderer)
    (p : BloomPass) (inputTextureID : TextureID) (settings : Settings.Bloom)
    (hPS : p.mSelectedBloomShader ≠ E.PS_1D_Kernels)
    (hCS : p.mSelectedBloomShader ≠ E.CS_1D_Kernels)
    (hCST : p.mSelectedBloomShader ≠ E.CS_1D_Kernels_Transpoze_Out) :
    GetBloomTexture E r p = .ok (-1)
      ∧ ∃ trace, Render bc E r p inputTextureID settings = .ok trace
        ∧ warnings trace
          = [.Log_Warning "Unsupported Bloom Shader = %d" p.mSelectedBloomShader]
        ∧ blurDraws trace = []
        ∧ dispatches trace = []
        ∧ (combineDraws trace).length = 1
        ∧ (submissions trace).map (fun s => (s.command, s.events))
          = [(.Draw 3 "TRIANGLE_LIST", ["Bright Filter", "Bloom"]),
             (.DrawIndexed, ["Combine", "Bloom"])] := by
  refine ⟨GetBloomTexture_default E r p hPS hCS hCST, _,
    Render_default bc E r p inputTextureID settings hPS hCS hCST, ?_, ?_, ?_, ?_, ?_⟩
  · simp [warnings, brightFilterCalls, combineCalls]
  · simp [blurDraws, submissions, submissionsFrom, brightFilterCalls, combineCalls,
      Submission.inEvent]
  · simp [dispatches, submissions, submissionsFrom, brightFilterCalls, combineCalls,
      Submission.isDispatch]
  · simp [combineDraws, submissions, submissionsFrom, brightFilterCalls, combineCalls,
      Submission.inEvent]
  · simp [submissions, submissionsFrom, brightFilterCalls, combineCalls]

theorem C5_unknown_selector_witness :
    (samplePass 3).mSelectedBloomShader ≠ BloomShaderEnum.sequential.PS_1D_Kernels
      ∧ (samplePass 3).mSelectedBloomShader ≠ BloomShaderEnum.sequential.CS_1D_Kernels
      ∧ (samplePass 3).mSelectedBloomShader
          ≠ BloomShaderEnum.sequential.CS_1D_Kernels_Transpoze_Out
      ∧ GetBloomTexture BloomShaderEnum.sequential sampleRenderer (samplePass 3) = .ok (-1)
      ∧ ∃ trace, Render defaultBuild BloomShaderEnum.sequential sampleRenderer (samplePass 3) 7
            (sampleSettings 3) = .ok trace
          ∧ warnings trace
            = [.Log_Warning "Unsupported Bloom Shader = %d"
                (samplePass 3).mSelectedBloomShader]
          ∧ blurDraws trace = []
          ∧ dispatches trace = []
          ∧ (combineDraws trace).length = 1
          ∧ (submissions trace).map (fun s => (s.command, s.events))
            = [(.Draw 3 "TRIANGLE_LIST", ["Bright Filter", "Bloom"]),
               (.DrawIndexed, ["Combine", "Bloom"])] :=
  ⟨by decide, by decide, by decide,
    C5_unknown_selector defaultBuild BloomShaderEnum.sequential sampleRenderer (samplePass 3) 7
      (sampleSettings 3) (by decide) (by decide) (by decide)⟩

/-- C6: on the pixel-shader strategy, for every blur strength N (N >= 0 included),
`Render` and `GetBloomTexture` complete without a fault, that is, without an index outside
0..1 into the ping-pong array and without a zero divisor: in every loop iteration `i % 2`
is 0 or 1 and so is `1 - i % 2`. With N = 0 no blur draw is issued and the one combine draw
takes "BloomTexture" from ping-pong slot 0. -/
theorem C6_zero_strength_and_index_range (bc : BuildConfig) (E : BloomShaderEnum)
    (r : Renderer) (p : BloomPass) (inputTextureID : TextureID)
    (settings : Settings.Bloom)
    (hsel : p.mSelectedBloomShader = E.PS_1D_Kernels) :
    ∃ trace slot0, Render bc E r p inputTextureID settings = .ok trace
      ∧ p._blurPingPong.read 0 = .ok slot0
      ∧ GetBloomTexture E r p = .ok (r.GetRenderTargetTexture slot0)
      ∧ (∀ i : Nat, ∃ w calls, cMod (i : Int) 2 = .ok w
          ∧ (w = 0 ∨ w = 1) ∧ (1 - w = 0 ∨ 1 - w = 1)
          ∧ blurPassPS r p (r.GetRenderTargetTexture p._brightRT) (i : Int) = .ok calls)
      ∧ (settings.blurStrength = 0 →
          blurDraws trace = []
          ∧ (submissions trace).length = 2
          ∧ ∃ combine, combineDraws trace = [combine]
            ∧ combine.texture "BloomTexture" = some (r.GetRenderTargetTexture slot0)) := by
  refine ⟨_, p._blurPingPong.e0, Render_PS bc E r p inputTextureID settings hsel, rfl,
    GetBloomTexture_PS E r p hsel, ?_, ?_⟩
  · intro i
    refine ⟨_, _, cMod_two_natCast i, ?_, ?_, blurPassPS_natCast r p i⟩
    · rcases Nat.mod_two_eq_zero_or_one i with h | h <;> simp [h]
    · rcases Nat.mod_two_eq_zero_or_one i with h | h <;> simp [h]
  · intro h0
    have hcount : (BlurPassCount settings).toNat = 0 := by
      simp [BlurPassCount, h0, wrapInt32]
    rw [hcount]
    refine ⟨?_, ?_, ?_⟩
    · rw [blurDraws_psTrace]
      rfl
    · rw [submissions_psTrace_length]
    · obtain ⟨before, h⟩ := combineDraws_psTrace r p inputTextureID settings 0
      refine ⟨_, h, ?_⟩
      simp [combineSubmission, combineCalls, Submission.texture]

theorem C6_zero_strength_and_index_range_witness :
    (samplePass 0).mSelectedBloomShader = BloomShaderEnum.sequential.PS_1D_Kernels
      ∧ ∃ trace slot0,
          Render defaultBuild BloomShaderEnum.sequential sampleRenderer (samplePass 0) 7
            (sampleSettings 0) = .ok trace
          ∧ (samplePass 0)._blurPingPong.read 0 = .ok slot0
          ∧ GetBloomTexture BloomShaderEnum.sequential sampleRenderer (samplePass 0)
            = .ok (sampleRenderer.GetRenderTargetTexture slot0)
          ∧ (∀ i : Nat, ∃ w calls, cMod (i : Int) 2 = .ok w
              ∧ (w = 0 ∨ w = 1) ∧ (1 - w = 0 ∨ 1 - w = 1)
              ∧ blurPassPS sampleRenderer (samplePass 0)
                  (sampleRenderer.GetRenderTargetTexture (samplePass 0)._brightRT) (i : Int)
                = .ok calls)
          ∧ ((sampleSettings 0).blurStrength = 0 →
              blurDraws trace = []
              ∧ (submissions trace).length = 2
              ∧ ∃ combine, combineDraws trace = [combine]
                ∧ combine.texture "BloomTexture"
                  = some (sampleRenderer.GetRenderTargetTexture slot0)) :=
  ⟨rfl,
    C6_zero_strength_and_index_range defaultBuild BloomShaderEnum.sequential sampleRenderer
      (samplePass 0) 7 (sampleSettings 0) rfl⟩

/-! ## The compute strategies -/

/-- The calls of `Render` on the compute strategy, written out. -/
theorem Render_CS (bc : BuildConfig) (E : BloomShaderEnum) (r : Renderer) (p : BloomPass)
    (inputTextureID : TextureID) (settings : Settings.Bloom)
    (hbuild : bc.ENABLE_COMPUTE_BLUR = true)
    (hsel : p.mSelectedBloomShader = E.CS_1D_Kernels) :
    Render bc E r p inputTextureID settings
      = .ok (csTrace r p inputTextureID settings) := by
  have h0 : Int.tmod 0 2 = 0 := rfl
  have h1 : Int.tmod 1 2 = 1 := rfl
  have h2 : Int.tmod 2 2 = 0 := rfl
  simp [Render, blurCalls, hbuild, hsel, E.ne.1.symm, GetBloomTexture_CS E r p hsel, forLoop,
    blurPassCS, cMod, h0, h1, h2, Array2.read, blurParameterCalls, csTrace,
    USE_CONSTANT_BUFFER_FOR_BLUR_STRENGTH, bind, Except.bind, pure, Except.pure]

/-- The calls of `Render` on the compute-transpose strategy, written out. -/
theorem Render_CST (bc : BuildConfig) (E : BloomShaderEnum) (r : Renderer) (p : BloomPass)
    (inputTextureID : TextureID) (settings : Settings.Bloom)
    (hbuild : bc.ENABLE_COMPUTE_BLUR_TRANSPOZE = true)
    (hsel : p.mSelectedBloomShader = E.CS_1D_Kernels_Transpoze_Out) :
    Render bc E r p inputTextureID settings
      = .ok (cstTrace r p inputTextureID settings) := by
  simp [Render, blurCalls, hbuild, hsel, E.ne.2.1.symm, E.ne.2.2.symm,
    GetBloomTexture_CST E r p hsel, blurTranspozeCalls, Array2.read, blurParameterCalls,
    cstTrace,
    USE_CONSTANT_BUFFER_FOR_BLUR_STRENGTH, bind, Except.bind, pure, Except.pure]

/-! ## Initialize -/

theorem getElem?_append_length_add {α : Type} (l t : List α) (k : Nat) :
    (l ++ t)[l.length + k]? = t[k]? := by
  rw [List.getElem?_append_right (by omega)]
  simp

theorem initializeCommon_eq (E : BloomShaderEnum) (r : Renderer) (p : BloomPass)
    (rtDesc : RenderTargetDesc) :
    initializeCommon E r p rtDesc
      = .ok ({ r with
            mRenderTargets := r.mRenderTargets ++ List.replicate 5 rtDesc,
            mShaders := r.mShaders ++ bloomPipelineShaders,
            mSamplers := r.mSamplers ++
              [⟨"D3D11_TEXTURE_ADDRESS_CLAMP", "D3D11_TEXTURE_ADDRESS_CLAMP",
                "D3D11_TEXTURE_ADDRESS_CLAMP", "D3D11_FILTER_MIN_MAG_MIP_POINT"⟩] },
          { p with
            _colorRT := r.mRenderTargets.length,
            _brightRT := (r.mRenderTargets.length : Int) + 1,
            _finalRT := (r.mRenderTargets.length : Int) + 2,
            _blurPingPong := ⟨(r.mRenderTargets.length : Int) + 3,
              (r.mRenderTargets.length : Int) + 4⟩,
            _bloomFilterShader := r.mShaders.length,
            _blurShaderH := (r.mShaders.length : Int) + 1,
            _blurShaderV := (r.mShaders.length : Int) + 2,
            _bloomCombineShader := (r.mShaders.length : Int) + 3,
            _blurSampler := r.mSamplers.length,
            mSelectedBloomShader := E.PS_1D_Kernels }) := by
  simp [initializeCommon, Renderer.AddRenderTarget, Renderer.CreateShader,
    Renderer.CreateSamplerState, Array2.write, bloomPipelineShader, bloomPipelineShaders,
    List.replicate, bind, Except.bind, pure, Except.pure, add_assoc]

theorem Initialize_default (E : BloomShaderEnum) (r : Renderer) (p : BloomPass)
    (bloomSettings : Settings.Bloom) (rtDesc : RenderTargetDesc) :
    Initialize defaultBuild E r p bloomSettings rtDesc = initializeCommon E r p rtDesc := by
  rw [initializeCommon_eq]
  simp [Initialize, initializeCommon_eq, defaultBuild, bind, Except.bind, pure, Except.pure]

theorem GetShaderDesc_of_getElem? (r : Renderer) (shader : ShaderID) (n : Nat)
    (desc : ShaderDesc) (hid : shader = (n : Int)) (h : r.mShaders[n]? = some desc) :
    r.GetShaderDesc shader = .ok desc := by
  subst hid
  have hnn : ¬ ((n : Int) < 0) := by omega
  simp [Renderer.GetShaderDesc, hnn, h]

theorem initializeComputeBlur_eq (E : BloomShaderEnum) (r : Renderer) (p : BloomPass)
    (bloomSettings : Settings.Bloom) (texDesc : TextureDesc) :
    initializeComputeBlur E r p bloomSettings texDesc
      = .ok ({ r with
            mTextures := r.mTextures ++ [texDesc, texDesc],
            mShaders := r.mShaders
              ++ [CSDescH texDesc bloomSettings, CSDescV texDesc bloomSettings] },
          { p with
            blurComputeOutputPingPong :=
              ⟨r.mTextures.length, (r.mTextures.length : Int) + 1⟩,
            blurComputeShaderPingPong :=
              ⟨r.mShaders.length, (r.mShaders.length : Int) + 1⟩,
            mSelectedBloomShader := E.CS_1D_Kernels }) := by
  simp [initializeComputeBlur, Renderer.CreateTexture2D, Renderer.CreateShader, Array2.write,
    bind, Except.bind, pure, Except.pure]

theorem initializeComputeBlurTranspoze_eq_of_compute (bc : BuildConfig)
    (E : BloomShaderEnum) (r : Renderer) (p : BloomPass) (bloomSettings : Settings.Bloom)
    (rtDesc : RenderTargetDesc) (texDesc : TextureDesc)
    (hbuild : bc.ENABLE_COMPUTE_BLUR = true) :
    initializeComputeBlurTranspoze bc E r p bloomSettings rtDesc texDesc
      = .ok ({ r with
            mShaders := r.mShaders ++ [CSDescHTz texDesc bloomSettings],
            mTextures := r.mTextures
              ++ [⟨(r.WindowHeight : Int), (r.WindowWidth : Int), rtDesc.textureDesc.format,
                    "COMPUTE_RW_TEXTURE"⟩] },
          { p with
            blurHorizontalTranspozeComputeShader := r.mShaders.length,
            texTransposedImage := r.mTextures.length,
            mSelectedBloomShader := E.CS_1D_Kernels_Transpoze_Out }) := by
  simp [initializeComputeBlurTranspoze, hbuild, Renderer.CreateTexture2D,
    Renderer.CreateShader, bind, Except.bind, pure, Except.pure]

theorem initializeComputeBlurTranspoze_eq_of_not_compute (bc : BuildConfig)
    (E : BloomShaderEnum) (r : Renderer) (p : BloomPass) (bloomSettings : Settings.Bloom)
    (rtDesc : RenderTargetDesc) (texDesc : TextureDesc)
    (hbuild : bc.ENABLE_COMPUTE_BLUR = false) :
    initializeComputeBlurTranspoze bc E r p bloomSettings rtDesc texDesc
      = .ok ({ r with
            mShaders := r.mShaders
              ++ [CSDescH texDesc bloomSettings, CSDescHTz texDesc bloomSettings],
            mTextures := r.mTextures
              ++ [texDesc,
                  ⟨(r.WindowHeight : Int), (r.WindowWidth : Int), rtDesc.textureDesc.format,
                    "COMPUTE_RW_TEXTURE"⟩] },
          { p with
            blurComputeOutputPingPong :=
              ⟨r.mTextures.length, p.blurComputeOutputPingPong.e1⟩,
            blurComputeShaderPingPong :=
              ⟨r.mShaders.length, p.blurComputeShaderPingPong.e1⟩,
            blurHorizontalTranspozeComputeShader := (r.mShaders.length : Int) + 1,
            texTransposedImage := (r.mTextures.length : Int) + 1,
            mSelectedBloomShader := E.CS_1D_Kernels_Transpoze_Out }) := by
  simp [initializeComputeBlurTranspoze, hbuild, Renderer.CreateTexture2D,
    Renderer.CreateShader, Array2.write, bind, Except.bind, pure, Except.pure]

theorem exists_ok_of_match {α : Type} (x : Except Fault α) (P : α → Prop)
    (h : match x with
      | .ok a => P a
      | .error _ => False) :
    ∃ a, x = .ok a ∧ P a := by
  cases x with
  | error e => exact h.elim
  | ok a => exact ⟨a, rfl, h⟩

/-- In a build with `ENABLE_COMPUTE_BLUR`, `Initialize` puts the horizontal compute shader
in slot 0 and the vertical one in slot 1 of `blurComputeShaderPingPong`. -/
theorem Initialize_compute_shaders (bc : BuildConfig) (E : BloomShaderEnum) (r0 : Renderer)
    (p0 : BloomPass) (bloomSettings : Settings.Bloom) (rtDesc : RenderTargetDesc)
    (hbuild : bc.ENABLE_COMPUTE_BLUR = true) :
    ∃ rp, Initialize bc E r0 p0 bloomSettings rtDesc = .ok rp
      ∧ (rp.1.GetShaderDesc rp.2.blurComputeShaderPingPong.e0
          = .ok (CSDescH (computeTexDesc r0 rtDesc) bloomSettings)
        ∧ rp.1.GetShaderDesc rp.2.blurComputeShaderPingPong.e1
          = .ok (CSDescV (computeTexDesc r0 rtDesc) bloomSettings)
        ∧ (bc.ENABLE_COMPUTE_BLUR_TRANSPOZE = false →
            rp.2.mSelectedBloomShader = E.CS_1D_Kernels)) := by
  apply exists_ok_of_match
  rcases htz : bc.ENABLE_COMPUTE_BLUR_TRANSPOZE with _ | _
  · simp only [Initialize, initializeCommon_eq, hbuild, htz, initializeComputeBlur_eq,
      bind, Except.bind, pure, Except.pure, if_true, if_false, Bool.false_eq_true]
    refine ⟨?_, ?_, by simp⟩
    · refine GetShaderDesc_of_getElem? _ _ (r0.mShaders.length + 4) _ ?_ ?_
      · simp [bloomPipelineShaders]
      · show (r0.mShaders ++ bloomPipelineShaders ++ [_, _])[r0.mShaders.length + 4]? = _
        rw [List.append_assoc, getElem?_append_length_add]
        rfl
    · refine GetShaderDesc_of_getElem? _ _ (r0.mShaders.length + 5) _ ?_ ?_
      · simp [bloomPipelineShaders, add_assoc]
      · show (r0.mShaders ++ bloomPipelineShaders ++ [_, _])[r0.mShaders.length + 5]? = _
        rw [List.append_assoc, getElem?_append_length_add]
        rfl
  · simp only [Initialize, initializeCommon_eq, hbuild, htz, initializeComputeBlur_eq,
      initializeComputeBlurTranspoze_eq_of_compute,
      bind, Except.bind, pure, Except.pure, if_true, if_false, Bool.false_eq_true]
    refine ⟨?_, ?_, by simp⟩
    · refine GetShaderDesc_of_getElem? _ _ (r0.mShaders.length + 4) _ ?_ ?_
      · simp [bloomPipelineShaders]
      · show (r0.mShaders ++ bloomPipelineShaders ++ [_, _] ++ [_])[r0.mShaders.length + 4]?
          = _
        rw [List.append_assoc, List.append_assoc, getElem?_append_length_add]
        rfl
    · refine GetShaderDesc_of_getElem? _ _ (r0.mShaders.length + 5) _ ?_ ?_
      · simp [bloomPipelineShaders, add_assoc]
      · show (r0.mShaders ++ bloomPipelineShaders ++ [_, _] ++ [_])[r0.mShaders.length + 5]?
          = _
        rw [List.append_assoc, List.append_assoc, getElem?_append_length_add]
        rfl

/-- In a build with `ENABLE_COMPUTE_BLUR_TRANSPOZE`, `Initialize` selects the transpose
strategy, puts the horizontal compute shader in slot 0 of `blurComputeShaderPingPong` and
the shader built from `CSDescHTz` in `blurHorizontalTranspozeComputeShader`. -/
theorem Initialize_transpoze_shaders (bc : BuildConfig) (E : BloomShaderEnum)
    (r0 : Renderer) (p0 : BloomPass) (bloomSettings : Settings.Bloom)
    (rtDesc : RenderTargetDesc) (hbuild : bc.ENABLE_COMPUTE_BLUR_TRANSPOZE = true) :
    ∃ rp, Initialize bc E r0 p0 bloomSettings rtDesc = .ok rp
      ∧ (rp.2.mSelectedBloomShader = E.CS_1D_Kernels_Transpoze_Out
        ∧ rp.1.GetShaderDesc rp.2.blurComputeShaderPingPong.e0
          = .ok (CSDescH (computeTexDesc r0 rtDesc) bloomSettings)
        ∧ rp.1.GetShaderDesc rp.2.blurHorizontalTranspozeComputeShader
          = .ok (CSDescHTz (computeTexDesc r0 rtDesc) bloomSettings)) := by
  apply exists_ok_of_match
  rcases hcb : bc.ENABLE_COMPUTE_BLUR with _ | _
  · simp only [Initialize, initializeCommon_eq, hbuild, hcb,
      initializeComputeBlurTranspoze_eq_of_not_compute,
      bind, Except.bind, pure, Except.pure, if_true, if_false, Bool.false_eq_true]
    refine ⟨trivial, ?_, ?_⟩
    · refine GetShaderDesc_of_getElem? _ _ (r0.mShaders.length + 4) _ ?_ ?_
      · simp [bloomPipelineShaders]
      · show (r0.mShaders ++ bloomPipelineShaders ++ [_, _])[r0.mShaders.length + 4]? = _
        rw [List.append_assoc, getElem?_append_length_add]
        rfl
    · refine GetShaderDesc_of_getElem? _ _ (r0.mShaders.length + 5) _ ?_ ?_
      · simp [bloomPipelineShaders, add_assoc]
      · show (r0.mShaders ++ bloomPipelineShaders ++ [_, _])[r0.mShaders.length + 5]? = _
        rw [List.append_assoc, getElem?_append_length_add]
        rfl
  · simp only [Initialize, initializeCommon_eq, hbuild, hcb, initializeComputeBlur_eq,
      initializeComputeBlurTranspoze_eq_of_compute,
      bind, Except.bind, pure, Except.pure, if_true, if_false, Bool.false_eq_true]
    refine ⟨trivial, ?_, ?_⟩
    · refine GetShaderDesc_of_getElem? _ _ (r0.mShaders.length + 4) _ ?_ ?_
      · simp [bloomPipelineShaders]
      · show (r0.mShaders ++ bloomPipelineShaders ++ [_, _] ++ [_])[r0.mShaders.length + 4]?
          = _
        rw [List.append_assoc, List.append_assoc, getElem?_append_length_add]
        rfl
    · refine GetShaderDesc_of_getElem? _ _ (r0.mShaders.length + 6) _ ?_ ?_
      · simp [bloomPipelineShaders, add_assoc]
      · show (r0.mShaders ++ bloomPipelineShaders ++ [_, _] ++ [_])[r0.mShaders.length + 6]?
          = _
        rw [List.append_assoc, List.append_assoc, getElem?_append_length_add]
        rfl

/-! ## Claims on the compute strategies -/

theorem exists_pair_of_match (l : List Submission) (P : Submission → Submission → Prop)
    (h : match l with
      | [a, b] => P a b
      | _ => False) :
    ∃ a b, l = [a, b] ∧ P a b := by
  match l, h with
  | [a, b], h => exact ⟨a, b, rfl, h⟩

theorem exists_triple_of_match (l : List Submission)
    (P : Submission → Submission → Submission → Prop)
    (h : match l with
      | [a, b, c] => P a b c
      | _ => False) :
    ∃ a b c, l = [a, b, c] ∧ P a b c := by
  match l, h with
  | [a, b, c], h => exact ⟨a, b, c, rfl, h⟩

/-- C8 (amended): on the compute strategy `Render` issues exactly two dispatches, the
horizontal blur (shader slot 0) first and the vertical blur (shader slot 1) second; each
dispatch has one thread group per scanline: for the horizontal blur the group count along
Y is the image height and the count along X, the blurred axis, is 1; for the vertical blur
the count along X is the image width and the count along Y is 1; the count along Z is 1.
`Initialize` fills shader slot 0 from `CSDescH` (HORIZONTAL = 1) and slot 1 from `CSDescV`
(VERTICAL = 1). -/
theorem C8_compute_dispatch_per_scanline (bc : BuildConfig) (E : BloomShaderEnum)
    (r : Renderer) (p : BloomPass) (inputTextureID : TextureID) (settings : Settings.Bloom)
    (hbuild : bc.ENABLE_COMPUTE_BLUR = true)
    (hsel : p.mSelectedBloomShader = E.CS_1D_Kernels) :
    (∃ trace h v, Render bc E r p inputTextureID settings = .ok trace
        ∧ dispatches trace = [h, v]
        ∧ h.shader = some p.blurComputeShaderPingPong.e0
        ∧ h.command = .Dispatch 1 (r.WindowHeight : Int) 1
        ∧ v.shader = some p.blurComputeShaderPingPong.e1
        ∧ v.command = .Dispatch (r.WindowWidth : Int) 1 1)
      ∧ (∀ (r0 : Renderer) (p0 : BloomPass) (s0 : Settings.Bloom) (rtDesc : RenderTargetDesc),
          ∃ rp, Initialize bc E r0 p0 s0 rtDesc = .ok rp
            ∧ rp.1.GetShaderDesc rp.2.blurComputeShaderPingPong.e0
              = .ok (CSDescH (computeTexDesc r0 rtDesc) s0)
            ∧ rp.1.GetShaderDesc rp.2.blurComputeShaderPingPong.e1
              = .ok (CSDescV (computeTexDesc r0 rtDesc) s0)
            ∧ (⟨"HORIZONTAL", "1"⟩ : ShaderMacro)
              ∈ (CSDescH (computeTexDesc r0 rtDesc) s0).stage0.macros
            ∧ (⟨"VERTICAL", "1"⟩ : ShaderMacro)
              ∈ (CSDescV (computeTexDesc r0 rtDesc) s0).stage0.macros) := by
  constructor
  · obtain ⟨h, v, hd, hP⟩ := exists_pair_of_match
      (dispatches (csTrace r p inputTextureID settings))
      (fun h v => h.shader = some p.blurComputeShaderPingPong.e0
        ∧ h.command = .Dispatch 1 (r.WindowHeight : Int) 1
        ∧ v.shader = some p.blurComputeShaderPingPong.e1
        ∧ v.command = .Dispatch (r.WindowWidth : Int) 1 1)
      (by simp [dispatches, submissions, csTrace, brightFilterCalls, combineCalls,
            submissionsFrom, Submission.isDispatch, Submission.shader])
    exact ⟨_, h, v, Render_CS bc E r p inputTextureID settings hbuild hsel, hd, hP⟩
  · intro r0 p0 s0 rtDesc
    obtain ⟨rp, h, h0, h1, -⟩ := Initialize_compute_shaders bc E r0 p0 s0 rtDesc hbuild
    refine ⟨rp, h, h0, h1, ?_, ?_⟩
    · simp [CSDescH, ShaderDesc.stage0]
    · simp [CSDescV, ShaderDesc.stage0]

theorem C8_compute_dispatch_per_scanline_witness :
    (⟨true, false⟩ : BuildConfig).ENABLE_COMPUTE_BLUR = true
      ∧ (samplePass 1).mSelectedBloomShader = BloomShaderEnum.sequential.CS_1D_Kernels
      ∧ (∃ trace h v,
          Render ⟨true, false⟩ BloomShaderEnum.sequential sampleRenderer (samplePass 1) 7
            (sampleSettings 3) = .ok trace
          ∧ dispatches trace = [h, v]
          ∧ h.shader = some (samplePass 1).blurComputeShaderPingPong.e0
          ∧ h.command = .Dispatch 1 (sampleRenderer.WindowHeight : Int) 1
          ∧ v.shader = some (samplePass 1).blurComputeShaderPingPong.e1
          ∧ v.command = .Dispatch (sampleRenderer.WindowWidth : Int) 1 1)
      ∧ (∀ (r0 : Renderer) (p0 : BloomPass) (s0 : Settings.Bloom) (rtDesc : RenderTargetDesc),
          ∃ rp, Initialize ⟨true, false⟩ BloomShaderEnum.sequential r0 p0 s0 rtDesc = .ok rp
            ∧ rp.1.GetShaderDesc rp.2.blurComputeShaderPingPong.e0
              = .ok (CSDescH (computeTexDesc r0 rtDesc) s0)
            ∧ rp.1.GetShaderDesc rp.2.blurComputeShaderPingPong.e1
              = .ok (CSDescV (computeTexDesc r0 rtDesc) s0)
            ∧ (⟨"HORIZONTAL", "1"⟩ : ShaderMacro)
              ∈ (CSDescH (computeTexDesc r0 rtDesc) s0).stage0.macros
            ∧ (⟨"VERTICAL", "1"⟩ : ShaderMacro)
              ∈ (CSDescV (computeTexDesc r0 rtDesc) s0).stage0.macros) :=
  ⟨rfl, rfl,
    C8_compute_dispatch_per_scanline ⟨true, false⟩ BloomShaderEnum.sequential sampleRenderer
      (samplePass 1) 7 (sampleSettings 3) rfl rfl⟩

/-- C8 (as stated) fails: in a 1920 x 1080 window the horizontal blur, the first dispatch,
does not have 1920 groups along X and 1 along Y, nor the vertical blur 1080 groups along Y
and 1 along X; the dispatches are (1, 1080, 1) and (1920, 1, 1). -/
theorem C8_counterexample :
    (∃ trace h v,
        Render ⟨true, false⟩ BloomShaderEnum.sequential sampleRenderer (samplePass 1) 7
          (sampleSettings 3) = .ok trace
        ∧ dispatches trace = [h, v]
        ∧ h.command = .Dispatch 1 1080 1
        ∧ v.command = .Dispatch 1920 1 1)
      ∧ ¬ ∃ trace h v,
        Render ⟨true, false⟩ BloomShaderEnum.sequential sampleRenderer (samplePass 1) 7
          (sampleSettings 3) = .ok trace
        ∧ dispatches trace = [h, v]
        ∧ h.command = .Dispatch (sampleRenderer.WindowWidth : Int) 1 1
        ∧ v.command = .Dispatch 1 (sampleRenderer.WindowHeight : Int) 1 := by
  constructor
  · exact ⟨_, _, _, rfl, rfl, rfl, rfl⟩
  · rintro ⟨trace, h, v, hR, hd, hh, -⟩
    have hT : Render ⟨true, false⟩ BloomShaderEnum.sequential sampleRenderer (samplePass 1) 7
        (sampleSettings 3) = .ok _ :=
      Render_CS ⟨true, false⟩ BloomShaderEnum.sequential sampleRenderer (samplePass 1) 7
        (sampleSettings 3) rfl rfl
    rw [hT] at hR
    cases hR
    simp only [dispatches, submissions, csTrace, brightFilterCalls, combineCalls,
      List.cons_append, List.nil_append, submissionsFrom, List.tail_cons, List.filter,
      Submission.isDispatch] at hd
    injection hd with hd1 hd2
    subst hd1
    simp [sampleRenderer] at hh

/-- C9: on the compute-transpose strategy `Render` issues exactly three dispatches, in
this order: the horizontal blur (shader slot 0) reading the bright texture into compute
output 0, the transpose shader reading compute output 0 into the transposed image, and
the horizontal blur for the transposed image reading the transposed image into compute
output 0. The call list is the same whatever handle the vertical-blur slot 1 holds, and
the two-dispatch compute strategy issues exactly one dispatch less. In a build with the
transpose strategy `Initialize` selects it and creates the two blur shaders from `CSDescH`
(HORIZONTAL = 1) and `CSDescHTz`. -/
theorem C9_transpose_strategy_dispatches (bc : BuildConfig) (E : BloomShaderEnum)
    (r : Renderer) (p : BloomPass) (inputTextureID : TextureID) (settings : Settings.Bloom)
    (hbuild : bc.ENABLE_COMPUTE_BLUR_TRANSPOZE = true)
    (hsel : p.mSelectedBloomShader = E.CS_1D_Kernels_Transpoze_Out) :
    (∃ trace a b c, Render bc E r p inputTextureID settings = .ok trace
        ∧ dispatches trace = [a, b, c]
        ∧ a.shader = some p.blurComputeShaderPingPong.e0
        ∧ a.texture "texColorIn" = some (r.GetRenderTargetTexture p._brightRT)
        ∧ a.rwTexture "texColorOut" = some p.blurComputeOutputPingPong.e0
        ∧ b.shader = some p.sShaderTranspoze
        ∧ b.rwTexture "texImageIn" = some p.blurComputeOutputPingPong.e0
        ∧ b.rwTexture "texTranspozeOut" = some p.texTransposedImage
        ∧ c.shader = some p.blurHorizontalTranspozeComputeShader
        ∧ c.texture "texColorIn" = some p.texTransposedImage
        ∧ c.rwTexture "texColorOut" = some p.blurComputeOutputPingPong.e0
        ∧ (∀ vertical : ShaderID,
            Render bc E r
              { p with blurComputeShaderPingPong :=
                  { p.blurComputeShaderPingPong with e1 := vertical } }
              inputTextureID settings = .ok trace)
        ∧ (∀ (bc2 : BuildConfig) (p2 : BloomPass), bc2.ENABLE_COMPUTE_BLUR = true →
            p2.mSelectedBloomShader = E.CS_1D_Kernels →
            ∃ trace2, Render bc2 E r p2 inputTextureID settings = .ok trace2
              ∧ (dispatches trace).length = (dispatches trace2).length + 1))
      ∧ (∀ (r0 : Renderer) (p0 : BloomPass) (s0 : Settings.Bloom) (rtDesc : RenderTargetDesc),
          ∃ rp, Initialize bc E r0 p0 s0 rtDesc = .ok rp
            ∧ rp.2.mSelectedBloomShader = E.CS_1D_Kernels_Transpoze_Out
            ∧ rp.1.GetShaderDesc rp.2.blurComputeShaderPingPong.e0
              = .ok (CSDescH (computeTexDesc r0 rtDesc) s0)
            ∧ rp.1.GetShaderDesc rp.2.blurHorizontalTranspozeComputeShader
              = .ok (CSDescHTz (computeTexDesc r0 rtDesc) s0)
            ∧ (⟨"HORIZONTAL", "1"⟩ : ShaderMacro)
              ∈ (CSDescH (computeTexDesc r0 rtDesc) s0).stage0.macros) := by
  constructor
  · obtain ⟨a, b, c, hd, h1, h2, h3, h4, h5, h6, h7, h8, h9⟩ := exists_triple_of_match
      (dispatches (cstTrace r p inputTextureID settings))
      (fun a b c => a.shader = some p.blurComputeShaderPingPong.e0
        ∧ a.texture "texColorIn" = some (r.GetRenderTargetTexture p._brightRT)
        ∧ a.rwTexture "texColorOut" = some p.blurComputeOutputPingPong.e0
        ∧ b.shader = some p.sShaderTranspoze
        ∧ b.rwTexture "texImageIn" = some p.blurComputeOutputPingPong.e0
        ∧ b.rwTexture "texTranspozeOut" = some p.texTransposedImage
        ∧ c.shader = some p.blurHorizontalTranspozeComputeShader
        ∧ c.texture "texColorIn" = some p.texTransposedImage
        ∧ c.rwTexture "texColorOut" = some p.blurComputeOutputPingPong.e0)
      (by simp [dispatches, submissions, cstTrace, brightFilterCalls, combineCalls,
            submissionsFrom, Submission.isDispatch, Submission.shader, Submission.texture,
            Submission.rwTexture])
    refine ⟨_, a, b, c, Render_CST bc E r p inputTextureID settings hbuild hsel, hd, h1, h2,
      h3, h4, h5, h6, h7, h8, h9, ?_, ?_⟩
    · intro vertical
      exact Render_CST bc E r
        { p with blurComputeShaderPingPong :=
            { p.blurComputeShaderPingPong with e1 := vertical } }
        inputTextureID settings hbuild hsel
    · intro bc2 p2 hbuild2 hsel2
      refine ⟨_, Render_CS bc2 E r p2 inputTextureID settings hbuild2 hsel2, ?_⟩
      rw [hd]
      simp [dispatches, submissions, csTrace, brightFilterCalls, combineCalls,
        submissionsFrom, Submission.isDispatch]
  · intro r0 p0 s0 rtDesc
    obtain ⟨rp, h, hs, h0, h1⟩ := Initialize_transpoze_shaders bc E r0 p0 s0 rtDesc hbuild
    refine ⟨rp, h, hs, h0, h1, ?_⟩
    simp [CSDescH, ShaderDesc.stage0]

theorem C9_transpose_strategy_dispatches_witness :
    (⟨false, true⟩ : BuildConfig).ENABLE_COMPUTE_BLUR_TRANSPOZE = true
      ∧ (samplePass 2).mSelectedBloomShader
          = BloomShaderEnum.sequential.CS_1D_Kernels_Transpoze_Out
      ∧ (∃ trace a b c,
          Render ⟨false, true⟩ BloomShaderEnum.sequential sampleRenderer (samplePass 2) 7
            (sampleSettings 3) = .ok trace
          ∧ dispatches trace = [a, b, c]
          ∧ a.shader = some (samplePass 2).blurComputeShaderPingPong.e0
          ∧ a.texture "texColorIn"
            = some (sampleRenderer.GetRenderTargetTexture (samplePass 2)._brightRT)
          ∧ a.rwTexture "texColorOut" = some (samplePass 2).blurComputeOutputPingPong.e0
          ∧ b.shader = some (samplePass 2).sShaderTranspoze
          ∧ b.rwTexture "texImageIn" = some (samplePass 2).blurComputeOutputPingPong.e0
          ∧ b.rwTexture "texTranspozeOut" = some (samplePass 2).texTransposedImage
          ∧ c.shader = some (samplePass 2).blurHorizontalTranspozeComputeShader
          ∧ c.texture "texColorIn" = some (samplePass 2).texTransposedImage
          ∧ c.rwTexture "texColorOut" = some (samplePass 2).blurComputeOutputPingPong.e0
          ∧ (∀ vertical : ShaderID,
              Render ⟨false, true⟩ BloomShaderEnum.sequential sampleRenderer
                { samplePass 2 with blurComputeShaderPingPong :=
                    { (samplePass 2).blurComputeShaderPingPong with e1 := vertical } }
                7 (sampleSettings 3) = .ok trace)
          ∧ (∀ (bc2 : BuildConfig) (p2 : BloomPass), bc2.ENABLE_COMPUTE_BLUR = true →
              p2.mSelectedBloomShader = BloomShaderEnum.sequential.CS_1D_Kernels →
              ∃ trace2, Render bc2 BloomShaderEnum.sequential sampleRenderer p2 7
                  (sampleSettings 3) = .ok trace2
                ∧ (dispatches trace).length = (dispatches trace2).length + 1))
      ∧ (∀ (r0 : Renderer) (p0 : BloomPass) (s0 : Settings.Bloom) (rtDesc : RenderTargetDesc),
          ∃ rp, Initialize ⟨false, true⟩ BloomShaderEnum.sequential r0 p0 s0 rtDesc = .ok rp
            ∧ rp.2.mSelectedBloomShader
              = BloomShaderEnum.sequential.CS_1D_Kernels_Transpoze_Out
            ∧ rp.1.GetShaderDesc rp.2.blurComputeShaderPingPong.e0
              = .ok (CSDescH (computeTexDesc r0 rtDesc) s0)
            ∧ rp.1.GetShaderDesc rp.2.blurHorizontalTranspozeComputeShader
              = .ok (CSDescHTz (computeTexDesc r0 rtDesc) s0)
            ∧ (⟨"HORIZONTAL", "1"⟩ : ShaderMacro)
              ∈ (CSDescH (computeTexDesc r0 rtDesc) s0).stage0.macros) :=
  ⟨rfl, rfl,
    C9_transpose_strategy_dispatches ⟨false, true⟩ BloomShaderEnum.sequential sampleRenderer
      (samplePass 2) 7 (sampleSettings 3) rfl rfl⟩

/-! ## Claims on Initialize and UpdateSettings -/

/-- C10: in the default build `Initialize` succeeds, requests exactly five render targets,
each with the descriptor given, and no compute texture; creates exactly four shader
objects, the bright filter, the horizontal blur, the vertical blur and the combine shader;
both blur shaders get the pixel stage "Blur_ps.hlsl" with the macro KERNEL_DIMENSION = 15,
an odd number, followed by HORIZONTAL_PASS = 1 for the one and VERTICAL_PASS = 1 for the
other; and the selected strategy is PS_1D_Kernels. -/
theorem C10_default_initialize (E : BloomShaderEnum) (r0 : Renderer) (p0 : BloomPass)
    (bloomSettings : Settings.Bloom) (rtDesc : RenderTargetDesc) :
    ∃ rp, Initialize defaultBuild E r0 p0 bloomSettings rtDesc = .ok rp
      ∧ rp.1.mRenderTargets = r0.mRenderTargets ++ List.replicate 5 rtDesc
      ∧ rp.1.mTextures = r0.mTextures
      ∧ rp.1.mShaders.length = r0.mShaders.length + 4
      ∧ rp.1.GetShaderDesc rp.2._bloomFilterShader
        = .ok ⟨"Bloom", [⟨"FullScreenTriangle_vs.hlsl", []⟩, ⟨"Bloom_ps.hlsl", []⟩]⟩
      ∧ rp.1.GetShaderDesc rp.2._blurShaderH
        = .ok ⟨"BlurH", [⟨"FullScreenTriangle_vs.hlsl", []⟩,
            ⟨"Blur_ps.hlsl", [⟨"KERNEL_DIMENSION", "15"⟩, ⟨"HORIZONTAL_PASS", "1"⟩]⟩]⟩
      ∧ rp.1.GetShaderDesc rp.2._blurShaderV
        = .ok ⟨"BlurV", [⟨"FullScreenTriangle_vs.hlsl", []⟩,
            ⟨"Blur_ps.hlsl", [⟨"KERNEL_DIMENSION", "15"⟩, ⟨"VERTICAL_PASS", "1"⟩]⟩]⟩
      ∧ rp.1.GetShaderDesc rp.2._bloomCombineShader
        = .ok ⟨"BloomCombine",
            [⟨"FullScreenTriangle_vs.hlsl", []⟩, ⟨"BloomCombine_ps.hlsl", []⟩]⟩
      ∧ stoi "15" = .ok 15 ∧ (15 : Int) % 2 = 1
      ∧ rp.2.mSelectedBloomShader = E.PS_1D_Kernels := by
  apply exists_ok_of_match
  rw [Initialize_default, initializeCommon_eq]
  refine ⟨rfl, rfl, ?_, ?_, ?_, ?_, ?_, rfl, by decide, rfl⟩
  · simp [bloomPipelineShaders]
  · refine GetShaderDesc_of_getElem? _ _ (r0.mShaders.length + 0) _ (by simp) ?_
    show (r0.mShaders ++ bloomPipelineShaders)[r0.mShaders.length + 0]? = _
    rw [getElem?_append_length_add]
    rfl
  · refine GetShaderDesc_of_getElem? _ _ (r0.mShaders.length + 1) _ (by simp) ?_
    show (r0.mShaders ++ bloomPipelineShaders)[r0.mShaders.length + 1]? = _
    rw [getElem?_append_length_add]
    rfl
  · refine GetShaderDesc_of_getElem? _ _ (r0.mShaders.length + 2) _ (by simp) ?_
    show (r0.mShaders ++ bloomPipelineShaders)[r0.mShaders.length + 2]? = _
    rw [getElem?_append_length_add]
    rfl
  · refine GetShaderDesc_of_getElem? _ _ (r0.mShaders.length + 3) _ (by simp) ?_
    show (r0.mShaders ++ bloomPipelineShaders)[r0.mShaders.length + 3]? = _
    rw [getElem?_append_length_add]
    rfl

theorem bind_eq_ok {α β : Type} (x : Except Fault α) (f : α → Except Fault β) (b : β) :
    (x >>= f) = .ok b ↔ ∃ a, x = .ok a ∧ f a = .ok b := by
  cases x <;> simp [bind, Except.bind]

theorem reloadHorizontal_reloadCalls (r : Renderer) (p : BloomPass)
    (bloomSettings : Settings.Bloom) (CSDesc : ShaderDesc) (shader0 : ShaderID)
    (rp : Renderer × BloomPass)
    (h : reloadHorizontal r p bloomSettings CSDesc shader0 = .ok rp) :
    rp.1.reloadCalls = r.reloadCalls + 1 := by
  simp only [reloadHorizontal, bind_eq_ok] at h
  obtain ⟨d, -, shaders, -, h⟩ := h
  cases h
  rfl

theorem reloadVertical_reloadCalls (r : Renderer) (p : BloomPass)
    (bloomSettings : Settings.Bloom) (rp : Renderer × BloomPass)
    (h : reloadVertical r p bloomSettings = .ok rp) :
    rp.1.reloadCalls = r.reloadCalls + 1 := by
  simp only [reloadVertical, bind_eq_ok] at h
  obtain ⟨shader1, -, d, -, d2, -, shaders, -, h⟩ := h
  cases h
  rfl

theorem reloadTranspoze_reloadCalls (r : Renderer) (p : BloomPass)
    (bloomSettings : Settings.Bloom) (blurStrengthPrev : Int) (rp : Renderer × BloomPass)
    (h : reloadTranspoze r p bloomSettings blurStrengthPrev = .ok rp) :
    r.reloadCalls ≤ rp.1.reloadCalls := by
  simp only [reloadTranspoze, bind_eq_ok] at h
  obtain ⟨d, -, h⟩ := h
  split at h
  · simp only [bind_eq_ok] at h
    obtain ⟨d2, -, h⟩ := h
    cases h
    exact Nat.le_succ _
  · cases h
    exact Nat.le_refl _

/-- In a build with `ENABLE_COMPUTE_BLUR` every `UpdateSettings` call that returns has
served at least one `ReloadShader` call, whatever the blur strength was before. -/
theorem UpdateSettings_compute_blur_always_reloads (bc : BuildConfig) (r : Renderer)
    (p : BloomPass) (bloomSettings : Settings.Bloom) (rp : Renderer × BloomPass)
    (hbuild : bc.ENABLE_COMPUTE_BLUR = true)
    (h : UpdateSettings bc r p bloomSettings = .ok rp) :
    r.reloadCalls + 1 ≤ rp.1.reloadCalls := by
  simp only [UpdateSettings, BuildConfig.USE_COMPUTE_BLUR, hbuild, Bool.true_or, if_true,
    bind_eq_ok] at h
  obtain ⟨shader0, -, CSDesc, -, m, -, prev, -, afterH, hH, afterV, hV, hT⟩ := h
  have h1 : r.reloadCalls ≤ afterH.1.reloadCalls := by
    split at hH
    · rw [reloadHorizontal_reloadCalls r p bloomSettings CSDesc shader0 afterH hH]
      exact Nat.le_succ _
    · cases hH
      exact Nat.le_refl _
  have h2 := reloadVertical_reloadCalls afterH.1 afterH.2 bloomSettings afterV hV
  have h3 : afterV.1.reloadCalls ≤ rp.1.reloadCalls := by
    split at hT
    · exact reloadTranspoze_reloadCalls afterV.1 afterV.2 bloomSettings prev rp hT
    · cases hT
      exact Nat.le_refl _
  omega

/-- C4 (evaluation): in a build with `ENABLE_COMPUTE_BLUR`, after `Initialize` with blur
strength 3 a first `UpdateSettings` with strength 5 reloads the horizontal and the vertical
compute shader (2 reloads), and a second `UpdateSettings` with the same strength 5 reloads
the vertical shader once more (3 reloads). In a build with only
`ENABLE_COMPUTE_BLUR_TRANSPOZE` the same calls leave the count at 2. -/
theorem C4_second_update_reloads_vertical_shader :
    (∃ r0 p0 r1 p1 r2 p2,
        Initialize ⟨true, false⟩ BloomShaderEnum.sequential sampleRenderer (samplePass 0)
          (sampleSettings 3) sampleRenderTargetDesc = .ok (r0, p0)
        ∧ UpdateSettings ⟨true, false⟩ r0 p0 (sampleSettings 5) = .ok (r1, p1)
        ∧ UpdateSettings ⟨true, false⟩ r1 p1 (sampleSettings 5) = .ok (r2, p2)
        ∧ r0.reloadCalls = 0 ∧ r1.reloadCalls = 2 ∧ r2.reloadCalls = 3
        ∧ r1.GetShaderDesc p1.blurComputeShaderPingPong.e1
          = r2.GetShaderDesc p2.blurComputeShaderPingPong.e1)
      ∧ (∃ r0 p0 r1 p1 r2 p2,
        Initialize ⟨false, true⟩ BloomShaderEnum.sequential sampleRenderer (samplePass 0)
          (sampleSettings 3) sampleRenderTargetDesc = .ok (r0, p0)
        ∧ UpdateSettings ⟨false, true⟩ r0 p0 (sampleSettings 5) = .ok (r1, p1)
        ∧ UpdateSettings ⟨false, true⟩ r1 p1 (sampleSettings 5) = .ok (r2, p2)
        ∧ r0.reloadCalls = 0 ∧ r1.reloadCalls = 2 ∧ r2.reloadCalls = 2) :=
  ⟨⟨_, _, _, _, _, _, rfl, rfl, rfl, rfl, rfl, rfl, rfl⟩,
    ⟨_, _, _, _, _, _, rfl, rfl, rfl, rfl, rfl, rfl⟩⟩

/-! ## The frame of every Render call: bright filter, blur section, combine -/

theorem submissionsFrom_append (a b : List Call) (events : List String)
    (setup : List Call) :
    submissionsFrom events setup (a ++ b)
      = submissionsFrom events setup a
        ++ submissionsFrom (eventsAfter events a) (setupAfter setup a) b := by
  induction a generalizing events setup with
  | nil => simp [submissionsFrom, eventsAfter, setupAfter]
  | cons c cs ih =>
    cases c <;> simp [submissionsFrom, eventsAfter, setupAfter, ih]

theorem submissionsFrom_combine (r : Renderer) (p : BloomPass) (bloomTex : TextureID)
    (before : List Call) :
    submissionsFrom ["Bloom"] before (combineCalls r p bloomTex)
      = [combineSubmission r p bloomTex before] := by
  simp [combineCalls, submissionsFrom, combineSubmission]

theorem eventsAfter_psPasses (r : Renderer) (p : BloomPass) (events : List String)
    (ks : List Nat) :
    eventsAfter events (ks.flatMap (psPassCalls r p)) = events := by
  induction ks with
  | nil => rfl
  | cons k ks ih =>
    simp only [List.flatMap_cons]
    simpa [psPassCalls, eventsAfter] using ih

theorem GetBloomTexture_total (E : BloomShaderEnum) (r : Renderer) (p : BloomPass) :
    ∃ bloomTex, GetBloomTexture E r p = .ok bloomTex := by
  unfold GetBloomTexture
  split
  · exact ⟨_, rfl⟩
  · split
    · exact ⟨_, rfl⟩
    · split
      · exact ⟨_, rfl⟩
      · exact ⟨_, rfl⟩

theorem eventsAfter_append (a b : List Call) (events : List String) :
    eventsAfter events (a ++ b) = eventsAfter (eventsAfter events a) b := by
  induction a generalizing events with
  | nil => rfl
  | cons c cs ih => cases c <;> simp [eventsAfter, ih]

/-- The blur section of `Render` on the pixel-shader strategy. -/
theorem blurCalls_PS (bc : BuildConfig) (E : BloomShaderEnum) (r : Renderer) (p : BloomPass)
    (settings : Settings.Bloom) (hsel : p.mSelectedBloomShader = E.PS_1D_Kernels) :
    blurCalls bc E r p settings
      = .ok ([.GPU_BeginEntry "Bloom Blur<PS>", .BeginEvent "Blur Pass"]
          ++ (List.range' 0 (BlurPassCount settings).toNat).flatMap (psPassCalls r p)
          ++ [.EndEvent, .GPU_EndEntry]) := by
  have h := forLoop_blurPassPS r p (BlurPassCount settings).toNat 0
  simp only [Nat.cast_zero] at h
  simp [blurCalls, hsel, h, bind, Except.bind, pure, Except.pure]

theorem isBlurSection_PS (r : Renderer) (p : BloomPass) (n : Nat) :
    IsBlurSection ([.GPU_BeginEntry "Bloom Blur<PS>", .BeginEvent "Blur Pass"]
      ++ (List.range' 0 n).flatMap (psPassCalls r p) ++ [.EndEvent, .GPU_EndEntry]) := by
  constructor
  · rw [eventsAfter_append, eventsAfter_append]
    simp only [eventsAfter]
    rw [eventsAfter_psPasses]
    simp [eventsAfter]
  · intro before s hs
    simp only [List.cons_append, List.nil_append, List.append_assoc] at hs
    simp only [submissionsFrom] at hs
    rw [submissionsFrom_psPasses] at hs
    simp only [submissionsFrom, List.append_nil] at hs
    obtain ⟨he, hc⟩ := psPassSubmissions_mem r p _ _ _ s hs
    exact ⟨⟨"Blur Pass", by simp [blurEventMarkers], he⟩, Or.inl hc⟩

/-- The blur section of `Render` on the compute strategy. -/
theorem blurCalls_CS (bc : BuildConfig) (E : BloomShaderEnum) (r : Renderer) (p : BloomPass)
    (settings : Settings.Bloom) (hbuild : bc.ENABLE_COMPUTE_BLUR = true)
    (hsel : p.mSelectedBloomShader = E.CS_1D_Kernels) :
    blurCalls bc E r p settings = .ok (csBlurCalls r p) := by
  have h0 : Int.tmod 0 2 = 0 := rfl
  have h1 : Int.tmod 1 2 = 1 := rfl
  have h2 : Int.tmod 2 2 = 0 := rfl
  simp [blurCalls, hbuild, hsel, E.ne.1.symm, forLoop, blurPassCS, cMod, h0, h1, h2,
    Array2.read, blurParameterCalls, csBlurCalls, USE_CONSTANT_BUFFER_FOR_BLUR_STRENGTH, bind,
    Except.bind, pure, Except.pure]

/-- The blur section of `Render` on the compute-transpose strategy. -/
theorem blurCalls_CST (bc : BuildConfig) (E : BloomShaderEnum) (r : Renderer)
    (p : BloomPass) (settings : Settings.Bloom)
    (hbuild : bc.ENABLE_COMPUTE_BLUR_TRANSPOZE = true)
    (hsel : p.mSelectedBloomShader = E.CS_1D_Kernels_Transpoze_Out) :
    blurCalls bc E r p settings = .ok (cstBlurCalls r p) := by
  by_cases hcs : bc.ENABLE_COMPUTE_BLUR = true <;>
  simp [blurCalls, hbuild, hsel, hcs, E.ne.2.1.symm, E.ne.2.2.symm, blurTranspozeCalls,
    Array2.read, blurParameterCalls, cstBlurCalls, USE_CONSTANT_BUFFER_FOR_BLUR_STRENGTH,
    bind, Except.bind, pure, Except.pure]

theorem isBlurSection_CS (r : Renderer) (p : BloomPass) : IsBlurSection (csBlurCalls r p) := by
  constructor
  · simp [csBlurCalls, eventsAfter]
  · intro before s hs
    simp only [csBlurCalls, submissionsFrom, List.mem_cons, List.mem_singleton,
      List.not_mem_nil, or_false] at hs
    rcases hs with rfl | rfl <;>
      exact ⟨⟨"Blur Compute Pass", by simp [blurEventMarkers], rfl⟩, Or.inr rfl⟩

theorem isBlurSection_CST (r : Renderer) (p : BloomPass) :
    IsBlurSection (cstBlurCalls r p) := by
  constructor
  · simp [cstBlurCalls, eventsAfter]
  · intro before s hs
    simp only [cstBlurCalls, submissionsFrom, List.mem_cons, List.mem_singleton,
      List.not_mem_nil, or_false] at hs
    rcases hs with rfl | rfl | rfl <;>
      exact ⟨⟨"Blur Compute_Transpoze Pass", by simp [blurEventMarkers], rfl⟩, Or.inr rfl⟩

/-- Whatever the selector and the build, the `switch` of `Render` returns a blur section. -/
theorem blurCalls_cases (bc : BuildConfig) (E : BloomShaderEnum) (r : Renderer)
    (p : BloomPass) (settings : Settings.Bloom) :
    ∃ blur, blurCalls bc E r p settings = .ok blur ∧ IsBlurSection blur := by
  by_cases hPS : p.mSelectedBloomShader = E.PS_1D_Kernels
  · exact ⟨_, blurCalls_PS bc E r p settings hPS, isBlurSection_PS r p _⟩
  · by_cases hCS : bc.ENABLE_COMPUTE_BLUR = true ∧ p.mSelectedBloomShader = E.CS_1D_Kernels
    · exact ⟨_, blurCalls_CS bc E r p settings hCS.1 hCS.2, isBlurSection_CS r p⟩
    · by_cases hCST : bc.ENABLE_COMPUTE_BLUR_TRANSPOZE = true
          ∧ p.mSelectedBloomShader = E.CS_1D_Kernels_Transpoze_Out
      · exact ⟨_, blurCalls_CST bc E r p settings hCST.1 hCST.2, isBlurSection_CST r p⟩
      · refine ⟨[.Log_Warning "Unsupported Bloom Shader = %d" p.mSelectedBloomShader], ?_,
          ?_, ?_⟩
        · simp only [blurCalls, hPS, hCS, hCST, if_false]
          rfl
        · rfl
        · intro before s hs
          simp [submissionsFrom] at hs

/-- Every `Render` call returns; its submissions are the bright filter's draw, then those of
the blur section, then the one combine draw, which takes the texture `GetBloomTexture`
resolves. -/
theorem Render_frame (bc : BuildConfig) (E : BloomShaderEnum) (r : Renderer)
    (p : BloomPass) (inputTextureID : TextureID) (settings : Settings.Bloom) :
    ∃ trace blur bloomTex before, Render bc E r p inputTextureID settings = .ok trace
      ∧ trace = brightFilterCalls p inputTextureID settings ++ blur
          ++ combineCalls r p bloomTex
      ∧ blurCalls bc E r p settings = .ok blur
      ∧ GetBloomTexture E r p = .ok bloomTex
      ∧ IsBlurSection blur
      ∧ submissions trace
        = brightSubmission p inputTextureID settings
          :: (submissionsFrom ["Bloom"] [.GPU_EndEntry, .EndEvent] blur
            ++ [combineSubmission r p bloomTex before]) := by
  obtain ⟨blur, hblur, hsec⟩ := blurCalls_cases bc E r p settings
  obtain ⟨bloomTex, htex⟩ := GetBloomTexture_total E r p
  refine ⟨_, blur, bloomTex, setupAfter [.GPU_EndEntry, .EndEvent] blur, ?_, rfl, hblur, htex,
    hsec, ?_⟩
  · simp [Render, hblur, htex, bind, Except.bind, pure, Except.pure]
  · unfold submissions
    rw [List.append_assoc, submissionsFrom_bright, submissionsFrom_append, hsec.1,
      submissionsFrom_combine]

/-- C11: for every selector, build, input texture and settings `Render` returns, and its
first submission is the bright filter: a `Draw` of 3 vertices as a triangle list inside the
event "Bright Filter", with the bright-filter shader, `inputTextureID` as "colorInput",
the constant "BrightnessThreshold" equal to `settings.brightnessThreshold`, the color and
the bright render target bound as outputs, depth-stencil disabled and front-face culling.
No later submission is a `Draw` or lies inside "Bright Filter". -/
theorem C11_bright_filter_first (bc : BuildConfig) (E : BloomShaderEnum) (r : Renderer)
    (p : BloomPass) (inputTextureID : TextureID) (settings : Settings.Bloom) :
    ∃ trace first rest, Render bc E r p inputTextureID settings = .ok trace
      ∧ submissions trace = first :: rest
      ∧ first.command = .Draw 3 "TRIANGLE_LIST"
      ∧ first.events = ["Bright Filter", "Bloom"]
      ∧ first.shader = some p._bloomFilterShader
      ∧ first.texture "colorInput" = some inputTextureID
      ∧ first.constant1f "BrightnessThreshold" = some settings.brightnessThreshold
      ∧ first.renderTargets = some [p._colorRT, p._brightRT]
      ∧ first.depthStencilState = some "DEPTH_STENCIL_DISABLED"
      ∧ first.rasterizerState = some "CULL_FRONT"
      ∧ ∀ s ∈ rest, s.inEvent "Bright Filter" = false
          ∧ ∀ n topology, s.command ≠ .Draw n topology := by
  obtain ⟨trace, blur, bloomTex, before, hR, -, -, -, hsec, hsub⟩ :=
    Render_frame bc E r p inputTextureID settings
  refine ⟨trace, _, _, hR, hsub, rfl, rfl, ?_, ?_, ?_, ?_, ?_, ?_, ?_⟩
  · simp [brightSubmission, brightFilterCalls, Submission.shader]
  · simp [brightSubmission, brightFilterCalls, Submission.texture]
  · simp [brightSubmission, brightFilterCalls, Submission.constant1f]
  · simp [brightSubmission, brightFilterCalls, Submission.renderTargets]
  · simp [brightSubmission, brightFilterCalls, Submission.depthStencilState]
  · simp [brightSubmission, brightFilterCalls, Submission.rasterizerState]
  · intro s hs
    simp only [List.mem_append, List.mem_singleton] at hs
    rcases hs with hs | rfl
    · obtain ⟨⟨m, hm, he⟩, hc⟩ := hsec.2 _ s hs
      constructor
      · simp only [blurEventMarkers, List.mem_cons, List.mem_singleton, List.not_mem_nil,
          or_false] at hm
        rcases hm with rfl | rfl | rfl <;> simp [Submission.inEvent, he]
      · intro n topology hcmd
        rcases hc with hc | hc
        · rw [hc] at hcmd
          cases hcmd
        · simp [Submission.isDispatch, hcmd] at hc
    · constructor
      · simp [Submission.inEvent, combineSubmission]
      · intro n topology hcmd
        simp [combineSubmission] at hcmd

/-! ## Shaders of the pixel-shader passes -/

theorem psPassSubmissions_map_shader (r : Renderer) (p : BloomPass) (events : List String)
    (ks : List Nat) (before : List Call) :
    (psPassSubmissions r p events before ks).map Submission.shader
      = ks.map fun k => some (if k % 2 = 0 then p._blurShaderH else p._blurShaderV) := by
  induction ks generalizing before with
  | nil => rfl
  | cons k ks ih =>
    simp only [psPassSubmissions, List.map_cons, ih]
    rw [(psPass_observed r p events k before _ rfl).2.2]

theorem map_alternate_range' {α : Type} (a b : α) (m s : Nat) (hs : s % 2 = 0) :
    (List.range' s (2 * m)).map (fun k => if k % 2 = 0 then a else b)
      = (List.replicate m [a, b]).flatten := by
  induction m generalizing s with
  | zero => rfl
  | succ m ih =>
    have h2 : 2 * (m + 1) = (2 * m + 1) + 1 := by ring
    have hs1 : (s + 1) % 2 = 1 := by omega
    have hs2 : (s + 1 + 1) % 2 = 0 := by omega
    rw [h2, List.range'_succ, List.range'_succ, List.map_cons, List.map_cons, ih (s + 1 + 1) hs2,
      List.replicate_succ, List.flatten_cons]
    simp [hs, hs1]

/-- C17: on the pixel-shader strategy blur draw i of `Render` has the horizontal blur shader
set when i is even and the vertical blur shader when i is odd; when 2N fits an `int`
(N >= 0 the blur strength) the shaders of the blur draws are N repetitions of the pair
horizontal, vertical: 2N passes that start horizontal, alternate, N of each. -/
theorem C17_ps_shaders_alternate (bc : BuildConfig) (E : BloomShaderEnum) (r : Renderer)
    (p : BloomPass) (inputTextureID : TextureID) (settings : Settings.Bloom)
    (hsel : p.mSelectedBloomShader = E.PS_1D_Kernels)
    (hN : 0 ≤ settings.blurStrength) :
    ∃ trace, Render bc E r p inputTextureID settings = .ok trace
      ∧ (∀ i sub, (blurDraws trace)[i]? = some sub →
          sub.shader = some (if i % 2 = 0 then p._blurShaderH else p._blurShaderV))
      ∧ (2 * settings.blurStrength ≤ INT_MAX →
          (blurDraws trace).map Submission.shader
            = (List.replicate settings.blurStrength.toNat
                [some p._blurShaderH, some p._blurShaderV]).flatten) := by
  refine ⟨_, Render_PS bc E r p inputTextureID settings hsel, ?_, ?_⟩
  · intro i sub hsub
    by_cases hn : i < (BlurPassCount settings).toNat
    · obtain ⟨extra, h⟩ :=
        (blurDraws_psTrace_getElem? r p inputTextureID settings _ i).1 hn
      rw [h] at hsub
      exact (psPass_observed r p _ i extra sub (Option.some.inj hsub).symm).2.2
    · rw [(blurDraws_psTrace_getElem? r p inputTextureID settings _ i).2 (by omega)] at hsub
      cases hsub
  · intro hrep
    have hcount : (BlurPassCount settings).toNat = 2 * settings.blurStrength.toNat := by
      rw [BlurPassCount_of_representable settings hN hrep]
      omega
    rw [blurDraws_psTrace, psPassSubmissions_map_shader, hcount,
      ← map_alternate_range' (some p._blurShaderH) (some p._blurShaderV) _ 0 rfl]
    apply List.map_congr_left
    intro k _
    split <;> rfl

theorem C17_ps_shaders_alternate_witness :
    (samplePass 0).mSelectedBloomShader = BloomShaderEnum.sequential.PS_1D_Kernels
      ∧ 0 ≤ (sampleSettings 3).blurStrength
      ∧ ∃ trace, Render defaultBuild BloomShaderEnum.sequential sampleRenderer (samplePass 0) 7
            (sampleSettings 3) = .ok trace
          ∧ (∀ i sub, (blurDraws trace)[i]? = some sub →
              sub.shader = some (if i % 2 = 0 then (samplePass 0)._blurShaderH
                else (samplePass 0)._blurShaderV))
          ∧ (2 * (sampleSettings 3).blurStrength ≤ INT_MAX →
              (blurDraws trace).map Submission.shader
                = (List.replicate (sampleSettings 3).blurStrength.toNat
                    [some (samplePass 0)._blurShaderH,
                     some (samplePass 0)._blurShaderV]).flatten) :=
  ⟨rfl, by decide,
    C17_ps_shaders_alternate defaultBuild BloomShaderEnum.sequential sampleRenderer
      (samplePass 0) 7 (sampleSettings 3) rfl (by decide)⟩

/-! ## The combine step -/

/-- C18: for every selector and build the last submission of `Render` is the one combine
draw; it has the combine shader set, the final render target bound, the texture of the
color render target as "ColorTexture" and the texture `GetBloomTexture` resolves as
"BloomTexture". On the compute strategy (compiled in) that texture is compute output slot
1, the "texColorOut" of the second and last dispatch; on the compute-transpose strategy
(compiled in) it is compute output slot 0, the "texColorOut" of the third and last
dispatch. -/
theorem C18_combine_takes_resolved_bloom_texture (bc : BuildConfig) (E : BloomShaderEnum)
    (r : Renderer) (p : BloomPass) (inputTextureID : TextureID)
    (settings : Settings.Bloom) :
    ∃ trace bloomTex combine, Render bc E r p inputTextureID settings = .ok trace
      ∧ GetBloomTexture E r p = .ok bloomTex
      ∧ combineDraws trace = [combine]
      ∧ (submissions trace).getLast? = some combine
      ∧ combine.command = .DrawIndexed
      ∧ combine.shader = some p._bloomCombineShader
      ∧ combine.renderTargets = some [p._finalRT]
      ∧ combine.texture "ColorTexture" = some (r.GetRenderTargetTexture p._colorRT)
      ∧ combine.texture "BloomTexture" = some bloomTex
      ∧ (bc.ENABLE_COMPUTE_BLUR = true → p.mSelectedBloomShader = E.CS_1D_Kernels →
          bloomTex = p.blurComputeOutputPingPong.e1
            ∧ ∃ first last, dispatches trace = [first, last]
              ∧ last.rwTexture "texColorOut" = some p.blurComputeOutputPingPong.e1)
      ∧ (bc.ENABLE_COMPUTE_BLUR_TRANSPOZE = true →
          p.mSelectedBloomShader = E.CS_1D_Kernels_Transpoze_Out →
          bloomTex = p.blurComputeOutputPingPong.e0
            ∧ ∃ first second last, dispatches trace = [first, second, last]
              ∧ last.rwTexture "texColorOut" = some p.blurComputeOutputPingPong.e0) := by
  obtain ⟨trace, blur, bloomTex, before, hR, -, -, htex, hsec, hsub⟩ :=
    Render_frame bc E r p inputTextureID settings
  refine ⟨trace, bloomTex, combineSubmission r p bloomTex before, hR, htex, ?_, ?_, rfl, ?_,
    ?_, ?_, ?_, ?_, ?_⟩
  · unfold combineDraws
    rw [hsub, List.filter_cons, List.filter_append]
    have hmid : (submissionsFrom ["Bloom"] [.GPU_EndEntry, .EndEvent] blur).filter
        (fun s => s.inEvent "Combine") = [] := by
      rw [List.filter_eq_nil_iff]
      intro s hs
      obtain ⟨⟨m, hm, he⟩, -⟩ := hsec.2 _ s hs
      simp only [blurEventMarkers, List.mem_cons, List.mem_singleton, List.not_mem_nil,
        or_false] at hm
      rcases hm with rfl | rfl | rfl <;> simp [Submission.inEvent, he]
    rw [hmid]
    simp [brightSubmission, combineSubmission, Submission.inEvent]
  · rw [hsub, ← List.cons_append, List.getLast?_concat]
  · simp [combineSubmission, combineCalls, Submission.shader]
  · simp [combineSubmission, combineCalls, Submission.renderTargets]
  · simp [combineSubmission, combineCalls, Submission.texture]
  · simp [combineSubmission, combineCalls, Submission.texture]
  · intro hbuild hsel
    have hT := Render_CS bc E r p inputTextureID settings hbuild hsel
    rw [hR] at hT
    have htr : trace = csTrace r p inputTextureID settings := Except.ok.inj hT
    have hb := GetBloomTexture_CS E r p hsel
    rw [htex] at hb
    refine ⟨Except.ok.inj hb, ?_⟩
    rw [htr]
    obtain ⟨first, last, hd, hP⟩ := exists_pair_of_match
      (dispatches (csTrace r p inputTextureID settings))
      (fun _ last => last.rwTexture "texColorOut" = some p.blurComputeOutputPingPong.e1)
      (by simp [dispatches, submissions, csTrace, brightFilterCalls, combineCalls,
            submissionsFrom, Submission.isDispatch, Submission.rwTexture])
    exact ⟨first, last, hd, hP⟩
  · intro hbuild hsel
    have hT := Render_CST bc E r p inputTextureID settings hbuild hsel
    rw [hR] at hT
    have htr : trace = cstTrace r p inputTextureID settings := Except.ok.inj hT
    have hb := GetBloomTexture_CST E r p hsel
    rw [htex] at hb
    refine ⟨Except.ok.inj hb, ?_⟩
    rw [htr]
    obtain ⟨first, second, last, hd, hP⟩ := exists_triple_of_match
      (dispatches (cstTrace r p inputTextureID settings))
      (fun _ _ last => last.rwTexture "texColorOut" = some p.blurComputeOutputPingPong.e0)
      (by simp [dispatches, submissions, cstTrace, brightFilterCalls, combineCalls,
            submissionsFrom, Submission.isDispatch, Submission.rwTexture])
    exact ⟨first, second, last, hd, hP⟩

theorem C18_combine_takes_resolved_bloom_texture_witness :
    ∃ trace combine, Render ⟨true, false⟩ BloomShaderEnum.sequential sampleRenderer
          (samplePass 1) 7 (sampleSettings 3) = .ok trace
      ∧ combineDraws trace = [combine]
      ∧ combine.texture "BloomTexture" = some (samplePass 1).blurComputeOutputPingPong.e1
      ∧ ∃ first last, dispatches trace = [first, last]
          ∧ last.rwTexture "texColorOut" = some (samplePass 1).blurComputeOutputPingPong.e1 := by
  obtain ⟨trace, bloomTex, combine, hR, -, hc, -, -, -, -, -, hb, hCS, -⟩ :=
    C18_combine_takes_resolved_bloom_texture ⟨true, false⟩ BloomShaderEnum.sequential
      sampleRenderer (samplePass 1) 7 (sampleSettings 3)
  obtain ⟨htex, hd⟩ := hCS rfl rfl
  rw [htex] at hb
  exact ⟨trace, combine, hR, hc, hb, hd⟩

/-! ## `stoi` reads back what `to_string` writes -/

theorem digitChar_facts (d : Nat) (hd : d < 10) :
    (Nat.digitChar d).isDigit = true ∧ (Nat.digitChar d).toNat - 48 = d
      ∧ isspace (Nat.digitChar d) = false
      ∧ Nat.digitChar d ≠ '-' ∧ Nat.digitChar d ≠ '+' := by
  interval_cases d <;> decide

theorem readDigits_toDigitsCore (fuel n : Nat) (ds : List Char) (count : Nat)
    (h : n < fuel) :
    ∃ k, 0 < k ∧ readDigits (Nat.toDigitsCore 10 fuel n ds) 0 count
      = readDigits ds n (count + k) := by
  induction fuel generalizing n ds count with
  | zero => omega
  | succ fuel ih =>
    obtain ⟨h1, h2, -⟩ := digitChar_facts (n % 10) (Nat.mod_lt _ (by decide))
    unfold Nat.toDigitsCore
    by_cases h0 : n / 10 = 0
    · refine ⟨1, Nat.one_pos, ?_⟩
      have hn : n % 10 = n := by omega
      rw [hn] at h1 h2
      simp only [h0, if_true]
      simp [readDigits, h1, h2, hn]
    · obtain ⟨k, hk, hread⟩ := ih (n / 10) (Nat.digitChar (n % 10) :: ds) count (by omega)
      refine ⟨k + 1, Nat.succ_pos _, ?_⟩
      simp only [h0, if_false]
      rw [hread]
      have hn : n / 10 * 10 + n % 10 = n := by omega
      simp [readDigits, h1, h2, hn, Nat.add_assoc]

theorem toDigitsCore_head (fuel n : Nat) (ds : List Char) (h : n < fuel) :
    ∃ d t, d < 10 ∧ Nat.toDigitsCore 10 fuel n ds = Nat.digitChar d :: t := by
  induction fuel generalizing n ds with
  | zero => omega
  | succ fuel ih =>
    unfold Nat.toDigitsCore
    by_cases h0 : n / 10 = 0
    · exact ⟨n % 10, ds, Nat.mod_lt _ (by decide), by simp [h0]⟩
    · obtain ⟨d, t, hd, ht⟩ := ih (n / 10) (Nat.digitChar (n % 10) :: ds) (by omega)
      exact ⟨d, t, hd, by simp [h0, ht]⟩

theorem readDigits_toDigits (n : Nat) :
    ∃ k, 0 < k ∧ readDigits (Nat.toDigits 10 n) 0 0 = (n, k) := by
  obtain ⟨k, hk, hread⟩ := readDigits_toDigitsCore (n + 1) n [] 0 (Nat.lt_succ_self n)
  exact ⟨k, hk, by simpa [Nat.toDigits, readDigits] using hread⟩

theorem stoi_unsigned (c : Char) (t : List Char) (hsp : isspace c = false)
    (hminus : c ≠ '-') (hplus : c ≠ '+') (v k : Nat) (hk : 0 < k)
    (hread : readDigits (c :: t) 0 0 = (v, k)) :
    stoi (String.mk (c :: t))
      = if (v : Int) < INT_MIN ∨ INT_MAX < (v : Int) then .error .out_of_range
        else .ok (v : Int) := by
  have hk0 : k ≠ 0 := by omega
  have hm : (match c :: t with
      | '-' :: t => (true, t)
      | '+' :: t => (false, t)
      | _ => (false, c :: t)) = (false, c :: t) := by
    split
    · rename_i heq
      injection heq with h1 h2
      exact absurd h1 hminus
    · rename_i heq
      injection heq with h1 h2
      exact absurd h1 hplus
    · rfl
  unfold stoi
  simp only [List.dropWhile, hsp]
  rw [hm]
  simp [hread, hk0]

theorem stoi_negative (t : List Char) (v k : Nat) (hk : 0 < k)
    (hread : readDigits t 0 0 = (v, k)) :
    stoi (String.mk ('-' :: t))
      = if -(v : Int) < INT_MIN ∨ INT_MAX < -(v : Int) then .error .out_of_range
        else .ok (-(v : Int)) := by
  have hk0 : k ≠ 0 := by omega
  have hsm : isspace '-' = false := by decide
  simp [stoi, hsm, List.dropWhile, hread, hk0]

/-- Reading back the decimal text of an `int` gives that `int`. -/
theorem stoi_to_string (n : Int) (hlo : INT_MIN ≤ n) (hhi : n ≤ INT_MAX) :
    stoi (to_string n) = .ok n := by
  unfold to_string
  by_cases hneg : n < 0
  · obtain ⟨k, hk, hread⟩ := readDigits_toDigits n.natAbs
    rw [if_pos hneg, stoi_negative _ _ k hk hread]
    have hn : -(n.natAbs : Int) = n := by omega
    rw [hn, if_neg (by omega)]
  · obtain ⟨k, hk, hread⟩ := readDigits_toDigits n.toNat
    obtain ⟨d, t, hd, hhead⟩ := toDigitsCore_head (n.toNat + 1) n.toNat [] (Nat.lt_succ_self _)
    obtain ⟨-, -, hsp, hminus, hplus⟩ := digitChar_facts d hd
    have hhead' : Nat.toDigits 10 n.toNat = Nat.digitChar d :: t := by
      simpa [Nat.toDigits] using hhead
    rw [hhead'] at hread
    rw [if_neg hneg, hhead', stoi_unsigned _ _ hsp hminus hplus _ k hk hread]
    have hn : (n.toNat : Int) = n := by omega
    rw [hn, if_neg (by omega)]

/-! ## The PASS_COUNT macro through Initialize and UpdateSettings -/

theorem GetShaderDesc_eq_ok (r : Renderer) (shader : ShaderID) (d : ShaderDesc)
    (h : r.GetShaderDesc shader = .ok d) :
    ¬ shader < 0 ∧ r.mShaders[shader.toNat]? = some d := by
  unfold Renderer.GetShaderDesc at h
  split at h
  · cases h
  · rename_i hneg
    refine ⟨hneg, ?_⟩
    split at h
    · rename_i heq
      cases h
      exact heq
    · cases h

theorem macroBeforeLast_set (macros : List ShaderMacro) (m : ShaderMacro)
    (hlen : 2 ≤ macros.length) :
    macroBeforeLast (macros.set (macros.length - 2) m) = .ok m := by
  have h1 : ¬ macros.length < 2 := by omega
  have h2 : macros.length - 2 < macros.length := by omega
  simp [macroBeforeLast, h1, h2]

theorem macroBeforeLast_length (macros : List ShaderMacro) (m : ShaderMacro)
    (h : macroBeforeLast macros = .ok m) : 2 ≤ macros.length := by
  unfold macroBeforeLast at h
  split at h
  · cases h
  · omega

theorem sameMacrosButPassCount_refl (d : ShaderDesc) : SameMacrosButPassCount d d :=
  ⟨rfl, fun _ _ => rfl⟩

theorem sameMacrosButPassCount_trans (a b c : ShaderDesc) (hab : SameMacrosButPassCount a b)
    (hbc : SameMacrosButPassCount b c) : SameMacrosButPassCount a c := by
  refine ⟨hbc.1.trans hab.1, fun i hi => ?_⟩
  rw [hbc.2 i (by rw [hab.1]; exact hi), hab.2 i hi]

theorem reloadStep_refl (value : String) (r : Renderer) : ReloadStep value r r :=
  fun _ d h => ⟨d, h, sameMacrosButPassCount_refl d, Or.inl rfl⟩

theorem reloadStep_trans (value : String) (a b c : Renderer) (hab : ReloadStep value a b)
    (hbc : ReloadStep value b c) : ReloadStep value a c := by
  intro shader d h
  obtain ⟨d1, h1, s1, o1⟩ := hab shader d h
  obtain ⟨d2, h2, s2, o2⟩ := hbc shader d1 h1
  refine ⟨d2, h2, sameMacrosButPassCount_trans d d1 d2 s1 s2, ?_⟩
  rcases o2 with o2 | o2
  · rw [o2]
    exact o1
  · exact Or.inr o2

theorem reloadStep_hasPassCount (value : String) (r r' : Renderer) (shader : ShaderID)
    (hstep : ReloadStep value r r') (h : HasPassCount r shader value) :
    HasPassCount r' shader value := by
  obtain ⟨d, hd, hm⟩ := h
  obtain ⟨d', hd', -, o⟩ := hstep shader d hd
  refine ⟨d', hd', ?_⟩
  rcases o with o | o
  · rw [o]
    exact hm
  · exact o

theorem setPassCount_ok (d : ShaderDesc) (value : String)
    (hlen : 2 ≤ d.stage0.macros.length) :
    ∃ d', setPassCount d value = .ok d'
      ∧ d'.stage0.macros
          = d.stage0.macros.set (d.stage0.macros.length - 2) ⟨"PASS_COUNT", value⟩ := by
  have hnlt : ¬ d.stage0.macros.length < 2 := by omega
  simp only [setPassCount, if_neg hnlt]
  exact ⟨_, rfl, rfl⟩

/-- The assignment of lines 198-199 (and 205-206, 214-215) on a shader that has a
descriptor with at least two macros: the shader gets `PASS_COUNT` with the new value, no
other macro of any shader changes. -/
theorem ReloadShader_setPassCount (r : Renderer) (shader : ShaderID) (d : ShaderDesc)
    (value : String) (hd : r.GetShaderDesc shader = .ok d)
    (hlen : 2 ≤ d.stage0.macros.length) :
    ∃ d', setPassCount d value = .ok d'
      ∧ ReloadStep value r (r.ReloadShader d' shader).1
      ∧ HasPassCount (r.ReloadShader d' shader).1 shader value := by
  obtain ⟨hneg, hslot⟩ := GetShaderDesc_eq_ok r shader d hd
  have hin : shader.toNat < r.mShaders.length := by
    rcases Nat.lt_or_ge shader.toNat r.mShaders.length with h | h
    · exact h
    · rw [List.getElem?_eq_none h] at hslot
      cases hslot
  obtain ⟨d', hset, hmac⟩ := setPassCount_ok d value hlen
  have hlast : macroBeforeLast d'.stage0.macros = .ok ⟨"PASS_COUNT", value⟩ := by
    rw [hmac]
    exact macroBeforeLast_set _ _ hlen
  have hnew : (r.ReloadShader d' shader).1.GetShaderDesc shader = .ok d' := by
    simp [Renderer.GetShaderDesc, Renderer.ReloadShader, hneg, hin]
  refine ⟨d', hset, ?_, ⟨d', hnew, hlast⟩⟩
  intro shader2 d2 hd2
  obtain ⟨hneg2, hslot2⟩ := GetShaderDesc_eq_ok r shader2 d2 hd2
  by_cases hsame : shader.toNat = shader2.toNat
  · have hdd : d2 = d := by
      rw [← hsame, hslot] at hslot2
      exact (Option.some.inj hslot2).symm
    have hsh : shader2 = shader := by
      have e1 := Int.toNat_of_nonneg (not_lt.mp hneg)
      have e2 := Int.toNat_of_nonneg (not_lt.mp hneg2)
      rw [← e1, ← e2, hsame]
    subst hdd hsh
    refine ⟨d', hnew, ⟨?_, fun i hi => ?_⟩, Or.inr hlast⟩
    · rw [hmac, List.length_set]
    · rw [hmac, List.getElem?_set_ne (Ne.symm hi)]
  · refine ⟨d2, ?_, sameMacrosButPassCount_refl d2, Or.inl rfl⟩
    simp [Renderer.GetShaderDesc, Renderer.ReloadShader, hneg, hneg2,
      List.getElem?_set_ne hsame, hslot2]

theorem hasPassCount_length (r : Renderer) (shader : ShaderID) (value : String)
    (h : HasPassCount r shader value) :
    ∃ d, r.GetShaderDesc shader = .ok d ∧ 2 ≤ d.stage0.macros.length := by
  obtain ⟨d, hd, hm⟩ := h
  exact ⟨d, hd, macroBeforeLast_length _ _ hm⟩

theorem reloadHorizontal_spec (r : Renderer) (p : BloomPass) (s : Settings.Bloom)
    (d : ShaderDesc) (hd : r.GetShaderDesc p.blurComputeShaderPingPong.e0 = .ok d)
    (hlen : 2 ≤ d.stage0.macros.length) :
    ∃ r', reloadHorizontal r p s d p.blurComputeShaderPingPong.e0 = .ok (r', p)
      ∧ ReloadStep (to_string s.blurStrength) r r'
      ∧ HasPassCount r' p.blurComputeShaderPingPong.e0 (to_string s.blurStrength) := by
  obtain ⟨d', hset, hstep, hhas⟩ :=
    ReloadShader_setPassCount r _ d (to_string s.blurStrength) hd hlen
  refine ⟨_, ?_, hstep, hhas⟩
  simp only [reloadHorizontal, hset, bind, Except.bind, Array2.write, if_true, pure,
    Except.pure]
  rfl

theorem reloadVertical_spec (r : Renderer) (p : BloomPass) (s : Settings.Bloom)
    (d : ShaderDesc) (hd : r.GetShaderDesc p.blurComputeShaderPingPong.e1 = .ok d)
    (hlen : 2 ≤ d.stage0.macros.length) :
    ∃ r', reloadVertical r p s = .ok (r', p)
      ∧ ReloadStep (to_string s.blurStrength) r r'
      ∧ HasPassCount r' p.blurComputeShaderPingPong.e1 (to_string s.blurStrength) := by
  obtain ⟨d', hset, hstep, hhas⟩ :=
    ReloadShader_setPassCount r _ d (to_string s.blurStrength) hd hlen
  refine ⟨_, ?_, hstep, hhas⟩
  have h10 : ¬ ((1 : Int) = 0) := by decide
  simp only [reloadVertical, Array2.read, h10, if_false, if_true, hd, hset, bind, Except.bind,
    Array2.write, pure, Except.pure]
  rfl

theorem reloadTranspoze_spec (r : Renderer) (p : BloomPass) (s : Settings.Bloom)
    (prev : Int) (d : ShaderDesc)
    (hd : r.GetShaderDesc p.blurHorizontalTranspozeComputeShader = .ok d)
    (hlen : 2 ≤ d.stage0.macros.length) :
    ∃ r', reloadTranspoze r p s prev = .ok (r', p)
      ∧ ReloadStep (to_string s.blurStrength) r r'
      ∧ (prev ≠ s.blurStrength →
          HasPassCount r' p.blurHorizontalTranspozeComputeShader
            (to_string s.blurStrength)) := by
  by_cases hne : prev = s.blurStrength
  · refine ⟨r, ?_, reloadStep_refl _ r, fun h => absurd hne h⟩
    simp [reloadTranspoze, hd, hne, bind, Except.bind, pure, Except.pure]
  · obtain ⟨d', hset, hstep, hhas⟩ :=
      ReloadShader_setPassCount r _ d (to_string s.blurStrength) hd hlen
    refine ⟨_, ?_, hstep, fun _ => hhas⟩
    simp only [reloadTranspoze, hd, hset, bind, Except.bind, ne_eq, hne, not_false_eq_true,
      if_true, pure, Except.pure]
    rfl

/-- One `UpdateSettings` call on a state in which every compute shader of the build has
`PASS_COUNT` with the decimal text of `prev` at index size-2: the call returns, the pass
is as before, every compute shader has `PASS_COUNT` with the text of the new strength there,
and no other macro of any shader has changed. -/
theorem UpdateSettings_passCount (bc : BuildConfig) (r : Renderer) (p : BloomPass)
    (prev : Int) (s : Settings.Bloom) (hlo : INT_MIN ≤ prev) (hhi : prev ≤ INT_MAX)
    (hinv : ∀ shader ∈ computeShaders bc p, HasPassCount r shader (to_string prev)) :
    ∃ r', UpdateSettings bc r p s = .ok (r', p)
      ∧ ReloadStep (to_string s.blurStrength) r r'
      ∧ ∀ shader ∈ computeShaders bc p,
          HasPassCount r' shader (to_string s.blurStrength) := by
  rcases huse : bc.USE_COMPUTE_BLUR with _ | _
  · refine ⟨r, by simp [UpdateSettings, huse, pure, Except.pure], reloadStep_refl _ r, ?_⟩
    intro shader hmem
    have hcb : bc.ENABLE_COMPUTE_BLUR = false := by
      simp only [BuildConfig.USE_COMPUTE_BLUR, Bool.or_eq_false_iff] at huse
      exact huse.1
    have hcbt : bc.ENABLE_COMPUTE_BLUR_TRANSPOZE = false := by
      simp only [BuildConfig.USE_COMPUTE_BLUR, Bool.or_eq_false_iff] at huse
      exact huse.2
    simp [computeShaders, huse, hcb, hcbt] at hmem
  · have hH : HasPassCount r p.blurComputeShaderPingPong.e0 (to_string prev) :=
      hinv _ (by simp [computeShaders, huse])
    obtain ⟨dH, hdH, hmH⟩ := hH
    have hlenH := macroBeforeLast_length _ _ hmH
    -- the horizontal shader
    obtain ⟨rH, hrH, hstepH, hhasH⟩ :
        ∃ rH, (if prev ≠ s.blurStrength then
              reloadHorizontal r p s dH p.blurComputeShaderPingPong.e0
            else pure (r, p)) = .ok (rH, p)
          ∧ ReloadStep (to_string s.blurStrength) r rH
          ∧ HasPassCount rH p.blurComputeShaderPingPong.e0 (to_string s.blurStrength) := by
      by_cases hne : prev = s.blurStrength
      · refine ⟨r, by simp [hne, pure, Except.pure], reloadStep_refl _ r, ?_⟩
        rw [← hne]
        exact ⟨dH, hdH, hmH⟩
      · obtain ⟨rH, h1, h2, h3⟩ := reloadHorizontal_spec r p s dH hdH hlenH
        exact ⟨rH, by simp [hne, h1], h2, h3⟩
    -- the vertical shader
    obtain ⟨rV, hrV, hstepV, hhasV⟩ :
        ∃ rV, (if bc.ENABLE_COMPUTE_BLUR then reloadVertical rH p s
            else pure (rH, p)) = .ok (rV, p)
          ∧ ReloadStep (to_string s.blurStrength) rH rV
          ∧ (bc.ENABLE_COMPUTE_BLUR = true →
              HasPassCount rV p.blurComputeShaderPingPong.e1 (to_string s.blurStrength)) := by
      rcases hcb : bc.ENABLE_COMPUTE_BLUR with _ | _
      · exact ⟨rH, by simp [pure, Except.pure], reloadStep_refl _ rH, fun h => by cases h⟩
      · have hV : HasPassCount r p.blurComputeShaderPingPong.e1 (to_string prev) :=
          hinv _ (by simp [computeShaders, hcb])
        obtain ⟨d0, hd0, hm0⟩ := hV
        obtain ⟨d1, hd1, hsame, -⟩ := hstepH _ d0 hd0
        have hlen1 : 2 ≤ d1.stage0.macros.length := by
          rw [hsame.1]
          exact macroBeforeLast_length _ _ hm0
        obtain ⟨rV, h1, h2, h3⟩ := reloadVertical_spec rH p s d1 hd1 hlen1
        exact ⟨rV, by simp [h1], h2, fun _ => h3⟩
    -- the shader for the transposed image
    obtain ⟨rT, hrT, hstepT, hhasT⟩ :
        ∃ rT, (if bc.ENABLE_COMPUTE_BLUR_TRANSPOZE then reloadTranspoze rV p s prev
            else pure (rV, p)) = .ok (rT, p)
          ∧ ReloadStep (to_string s.blurStrength) rV rT
          ∧ (bc.ENABLE_COMPUTE_BLUR_TRANSPOZE = true → prev ≠ s.blurStrength →
              HasPassCount rT p.blurHorizontalTranspozeComputeShader
                (to_string s.blurStrength)) := by
      rcases hcbt : bc.ENABLE_COMPUTE_BLUR_TRANSPOZE with _ | _
      · exact ⟨rV, by simp [pure, Except.pure], reloadStep_refl _ rV, fun h => by cases h⟩
      · have hT : HasPassCount r p.blurHorizontalTranspozeComputeShader (to_string prev) :=
          hinv _ (by simp [computeShaders, hcbt])
        obtain ⟨d0, hd0, hm0⟩ := hT
        obtain ⟨d1, hd1, hsame, -⟩ :=
          reloadStep_trans _ r rH rV hstepH hstepV _ d0 hd0
        have hlen1 : 2 ≤ d1.stage0.macros.length := by
          rw [hsame.1]
          exact macroBeforeLast_length _ _ hm0
        obtain ⟨rT, h1, h2, h3⟩ := reloadTranspoze_spec rV p s prev d1 hd1 hlen1
        exact ⟨rT, by simp [h1], h2, fun _ => h3⟩
    have hstep : ReloadStep (to_string s.blurStrength) r rT :=
      reloadStep_trans _ r rV rT (reloadStep_trans _ r rH rV hstepH hstepV) hstepT
    refine ⟨rT, ?_, hstep, ?_⟩
    · have hstoi : stoi (to_string prev) = .ok prev := stoi_to_string prev hlo hhi
      unfold UpdateSettings
      rw [if_pos huse]
      simp only [bind_eq_ok]
      exact ⟨_, by simp [Array2.read], dH, hdH, _, hmH, prev, hstoi, (rH, p), hrH, (rV, p), hrV,
        hrT⟩
    · intro shader hmem
      simp only [computeShaders, huse, if_true, List.mem_append, List.mem_singleton] at hmem
      rcases hmem with (hmem | hmem) | hmem
      · subst hmem
        exact reloadStep_hasPassCount _ rH rT _
          (reloadStep_trans _ rH rV rT hstepV hstepT) hhasH
      · split at hmem
        · rename_i hcb
          rw [List.mem_singleton] at hmem
          subst hmem
          exact reloadStep_hasPassCount _ rV rT _ hstepT (hhasV hcb)
        · cases hmem
      · split at hmem
        · rename_i hcbt
          rw [List.mem_singleton] at hmem
          subst hmem
          by_cases hne : prev = s.blurStrength
          · rw [← hne]
            rw [← hne] at hstep
            exact reloadStep_hasPassCount _ r rT _ hstep (hinv _ (by simp [computeShaders, hcbt]))
          · exact hhasT hcbt hne
        · cases hmem

theorem macroBeforeLast_CSDesc (texDesc : TextureDesc) (s : Settings.Bloom) :
    macroBeforeLast (CSDescH texDesc s).stage0.macros
        = .ok ⟨"PASS_COUNT", to_string s.blurStrength⟩
      ∧ macroBeforeLast (CSDescV texDesc s).stage0.macros
        = .ok ⟨"PASS_COUNT", to_string s.blurStrength⟩
      ∧ macroBeforeLast (CSDescHTz texDesc s).stage0.macros
        = .ok ⟨"PASS_COUNT", to_string s.blurStrength⟩ :=
  ⟨rfl, rfl, rfl⟩

/-- After `Initialize` every compute shader of the build has one of the three descriptors
`CSDescH`, `CSDescV`, `CSDescHTz` built from the settings passed in. -/
theorem Initialize_computeShaders (bc : BuildConfig) (E : BloomShaderEnum) (r0 : Renderer)
    (p0 : BloomPass) (s0 : Settings.Bloom) (rtDesc : RenderTargetDesc) :
    ∃ r1 p1, Initialize bc E r0 p0 s0 rtDesc = .ok (r1, p1)
      ∧ ∀ shader ∈ computeShaders bc p1, ∃ d, r1.GetShaderDesc shader = .ok d
          ∧ d ∈ [CSDescH (computeTexDesc r0 rtDesc) s0, CSDescV (computeTexDesc r0 rtDesc) s0,
              CSDescHTz (computeTexDesc r0 rtDesc) s0] := by
  rcases hcb : bc.ENABLE_COMPUTE_BLUR with _ | _
  · rcases hcbt : bc.ENABLE_COMPUTE_BLUR_TRANSPOZE with _ | _
    · have hbc : bc = defaultBuild := by
        cases bc
        simp only [defaultBuild] at *
        simp [hcb, hcbt]
      refine ⟨_, _, by rw [hbc, Initialize_default, initializeCommon_eq], ?_⟩
      intro shader hmem
      simp [computeShaders, BuildConfig.USE_COMPUTE_BLUR, hcb, hcbt] at hmem
    · obtain ⟨rp, hI, -, hH, hT⟩ := Initialize_transpoze_shaders bc E r0 p0 s0 rtDesc hcbt
      refine ⟨rp.1, rp.2, hI, ?_⟩
      intro shader hmem
      simp only [computeShaders, BuildConfig.USE_COMPUTE_BLUR, hcb, hcbt, Bool.or_true,
        if_true, Bool.false_eq_true, if_false, List.append_nil, List.mem_append,
        List.mem_singleton] at hmem
      rcases hmem with rfl | rfl
      · exact ⟨_, hH, by simp⟩
      · exact ⟨_, hT, by simp⟩
  · obtain ⟨rp, hI, hH, hV, -⟩ := Initialize_compute_shaders bc E r0 p0 s0 rtDesc hcb
    refine ⟨rp.1, rp.2, hI, ?_⟩
    intro shader hmem
    simp only [computeShaders, BuildConfig.USE_COMPUTE_BLUR, hcb, Bool.true_or,
      if_true, List.mem_append, List.mem_singleton] at hmem
    rcases hmem with (rfl | rfl) | hmem
    · exact ⟨_, hH, by simp⟩
    · exact ⟨_, hV, by simp⟩
    · split at hmem
      · rename_i hcbt
        rw [List.mem_singleton] at hmem
        subst hmem
        obtain ⟨rp', hI', -, -, hT⟩ := Initialize_transpoze_shaders bc E r0 p0 s0 rtDesc hcbt
        rw [hI] at hI'
        cases hI'
        exact ⟨_, hT, by simp⟩
      · cases hmem

theorem lastApplied_range (updates : List Settings.Bloom) (prev : Int)
    (hprev : INT_MIN ≤ prev ∧ prev ≤ INT_MAX)
    (hupd : ∀ s ∈ updates, INT_MIN ≤ s.blurStrength ∧ s.blurStrength ≤ INT_MAX) :
    INT_MIN ≤ lastApplied prev updates ∧ lastApplied prev updates ≤ INT_MAX := by
  induction updates generalizing prev with
  | nil => exact hprev
  | cons u rest ih =>
    exact ih u.blurStrength (hupd u (List.mem_cons_self _ _))
      (fun s hs => hupd s (List.mem_cons_of_mem _ hs))

/-- Any number of `UpdateSettings` calls on a state in which every compute shader has
`PASS_COUNT` with the text of `prev`: all calls return, the pass is as before, every
shader keeps its macros except the one at index size-2, and every compute shader has
`PASS_COUNT` with the text of the strength applied last. -/
theorem updateSettingsEach_passCount (bc : BuildConfig) (p : BloomPass)
    (updates : List Settings.Bloom) (r : Renderer) (prev : Int)
    (hprev : INT_MIN ≤ prev ∧ prev ≤ INT_MAX)
    (hupd : ∀ s ∈ updates, INT_MIN ≤ s.blurStrength ∧ s.blurStrength ≤ INT_MAX)
    (hinv : ∀ shader ∈ computeShaders bc p, HasPassCount r shader (to_string prev)) :
    ∃ r', updateSettingsEach bc (r, p) updates = .ok (r', p)
      ∧ (∀ shader d, r.GetShaderDesc shader = .ok d →
          ∃ d', r'.GetShaderDesc shader = .ok d' ∧ SameMacrosButPassCount d d')
      ∧ ∀ shader ∈ computeShaders bc p,
          HasPassCount r' shader (to_string (lastApplied prev updates)) := by
  induction updates generalizing r prev with
  | nil =>
    exact ⟨r, rfl, fun _ d h => ⟨d, h, sameMacrosButPassCount_refl d⟩, hinv⟩
  | cons u rest ih =>
    obtain ⟨r1, h1, hstep, hinv1⟩ :=
      UpdateSettings_passCount bc r p prev u hprev.1 hprev.2 hinv
    obtain ⟨r2, h2, hsame, hinv2⟩ := ih r1 u.blurStrength
      (hupd u (List.mem_cons_self _ _)) (fun s hs => hupd s (List.mem_cons_of_mem _ hs)) hinv1
    refine ⟨r2, ?_, ?_, hinv2⟩
    · simp only [updateSettingsEach, h1]
      exact h2
    · intro shader d hd
      obtain ⟨d1, hd1, s1, -⟩ := hstep shader d hd
      obtain ⟨d2, hd2, s2⟩ := hsame shader d1 hd1
      exact ⟨d2, hd2, sameMacrosButPassCount_trans d d1 d2 s1 s2⟩

/-- C19: each of the three compute shader descriptors `Initialize` builds has at index
size-2 of its macro list the macro `PASS_COUNT` whose value is the decimal text of
`bloomSettings.blurStrength`. After `Initialize` and any number of `UpdateSettings` calls
(all blur strengths being `int` values) every compute shader of the build has a macro list
of the length `Initialize` gave it, with the same macros at every index other than size-2,
and at index size-2 the macro `PASS_COUNT` with the text of the strength applied last, so
that reading that element with `std::stoi` returns the strength applied last. -/
theorem C19_pass_count_macro_invariant (bc : BuildConfig) (E : BloomShaderEnum)
    (r0 : Renderer) (p0 : BloomPass) (s0 : Settings.Bloom) (rtDesc : RenderTargetDesc)
    (updates : List Settings.Bloom)
    (h0 : INT_MIN ≤ s0.blurStrength ∧ s0.blurStrength ≤ INT_MAX)
    (hupd : ∀ s ∈ updates, INT_MIN ≤ s.blurStrength ∧ s.blurStrength ≤ INT_MAX) :
    (∀ d ∈ [CSDescH (computeTexDesc r0 rtDesc) s0, CSDescV (computeTexDesc r0 rtDesc) s0,
          CSDescHTz (computeTexDesc r0 rtDesc) s0],
        macroBeforeLast d.stage0.macros = .ok ⟨"PASS_COUNT", to_string s0.blurStrength⟩)
      ∧ ∃ r1 p1 r2, Initialize bc E r0 p0 s0 rtDesc = .ok (r1, p1)
        ∧ updateSettingsEach bc (r1, p1) updates = .ok (r2, p1)
        ∧ ∀ shader ∈ computeShaders bc p1, ∃ d1 d2,
            r1.GetShaderDesc shader = .ok d1
            ∧ d1 ∈ [CSDescH (computeTexDesc r0 rtDesc) s0,
                CSDescV (computeTexDesc r0 rtDesc) s0,
                CSDescHTz (computeTexDesc r0 rtDesc) s0]
            ∧ r2.GetShaderDesc shader = .ok d2
            ∧ d2.stage0.macros.length = d1.stage0.macros.length
            ∧ (∀ i, i ≠ d1.stage0.macros.length - 2 →
                d2.stage0.macros[i]? = d1.stage0.macros[i]?)
            ∧ macroBeforeLast d2.stage0.macros
                = .ok ⟨"PASS_COUNT", to_string (lastApplied s0.blurStrength updates)⟩
            ∧ passCountOf r2 shader = .ok (lastApplied s0.blurStrength updates) := by
  have hdesc : ∀ d ∈ [CSDescH (computeTexDesc r0 rtDesc) s0,
      CSDescV (computeTexDesc r0 rtDesc) s0, CSDescHTz (computeTexDesc r0 rtDesc) s0],
      macroBeforeLast d.stage0.macros = .ok ⟨"PASS_COUNT", to_string s0.blurStrength⟩ := by
    obtain ⟨hH, hV, hT⟩ := macroBeforeLast_CSDesc (computeTexDesc r0 rtDesc) s0
    intro d hd
    simp only [List.mem_cons, List.mem_singleton, List.not_mem_nil, or_false] at hd
    rcases hd with rfl | rfl | rfl
    · exact hH
    · exact hV
    · exact hT
  refine ⟨hdesc, ?_⟩
  obtain ⟨r1, p1, hI, hshaders⟩ := Initialize_computeShaders bc E r0 p0 s0 rtDesc
  have hinv : ∀ shader ∈ computeShaders bc p1,
      HasPassCount r1 shader (to_string s0.blurStrength) := by
    intro shader hmem
    obtain ⟨d, hd, hin⟩ := hshaders shader hmem
    exact ⟨d, hd, hdesc d hin⟩
  obtain ⟨r2, hU, hsame, hlast⟩ :=
    updateSettingsEach_passCount bc p1 updates r1 s0.blurStrength h0 hupd hinv
  refine ⟨r1, p1, r2, hI, hU, ?_⟩
  intro shader hmem
  obtain ⟨d1, hd1, hin⟩ := hshaders shader hmem
  obtain ⟨d2, hd2, hs⟩ := hsame shader d1 hd1
  obtain ⟨d2', hd2', hm⟩ := hlast shader hmem
  rw [hd2] at hd2'
  cases hd2'
  have hr := lastApplied_range updates s0.blurStrength h0 hupd
  refine ⟨d1, d2, hd1, hin, hd2, hs.1, hs.2, hm, ?_⟩
  simp only [passCountOf, hd2, hm, bind, Except.bind]
  exact stoi_to_string _ hr.1 hr.2

theorem C19_pass_count_macro_invariant_witness :
    (INT_MIN ≤ (sampleSettings 3).blurStrength ∧ (sampleSettings 3).blurStrength ≤ INT_MAX)
      ∧ (∀ s ∈ [sampleSettings 5, sampleSettings 5, sampleSettings 2],
          INT_MIN ≤ s.blurStrength ∧ s.blurStrength ≤ INT_MAX)
      ∧ ∃ r1 p1 r2, Initialize ⟨true, true⟩ BloomShaderEnum.sequential sampleRenderer
            (samplePass 0) (sampleSettings 3) sampleRenderTargetDesc = .ok (r1, p1)
        ∧ updateSettingsEach ⟨true, true⟩ (r1, p1)
            [sampleSettings 5, sampleSettings 5, sampleSettings 2] = .ok (r2, p1)
        ∧ ∀ shader ∈ computeShaders ⟨true, true⟩ p1,
            passCountOf r2 shader = .ok 2 := by
  have h0 : INT_MIN ≤ (sampleSettings 3).blurStrength
      ∧ (sampleSettings 3).blurStrength ≤ INT_MAX := by decide
  have hupd : ∀ s ∈ [sampleSettings 5, sampleSettings 5, sampleSettings 2],
      INT_MIN ≤ s.blurStrength ∧ s.blurStrength ≤ INT_MAX := by decide
  obtain ⟨-, r1, p1, r2, hI, hU, hall⟩ :=
    C19_pass_count_macro_invariant ⟨true, true⟩ BloomShaderEnum.sequential sampleRenderer
      (samplePass 0) (sampleSettings 3) sampleRenderTargetDesc
      [sampleSettings 5, sampleSettings 5, sampleSettings 2] h0 hupd
  refine ⟨h0, hupd, r1, p1, r2, hI, hU, ?_⟩
  intro shader hmem
  obtain ⟨d1, d2, -, -, -, -, -, -, hp⟩ := hall shader hmem
  exact hp

/-! ## Shader.h: equality of CPU constants -/

/-- C12: `operator==` of `CPUConstant` holds exactly when both operands have the same data
pointer, the same size and the same name; two constants with different pointers compare
unequal whatever they point to; `operator!=` is the negation of `operator==` for every
pair; `operator==` is reflexive, symmetric and transitive. -/
theorem C12_CPUConstant_equality (a b c : CPUConstant) :
    (a.operator_eq b = true ↔ a._data = b._data ∧ a._size = b._size ∧ a._name = b._name)
      ∧ (a._data ≠ b._data → a.operator_eq b = false)
      ∧ a.operator_ne b = !a.operator_eq b
      ∧ a.operator_eq a = true
      ∧ a.operator_eq b = b.operator_eq a
      ∧ (a.operator_eq b = true → b.operator_eq c = true → a.operator_eq c = true) := by
  have hiff : ∀ x y : CPUConstant, x.operator_eq y = true
      ↔ x._data = y._data ∧ x._size = y._size ∧ x._name = y._name := by
    intro x y
    simp [CPUConstant.operator_eq, and_assoc]
  refine ⟨hiff a b, ?_, ?_, ?_, ?_, ?_⟩
  · intro hne
    rw [Bool.eq_false_iff]
    intro h
    exact hne ((hiff a b).1 h).1
  · simp only [CPUConstant.operator_ne, CPUConstant.operator_eq, bne, Bool.not_and]
  · exact (hiff a a).2 ⟨rfl, rfl, rfl⟩
  · rw [Bool.eq_iff_iff, hiff, hiff]
    constructor <;> rintro ⟨h1, h2, h3⟩ <;> exact ⟨h1.symm, h2.symm, h3.symm⟩
  · intro hab hbc
    obtain ⟨h1, h2, h3⟩ := (hiff a b).1 hab
    obtain ⟨k1, k2, k3⟩ := (hiff b c).1 hbc
    exact (hiff a c).2 ⟨h1.trans k1, h2.trans k2, h3.trans k3⟩

theorem C12_CPUConstant_equality_witness :
    (⟨"fBlurStrength", 4, 4096⟩ : CPUConstant).operator_eq ⟨"fBlurStrength", 4, 4096⟩ = true
      ∧ (⟨"fBlurStrength", 4, 4096⟩ : CPUConstant).operator_eq ⟨"fBlurStrength", 4, 8192⟩
          = false :=
  ⟨(C12_CPUConstant_equality ⟨"fBlurStrength", 4, 4096⟩ ⟨"fBlurStrength", 4, 4096⟩
      ⟨"fBlurStrength", 4, 4096⟩).2.2.2.1,
    (C12_CPUConstant_equality ⟨"fBlurStrength", 4, 4096⟩ ⟨"fBlurStrength", 4, 8192⟩
      ⟨"fBlurStrength", 4, 4096⟩).2.1 (by decide)⟩

/-! ## Shader.h: ShaderLoadDesc and the cache store -/

theorem last_write_time_some (files : FileTimes) (p : String) (t : FileTimeStamp)
    (h : files p = some t) : last_write_time files p = .ok t := by
  simp [last_write_time, h]

theorem last_write_time_none (files : FileTimes) (p : String) (h : files p = none) :
    last_write_time files p = .error .filesystem_error := by
  simp [last_write_time, h]

theorem IsCacheValid_iff (files : FileTimes) (sourcePath cachePath : String) :
    IsCacheValid files sourcePath cachePath = true
      ↔ ∃ cacheTime sourceTime, files cachePath = some cacheTime
          ∧ files sourcePath = some sourceTime ∧ sourceTime ≤ cacheTime := by
  unfold IsCacheValid
  split
  · rename_i cacheTime sourceTime hc hs
    simp [hc, hs]
  · rename_i hnone
    simp only [Bool.false_eq_true, false_iff]
    rintro ⟨cacheTime, sourceTime, hc, hs, -⟩
    exact hnone cacheTime sourceTime hc hs

/-- C13 (as stated, refuted): with a source file but no cache file the constructor of
`ShaderLoadDesc` does not complete: `last_write_time` on the cache path throws
`filesystem_error`. -/
theorem C13_counterexample :
    sampleFiles "Blur_cs.hlsl" = some 100 ∧ sampleFiles "Blur_cs.bin" = none
      ∧ ShaderLoadDesc.ctor sampleFiles "Blur_cs.hlsl" "Blur_cs.bin"
          = .error .filesystem_error :=
  ⟨rfl, rfl, rfl⟩

/-- C13 (amended): the validity rule treats a source or cache file that cannot be stat-ed
as a cache miss. The constructor of `ShaderLoadDesc` completes exactly when both the source
file and the cache file have a last-write time, and then records the two paths and the two
times; when either file cannot be stat-ed it throws `filesystem_error`. -/
theorem C13_load_desc_needs_both_files (files : FileTimes) (path cachePath_ : String) :
    ((files path = none ∨ files cachePath_ = none) →
        IsCacheValid files path cachePath_ = false)
      ∧ (∀ sourceTime cacheTime, files path = some sourceTime →
          files cachePath_ = some cacheTime →
          ShaderLoadDesc.ctor files path cachePath_
            = .ok ⟨path, cachePath_, sourceTime, cacheTime⟩)
      ∧ ((files path = none ∨ files cachePath_ = none) →
          ShaderLoadDesc.ctor files path cachePath_ = .error .filesystem_error)
      ∧ ((∃ desc, ShaderLoadDesc.ctor files path cachePath_ = .ok desc)
          ↔ ∃ sourceTime cacheTime, files path = some sourceTime
              ∧ files cachePath_ = some cacheTime) := by
  have hok : ∀ sourceTime cacheTime, files path = some sourceTime →
      files cachePath_ = some cacheTime →
      ShaderLoadDesc.ctor files path cachePath_
        = .ok ⟨path, cachePath_, sourceTime, cacheTime⟩ := by
    intro sourceTime cacheTime hs hc
    simp [ShaderLoadDesc.ctor, last_write_time_some _ _ _ hs, last_write_time_some _ _ _ hc,
      bind, Except.bind, pure, Except.pure]
  have herr : (files path = none ∨ files cachePath_ = none) →
      ShaderLoadDesc.ctor files path cachePath_ = .error .filesystem_error := by
    intro h
    cases hs : files path with
    | none => simp [ShaderLoadDesc.ctor, last_write_time_none _ _ hs, bind, Except.bind]
    | some sourceTime =>
      have hc : files cachePath_ = none := by
        rcases h with h | h
        · rw [hs] at h
          cases h
        · exact h
      simp [ShaderLoadDesc.ctor, last_write_time_some _ _ _ hs, last_write_time_none _ _ hc,
        bind, Except.bind]
  refine ⟨?_, hok, herr, ?_⟩
  · intro h
    rw [Bool.eq_false_iff]
    intro hvalid
    obtain ⟨cacheTime, sourceTime, hc, hs, -⟩ := (IsCacheValid_iff _ _ _).1 hvalid
    rcases h with h | h
    · rw [hs] at h
      cases h
    · rw [hc] at h
      cases h
  · constructor
    · rintro ⟨desc, hdesc⟩
      cases hs : files path with
      | none =>
        rw [herr (Or.inl hs)] at hdesc
        cases hdesc
      | some sourceTime =>
        cases hc : files cachePath_ with
        | none =>
          rw [herr (Or.inr hc)] at hdesc
          cases hdesc
        | some cacheTime => exact ⟨sourceTime, cacheTime, rfl, rfl⟩
    · rintro ⟨sourceTime, cacheTime, hs, hc⟩
      exact ⟨_, hok sourceTime cacheTime hs hc⟩

theorem C13_load_desc_needs_both_files_witness :
    ShaderLoadDesc.ctor (fun p => if p = "Blur_cs.hlsl" then some 100 else some 250)
        "Blur_cs.hlsl" "Blur_cs.bin" = .ok ⟨"Blur_cs.hlsl", "Blur_cs.bin", 100, 250⟩
      ∧ IsCacheValid sampleFiles "Blur_cs.hlsl" "Blur_cs.bin" = false :=
  ⟨(C13_load_desc_needs_both_files (fun p => if p = "Blur_cs.hlsl" then some 100 else some 250)
      "Blur_cs.hlsl" "Blur_cs.bin").2.1 100 250 rfl rfl,
    (C13_load_desc_needs_both_files sampleFiles "Blur_cs.hlsl" "Blur_cs.bin").1 (Or.inr rfl)⟩

theorem ShaderLoadDesc_ctor_eq_ok (files : FileTimes) (path cachePath_ : String)
    (desc : ShaderLoadDesc) (h : ShaderLoadDesc.ctor files path cachePath_ = .ok desc) :
    files path = some desc.lastWriteTime ∧ files cachePath_ = some desc.cacheLastWriteTime := by
  cases hs : files path with
  | none => simp [ShaderLoadDesc.ctor, last_write_time, hs, bind, Except.bind] at h
  | some sourceTime =>
    cases hc : files cachePath_ with
    | none => simp [ShaderLoadDesc.ctor, last_write_time, hs, hc, bind, Except.bind] at h
    | some cacheTime =>
      simp only [ShaderLoadDesc.ctor, last_write_time, hs, hc, bind, Except.bind, pure,
        Except.pure] at h
      cases h
      exact ⟨rfl, rfl⟩

/-- C14: in the cache store of spec section 4.1 a load takes the cached binary if and only
if the cache file exists and its last-write time is greater than or equal to that of the
source file. A cache at least as new as the source is reused: the store, its compile
counter included, is unchanged. A write to the source at a time past the cache time makes
the next load call the compiler (the counter goes up by one) and, when that compilation
succeeds, rewrite the cache file. For a `ShaderLoadDesc` constructed on the two paths the
rule compares its two recorded times. -/
theorem C14_cache_validity (store : ShaderCacheStore) (sourcePath cachePath : String)
    (compiles : Bool) (now : FileTimeStamp) :
    ((LoadShaderStage store sourcePath cachePath compiles now).2 = .fromCache
        ↔ ∃ cacheTime sourceTime, store.files cachePath = some cacheTime
            ∧ store.files sourcePath = some sourceTime ∧ sourceTime ≤ cacheTime)
      ∧ (∀ cacheTime sourceTime, store.files cachePath = some cacheTime →
          store.files sourcePath = some sourceTime → sourceTime ≤ cacheTime →
          LoadShaderStage store sourcePath cachePath compiles now = (store, .fromCache))
      ∧ ((LoadShaderStage store sourcePath cachePath compiles now).2 ≠ .fromCache →
          (LoadShaderStage store sourcePath cachePath compiles now).1.compileCalls
            = store.compileCalls + 1)
      ∧ (∀ cacheTime bumped, store.files cachePath = some cacheTime → cacheTime < bumped →
          sourcePath ≠ cachePath →
          (LoadShaderStage (store.touch sourcePath bumped) sourcePath cachePath compiles
              now).2 ≠ .fromCache
            ∧ (LoadShaderStage (store.touch sourcePath bumped) sourcePath cachePath compiles
              now).1.compileCalls = store.compileCalls + 1
            ∧ (compiles = true →
                (LoadShaderStage (store.touch sourcePath bumped) sourcePath cachePath
                  compiles now).1.files cachePath = some now))
      ∧ (∀ desc, ShaderLoadDesc.ctor store.files sourcePath cachePath = .ok desc →
          ((LoadShaderStage store sourcePath cachePath compiles now).2 = .fromCache
            ↔ desc.lastWriteTime ≤ desc.cacheLastWriteTime)) := by
  have hiff := IsCacheValid_iff store.files sourcePath cachePath
  have hmiss : ∀ s : ShaderCacheStore, IsCacheValid s.files sourcePath cachePath = false →
      (LoadShaderStage s sourcePath cachePath compiles now).2 ≠ .fromCache
        ∧ (LoadShaderStage s sourcePath cachePath compiles now).1.compileCalls
            = s.compileCalls + 1
        ∧ (compiles = true →
            (LoadShaderStage s sourcePath cachePath compiles now).1.files cachePath
              = some now) := by
    intro s hs
    cases compiles <;> simp [LoadShaderStage, hs]
  have hfrom : (LoadShaderStage store sourcePath cachePath compiles now).2 = .fromCache
      ↔ ∃ cacheTime sourceTime, store.files cachePath = some cacheTime
          ∧ store.files sourcePath = some sourceTime ∧ sourceTime ≤ cacheTime := by
    rw [← hiff]
    cases hv : IsCacheValid store.files sourcePath cachePath
    · simpa using (hmiss store hv).1
    · simp [LoadShaderStage, hv]
  refine ⟨hfrom, ?_, ?_, ?_, ?_⟩
  · intro cacheTime sourceTime hc hs hle
    have hv := hiff.2 ⟨cacheTime, sourceTime, hc, hs, hle⟩
    simp [LoadShaderStage, hv]
  · intro hne
    cases hv : IsCacheValid store.files sourcePath cachePath
    · exact (hmiss store hv).2.1
    · exact absurd (by simp [LoadShaderStage, hv]) hne
  · intro cacheTime bumped hc hlt hpaths
    apply hmiss
    rw [Bool.eq_false_iff]
    intro hvalid
    obtain ⟨c, s, hc', hs', hle⟩ := (IsCacheValid_iff _ _ _).1 hvalid
    simp only [ShaderCacheStore.touch, if_neg (Ne.symm hpaths), if_true] at hc' hs'
    rw [hc] at hc'
    have e1 : c = cacheTime := (Option.some.inj hc').symm
    have e2 : s = bumped := (Option.some.inj hs').symm
    rw [e1, e2] at hle
    exact Nat.not_le.mpr hlt hle
  · intro desc hdesc
    obtain ⟨hs, hc⟩ := ShaderLoadDesc_ctor_eq_ok _ _ _ desc hdesc
    rw [hfrom]
    constructor
    · rintro ⟨cacheTime, sourceTime, hc', hs', hle⟩
      rw [hc] at hc'
      rw [hs] at hs'
      rw [Option.some.inj hc', Option.some.inj hs']
      exact hle
    · intro hle
      exact ⟨_, _, hc, hs, hle⟩

theorem C14_cache_validity_witness :
    LoadShaderStage ⟨fun p => if p = "Blur_cs.hlsl" then some 100 else some 250, 0⟩
        "Blur_cs.hlsl" "Blur_cs.bin" true 400
      = (⟨fun p => if p = "Blur_cs.hlsl" then some 100 else some 250, 0⟩, .fromCache)
    ∧ (LoadShaderStage
        ((⟨fun p => if p = "Blur_cs.hlsl" then some 100 else some 250, 0⟩
          : ShaderCacheStore).touch "Blur_cs.hlsl" 300)
        "Blur_cs.hlsl" "Blur_cs.bin" true 400).1.compileCalls = 0 + 1 :=
  ⟨(C14_cache_validity ⟨fun p => if p = "Blur_cs.hlsl" then some 100 else some 250, 0⟩
      "Blur_cs.hlsl" "Blur_cs.bin" true 400).2.1 250 100 rfl rfl (by decide),
    ((C14_cache_validity ⟨fun p => if p = "Blur_cs.hlsl" then some 100 else some 250, 0⟩
      "Blur_cs.hlsl" "Blur_cs.bin" true 400).2.2.2.1 250 300 rfl (by decide) (by decide)).2.1⟩

/-! ## The scene parser: `bloom` and `transform` -/

theorem ParseScene_bloom (env : ParserEnv) (w : ParserWorld) (params : List String) :
    ParseScene env w ("bloom" :: params) = parseBloom env w ("bloom" :: params) := by
  simp [ParseScene, containsSubstring]

theorem ParseScene_transform (env : ParserEnv) (w : ParserWorld) (params : List String) :
    ParseScene env w ("transform" :: params)
      = parseTransform env w ("transform" :: params) := by
  simp [ParseScene, containsSubstring]

/-- The keys of `sBoolTypeReflection`: `at` answers true for "true", "yes" and "1", false
for "false", "no" and "0", and throws for every other key. -/
theorem sBoolTypeReflection_at (key : String) (b : Bool) :
    mapAt sBoolTypeReflection key = .ok b
      ↔ (b = true ∧ key ∈ ["true", "yes", "1"]) ∨ (b = false ∧ key ∈ ["false", "no", "0"]) := by
  by_cases h1 : key = "true"
  · subst h1; cases b <;> simp [mapAt, sBoolTypeReflection, List.lookup]
  by_cases h2 : key = "false"
  · subst h2; cases b <;> simp [mapAt, sBoolTypeReflection, List.lookup]
  by_cases h3 : key = "yes"
  · subst h3; cases b <;> simp [mapAt, sBoolTypeReflection, List.lookup]
  by_cases h4 : key = "no"
  · subst h4; cases b <;> simp [mapAt, sBoolTypeReflection, List.lookup]
  by_cases h5 : key = "1"
  · subst h5; cases b <;> simp [mapAt, sBoolTypeReflection, List.lookup]
  by_cases h6 : key = "0"
  · subst h6; cases b <;> simp [mapAt, sBoolTypeReflection, List.lookup]
  have e1 : (key == "true") = false := by simpa using h1
  have e2 : (key == "false") = false := by simpa using h2
  have e3 : (key == "yes") = false := by simpa using h3
  have e4 : (key == "no") = false := by simpa using h4
  have e5 : (key == "1") = false := by simpa using h5
  have e6 : (key == "0") = false := by simpa using h6
  simp [mapAt, sBoolTypeReflection, List.lookup, e1, e2, e3, e4, e5, e6, h1, h2, h3, h4, h5, h6]

/-- C16: a scene command `bloom <enabled> [<threshold> [<blurStrength>]]` whose first
parameter, lowercased, is a key of `sBoolTypeReflection` with value `b`, and whose further
parameters `std::stof` and `std::stoi` accept: `ParseScene` returns, with
`scene.settings.bloom` set to `b`, the parsed threshold (1.5 when absent) and the parsed
blur strength (3 when absent); the rest of the scene, the parser's variables, the log and
the texture requests are as before. `b` is true for "true", "yes", "1" and false for
"false", "no", "0". -/
theorem C16_bloom_command (env : ParserEnv) (w : ParserWorld) (enabled : String) (b : Bool)
    (hb : mapAt sBoolTypeReflection (GetLowercased enabled) = .ok b) :
    ParseScene env w ["bloom", enabled]
        = .ok { w with scene := { w.scene with settings := { w.scene.settings with
            bloom := ⟨b, float_1_5, 3⟩ } } }
      ∧ (∀ t threshold, env.stof t = .ok threshold →
          ParseScene env w ["bloom", enabled, t]
            = .ok { w with scene := { w.scene with settings := { w.scene.settings with
                bloom := ⟨b, threshold, 3⟩ } } })
      ∧ (∀ t s more threshold strength, env.stof t = .ok threshold →
          stoi s = .ok strength →
          ParseScene env w ("bloom" :: enabled :: t :: s :: more)
            = .ok { w with scene := { w.scene with settings := { w.scene.settings with
                bloom := ⟨b, threshold, strength⟩ } } })
      ∧ (b = true ↔ GetLowercased enabled ∈ ["true", "yes", "1"])
      ∧ (b = false ↔ GetLowercased enabled ∈ ["false", "no", "0"]) := by
  refine ⟨?_, ?_, ?_, ?_, ?_⟩
  · rw [ParseScene_bloom]
    simp [parseBloom, tokenAt, hb, bind, Except.bind, pure, Except.pure]
  · intro t threshold ht
    rw [ParseScene_bloom]
    simp [parseBloom, tokenAt, stofAt, hb, ht, bind, Except.bind, pure, Except.pure]
  · intro t s more threshold strength ht hs
    rw [ParseScene_bloom]
    simp [parseBloom, tokenAt, stofAt, hb, ht, hs, bind, Except.bind, pure, Except.pure]
  · have h := (sBoolTypeReflection_at (GetLowercased enabled) b).1 hb
    constructor
    · intro hbt
      rcases h with ⟨-, hk⟩ | ⟨hbf, -⟩
      · exact hk
      · rw [hbt] at hbf
        cases hbf
    · intro hk
      have h2 := (sBoolTypeReflection_at (GetLowercased enabled) true).2 (Or.inl ⟨rfl, hk⟩)
      rw [hb] at h2
      exact Except.ok.inj h2
  · have h := (sBoolTypeReflection_at (GetLowercased enabled) b).1 hb
    constructor
    · intro hbf
      rcases h with ⟨hbt, -⟩ | ⟨-, hk⟩
      · rw [hbf] at hbt
        cases hbt
      · exact hk
    · intro hk
      have h2 := (sBoolTypeReflection_at (GetLowercased enabled) false).2 (Or.inr ⟨rfl, hk⟩)
      rw [hb] at h2
      exact Except.ok.inj h2

theorem C16_bloom_command_witness :
    mapAt sBoolTypeReflection (GetLowercased "True") = .ok true
      ∧ ParseScene sampleEnv sampleWorld ["bloom", "True"]
          = .ok { sampleWorld with scene := { sampleWorld.scene with
              settings := { sampleWorld.scene.settings with bloom := ⟨true, float_1_5, 3⟩ } } }
      ∧ ParseScene sampleEnv sampleWorld ["bloom", "True", "1", "5"]
          = .ok { sampleWorld with scene := { sampleWorld.scene with
              settings := { sampleWorld.scene.settings with bloom := ⟨true, float_1, 5⟩ } } } :=
  ⟨rfl, (C16_bloom_command sampleEnv sampleWorld "True" true rfl).1,
    (C16_bloom_command sampleEnv sampleWorld "True" true rfl).2.2.1 "1" "5" [] float_1 5
      rfl rfl⟩

theorem throughObject_ok (w : ParserWorld) (f : GameObject → GameObject) (ptr : PoolPtr)
    (object : GameObject) (hp : w.statics.pObject = some ptr) (hs : ptr.scene = w.scene.id)
    (ho : w.scene.objects[ptr.index]? = some object) :
    w.throughObject f
      = .ok { w with scene := { w.scene with
          objects := w.scene.objects.set ptr.index (f object) } } := by
  simp [ParserWorld.throughObject, hp, hs, ho]

/-- The reads of `transform` (lines 949-972) on 8, 10 and 9 tokens whose parameters
`stof` accepts: a uniform scale from parameter 7, a per-axis scale from parameters 7 to 9,
and with 8 parameters a read of `command[9]`, one past the last token. -/
theorem readTransform_by_token_count (env : ParserEnv)
    (p1 p2 p3 p4 p5 p6 p7 p8 p9 : String)
    (x y z rotX rotY rotZ sclX sclY sclZ : FloatBits)
    (h1 : env.stof p1 = .ok x) (h2 : env.stof p2 = .ok y) (h3 : env.stof p3 = .ok z)
    (h4 : env.stof p4 = .ok rotX) (h5 : env.stof p5 = .ok rotY) (h6 : env.stof p6 = .ok rotZ)
    (h7 : env.stof p7 = .ok sclX) (h8 : env.stof p8 = .ok sclY) (h9 : env.stof p9 = .ok sclZ) :
    readTransform env ["transform", p1, p2, p3, p4, p5, p6, p7]
        = .ok [.SetPosition x y z, .RotateAroundGlobalXAxisDegrees rotX,
            .RotateAroundGlobalYAxisDegrees rotY, .RotateAroundGlobalZAxisDegrees rotZ,
            .SetUniformScale sclX]
      ∧ readTransform env ["transform", p1, p2, p3, p4, p5, p6, p7, p8, p9]
        = .ok [.SetPosition x y z, .RotateAroundGlobalXAxisDegrees rotX,
            .RotateAroundGlobalYAxisDegrees rotY, .RotateAroundGlobalZAxisDegrees rotZ,
            .SetScale sclX sclY sclZ]
      ∧ readTransform env ["transform", p1, p2, p3, p4, p5, p6, p7, p8]
        = .error .indexOutOfRange := by
  refine ⟨?_, ?_, ?_⟩ <;>
    simp [readTransform, stofAt, tokenAt, h1, h2, h3, h4, h5, h6, h7, h8, h9, bind,
      Except.bind, pure, Except.pure]

/-- The assignments of lines 974-978 once `tf` is read, inside an open block. -/
theorem parseTransform_of_read (env : ParserEnv) (w : ParserWorld) (command : List String)
    (tf : Transform) (hread : readTransform env command = .ok tf)
    (hblock : w.statics.bIsReadingGameObject = true ∨ w.statics.bIsReadingLight = true)
    (hptr : w.statics.bIsReadingGameObject = true → ∃ ptr object,
      w.statics.pObject = some ptr ∧ ptr.scene = w.scene.id
        ∧ w.scene.objects[ptr.index]? = some object) :
    ∃ w', parseTransform env w command = .ok w'
      ∧ (w.statics.bIsReadingLight = true → w'.statics.sLight.mTransform = tf)
      ∧ (w.statics.bIsReadingGameObject = true → ∃ ptr object,
          w.statics.pObject = some ptr ∧ w'.scene.objects[ptr.index]? = some object
            ∧ object.transform = tf) := by
  have hguard : (!w.statics.bIsReadingGameObject && !w.statics.bIsReadingLight) = false := by
    rcases hblock with h | h <;> simp [h]
  rcases hobj : w.statics.bIsReadingGameObject with _ | _
  · have hlight : w.statics.bIsReadingLight = true := by
      rcases hblock with h | h
      · rw [hobj] at h
        cases h
      · exact h
    refine ⟨w.setLight fun l => { l with mTransform := tf }, ?_, (fun _ => rfl),
      (fun h => by cases h)⟩
    simp [parseTransform, hobj, hlight, hread, bind, Except.bind, pure, Except.pure]
  · obtain ⟨ptr, object, hp, hs, ho⟩ := hptr hobj
    have hin : ptr.index < w.scene.objects.length := by
      rcases Nat.lt_or_ge ptr.index w.scene.objects.length with h | h
      · exact h
      · rw [List.getElem?_eq_none h] at ho
        cases ho
    have hthrough := throughObject_ok w (fun o => { o with transform := tf }) ptr object hp hs ho
    have hget : (w.scene.objects.set ptr.index { object with transform := tf })[ptr.index]?
        = some { object with transform := tf } := by
      simp [hin]
    rcases hlight : w.statics.bIsReadingLight with _ | _
    · refine ⟨{ w with scene := { w.scene with
          objects := w.scene.objects.set ptr.index { object with transform := tf } } },
        ?_, (fun h => by cases h), (fun _ => ⟨ptr, { object with transform := tf }, hp, hget, rfl⟩)⟩
      simp only [parseTransform, hguard, hobj, hlight, hread, hthrough, bind, Except.bind,
        pure, Except.pure, if_true, Bool.false_eq_true, if_false]
      rfl
    · refine ⟨ParserWorld.setLight { w with scene := { w.scene with
          objects := w.scene.objects.set ptr.index { object with transform := tf } } }
          (fun l => { l with mTransform := tf }),
        ?_, (fun _ => rfl), (fun _ => ⟨ptr, { object with transform := tf }, hp, hget, rfl⟩)⟩
      simp only [parseTransform, hguard, hobj, hlight, hread, hthrough, bind, Except.bind,
        pure, Except.pure, if_true, Bool.false_eq_true, if_false]
      rfl

/-- C20 (evaluation): a `transform` command inside an open object block (`pObject` pointing
to an object of the scene) or light block, with parameters `std::stof` accepts. With 7
parameters `ParseScene` returns and the transform stored ends in the uniform scale of
parameter 7; with 9 parameters it returns and the transform ends in the per-axis scale of
parameters 7 to 9. With 8 parameters (9 tokens) line 961 sends it to the per-axis branch,
which reads `command[9]`, one past the last token. -/
theorem C20_transform_eight_parameters_read_past_end (env : ParserEnv) (w : ParserWorld)
    (p1 p2 p3 p4 p5 p6 p7 p8 p9 : String)
    (x y z rotX rotY rotZ sclX sclY sclZ : FloatBits)
    (h1 : env.stof p1 = .ok x) (h2 : env.stof p2 = .ok y) (h3 : env.stof p3 = .ok z)
    (h4 : env.stof p4 = .ok rotX) (h5 : env.stof p5 = .ok rotY) (h6 : env.stof p6 = .ok rotZ)
    (h7 : env.stof p7 = .ok sclX) (h8 : env.stof p8 = .ok sclY) (h9 : env.stof p9 = .ok sclZ)
    (hblock : w.statics.bIsReadingGameObject = true ∨ w.statics.bIsReadingLight = true)
    (hptr : w.statics.bIsReadingGameObject = true → ∃ ptr object,
      w.statics.pObject = some ptr ∧ ptr.scene = w.scene.id
        ∧ w.scene.objects[ptr.index]? = some object) :
    (∃ w', ParseScene env w ["transform", p1, p2, p3, p4, p5, p6, p7] = .ok w'
        ∧ (w.statics.bIsReadingLight = true → w'.statics.sLight.mTransform
            = [.SetPosition x y z, .RotateAroundGlobalXAxisDegrees rotX,
                .RotateAroundGlobalYAxisDegrees rotY, .RotateAroundGlobalZAxisDegrees rotZ,
                .SetUniformScale sclX])
        ∧ (w.statics.bIsReadingGameObject = true → ∃ ptr object,
            w.statics.pObject = some ptr ∧ w'.scene.objects[ptr.index]? = some object
              ∧ object.transform
                = [.SetPosition x y z, .RotateAroundGlobalXAxisDegrees rotX,
                    .RotateAroundGlobalYAxisDegrees rotY,
                    .RotateAroundGlobalZAxisDegrees rotZ, .SetUniformScale sclX]))
      ∧ (∃ w', ParseScene env w ["transform", p1, p2, p3, p4, p5, p6, p7, p8, p9] = .ok w'
        ∧ (w.statics.bIsReadingLight = true → w'.statics.sLight.mTransform
            = [.SetPosition x y z, .RotateAroundGlobalXAxisDegrees rotX,
                .RotateAroundGlobalYAxisDegrees rotY, .RotateAroundGlobalZAxisDegrees rotZ,
                .SetScale sclX sclY sclZ])
        ∧ (w.statics.bIsReadingGameObject = true → ∃ ptr object,
            w.statics.pObject = some ptr ∧ w'.scene.objects[ptr.index]? = some object
              ∧ object.transform
                = [.SetPosition x y z, .RotateAroundGlobalXAxisDegrees rotX,
                    .RotateAroundGlobalYAxisDegrees rotY,
                    .RotateAroundGlobalZAxisDegrees rotZ, .SetScale sclX sclY sclZ]))
      ∧ ParseScene env w ["transform", p1, p2, p3, p4, p5, p6, p7, p8]
          = .error .indexOutOfRange := by
  obtain ⟨r7, r9, r8⟩ := readTransform_by_token_count env p1 p2 p3 p4 p5 p6 p7 p8 p9
    x y z rotX rotY rotZ sclX sclY sclZ h1 h2 h3 h4 h5 h6 h7 h8 h9
  refine ⟨?_, ?_, ?_⟩
  · rw [ParseScene_transform]
    exact parseTransform_of_read env w _ _ r7 hblock hptr
  · rw [ParseScene_transform]
    exact parseTransform_of_read env w _ _ r9 hblock hptr
  · have hguard :
        (!w.statics.bIsReadingGameObject && !w.statics.bIsReadingLight) = false := by
      rcases hblock with h | h <;> simp [h]
    rw [ParseScene_transform]
    simp [parseTransform, hguard, r8, bind, Except.bind]

theorem C20_transform_eight_parameters_read_past_end_witness :
    ParseScene sampleEnv sampleObjectBlock ["transform", "0", "0", "0", "0", "0", "0", "1", "1"]
        = .error .indexOutOfRange
      ∧ ∃ w', ParseScene sampleEnv sampleObjectBlock
            ["transform", "0", "0", "0", "0", "0", "0", "1"] = .ok w'
          ∧ ∃ ptr object, sampleObjectBlock.statics.pObject = some ptr
              ∧ w'.scene.objects[ptr.index]? = some object
              ∧ object.transform
                = [.SetPosition 0 0 0, .RotateAroundGlobalXAxisDegrees 0,
                    .RotateAroundGlobalYAxisDegrees 0, .RotateAroundGlobalZAxisDegrees 0,
                    .SetUniformScale float_1] := by
  have h := C20_transform_eight_parameters_read_past_end sampleEnv sampleObjectBlock
    "0" "0" "0" "0" "0" "0" "1" "1" "1" 0 0 0 0 0 0 float_1 float_1 float_1
    rfl rfl rfl rfl rfl rfl rfl rfl rfl (Or.inl rfl)
    (fun _ => ⟨⟨0, 0⟩, sampleEnv.defaultGameObject, rfl, rfl, rfl⟩)
  obtain ⟨⟨w', hw', -, hobj⟩, -, h8⟩ := h
  exact ⟨h8, w', hw', hobj rfl⟩

/-! ## The warning branch and the bloom texture -/

/-- The four outcomes of the `switch` of `Render`, with the condition of each. -/
theorem blurCalls_shape (bc : BuildConfig) (E : BloomShaderEnum) (r : Renderer)
    (p : BloomPass) (settings : Settings.Bloom) :
    (p.mSelectedBloomShader = E.PS_1D_Kernels
        ∧ blurCalls bc E r p settings
          = .ok ([.GPU_BeginEntry "Bloom Blur<PS>", .BeginEvent "Blur Pass"]
              ++ (List.range' 0 (BlurPassCount settings).toNat).flatMap (psPassCalls r p)
              ++ [.EndEvent, .GPU_EndEntry]))
      ∨ (bc.ENABLE_COMPUTE_BLUR = true ∧ p.mSelectedBloomShader = E.CS_1D_Kernels
        ∧ blurCalls bc E r p settings = .ok (csBlurCalls r p))
      ∨ (bc.ENABLE_COMPUTE_BLUR_TRANSPOZE = true
        ∧ p.mSelectedBloomShader = E.CS_1D_Kernels_Transpoze_Out
        ∧ blurCalls bc E r p settings = .ok (cstBlurCalls r p))
      ∨ (p.mSelectedBloomShader ≠ E.PS_1D_Kernels
        ∧ ¬ (bc.ENABLE_COMPUTE_BLUR = true ∧ p.mSelectedBloomShader = E.CS_1D_Kernels)
        ∧ ¬ (bc.ENABLE_COMPUTE_BLUR_TRANSPOZE = true
              ∧ p.mSelectedBloomShader = E.CS_1D_Kernels_Transpoze_Out)
        ∧ blurCalls bc E r p settings
          = .ok [.Log_Warning "Unsupported Bloom Shader = %d" p.mSelectedBloomShader]) := by
  by_cases hPS : p.mSelectedBloomShader = E.PS_1D_Kernels
  · exact Or.inl ⟨hPS, blurCalls_PS bc E r p settings hPS⟩
  · by_cases hCS : bc.ENABLE_COMPUTE_BLUR = true ∧ p.mSelectedBloomShader = E.CS_1D_Kernels
    · exact Or.inr (Or.inl ⟨hCS.1, hCS.2, blurCalls_CS bc E r p settings hCS.1 hCS.2⟩)
    · by_cases hCST : bc.ENABLE_COMPUTE_BLUR_TRANSPOZE = true
          ∧ p.mSelectedBloomShader = E.CS_1D_Kernels_Transpoze_Out
      · exact Or.inr (Or.inr (Or.inl
          ⟨hCST.1, hCST.2, blurCalls_CST bc E r p settings hCST.1 hCST.2⟩))
      · refine Or.inr (Or.inr (Or.inr ⟨hPS, hCS, hCST, ?_⟩))
        simp only [blurCalls, hPS, hCS, hCST, if_false]
        rfl

theorem warnings_append (a b : List Call) : warnings (a ++ b) = warnings a ++ warnings b := by
  simp [warnings]

theorem warnings_psPasses (r : Renderer) (p : BloomPass) (ks : List Nat) :
    warnings (ks.flatMap (psPassCalls r p)) = [] := by
  induction ks with
  | nil => rfl
  | cons k ks ih =>
    rw [List.flatMap_cons, warnings_append, ih]
    simp [warnings, psPassCalls]

/-- `Render` returns for every selector and build, and its call list holds the warning
exactly when the selector is none of the cases compiled into the `switch`. -/
theorem Render_warns_iff (bc : BuildConfig) (E : BloomShaderEnum) (r : Renderer)
    (p : BloomPass) (inputTextureID : TextureID) (settings : Settings.Bloom) :
    ∃ trace, Render bc E r p inputTextureID settings = .ok trace
      ∧ (warnings trace = [] ∨ warnings trace
          = [.Log_Warning "Unsupported Bloom Shader = %d" p.mSelectedBloomShader])
      ∧ (warnings trace = [.Log_Warning "Unsupported Bloom Shader = %d" p.mSelectedBloomShader]
          ↔ p.mSelectedBloomShader ≠ E.PS_1D_Kernels
            ∧ ¬ (bc.ENABLE_COMPUTE_BLUR = true ∧ p.mSelectedBloomShader = E.CS_1D_Kernels)
            ∧ ¬ (bc.ENABLE_COMPUTE_BLUR_TRANSPOZE = true
                  ∧ p.mSelectedBloomShader = E.CS_1D_Kernels_Transpoze_Out)) := by
  obtain ⟨bloomTex, htex⟩ := GetBloomTexture_total E r p
  have hR : ∀ blur, blurCalls bc E r p settings = .ok blur →
      Render bc E r p inputTextureID settings
        = .ok (brightFilterCalls p inputTextureID settings ++ blur
            ++ combineCalls r p bloomTex) := by
    intro blur hblur
    simp [Render, hblur, htex, bind, Except.bind, pure, Except.pure]
  have hbright : warnings (brightFilterCalls p inputTextureID settings) = [] := by
    simp [warnings, brightFilterCalls]
  have hcombine : warnings (combineCalls r p bloomTex) = [] := by
    simp [warnings, combineCalls]
  rcases blurCalls_shape bc E r p settings with ⟨hPS, hb⟩ | ⟨hcb, hCS, hb⟩ | ⟨hcbt, hCST, hb⟩
    | ⟨hPS, hCS, hCST, hb⟩
  · refine ⟨_, hR _ hb, Or.inl ?_, ?_⟩
    · rw [warnings_append, warnings_append, warnings_append, warnings_append, hbright,
        hcombine, warnings_psPasses]
      rfl
    · rw [warnings_append, warnings_append, warnings_append, warnings_append, hbright,
        hcombine, warnings_psPasses]
      constructor
      · intro h
        cases h
      · intro h
        exact absurd hPS h.1
  · refine ⟨_, hR _ hb, Or.inl ?_, ?_⟩
    · rw [warnings_append, warnings_append, hbright, hcombine]
      rfl
    · rw [warnings_append, warnings_append, hbright, hcombine]
      constructor
      · intro h
        cases h
      · intro h
        exact absurd ⟨hcb, hCS⟩ h.2.1
  · refine ⟨_, hR _ hb, Or.inl ?_, ?_⟩
    · rw [warnings_append, warnings_append, hbright, hcombine]
      rfl
    · rw [warnings_append, warnings_append, hbright, hcombine]
      constructor
      · intro h
        cases h
      · intro h
        exact absurd ⟨hcbt, hCST⟩ h.2.2
  · refine ⟨_, hR _ hb, Or.inr ?_, ?_⟩
    · rw [warnings_append, warnings_append, hbright, hcombine]
      rfl
    · rw [warnings_append, warnings_append, hbright, hcombine]
      exact ⟨fun _ => ⟨hPS, hCS, hCST⟩, fun _ => rfl⟩

/-- C25 (evaluation): in the default build, which compiles both compute cases out of the
`switch` of `Render`, a pass whose selector is CS_1D_Kernels makes `Render` take the
warning branch, while `GetBloomTexture`, whose `switch` keeps the case, returns compute
output slot 1, and the combine draw binds that handle as "BloomTexture"; with the selector
CS_1D_Kernels_Transpoze_Out the same happens with compute output slot 0. -/
theorem C25_compiled_out_selector_resolves_compute_output (E : BloomShaderEnum)
    (r : Renderer) (p : BloomPass) (inputTextureID : TextureID) (settings : Settings.Bloom) :
    (∃ trace, Render defaultBuild E r { p with mSelectedBloomShader := E.CS_1D_Kernels }
          inputTextureID settings = .ok trace
        ∧ warnings trace = [.Log_Warning "Unsupported Bloom Shader = %d" E.CS_1D_Kernels]
        ∧ GetBloomTexture E r { p with mSelectedBloomShader := E.CS_1D_Kernels }
          = .ok p.blurComputeOutputPingPong.e1
        ∧ (combineDraws trace).map (fun s => s.texture "BloomTexture")
          = [some p.blurComputeOutputPingPong.e1])
      ∧ (∃ trace, Render defaultBuild E r
            { p with mSelectedBloomShader := E.CS_1D_Kernels_Transpoze_Out }
            inputTextureID settings = .ok trace
        ∧ warnings trace
          = [.Log_Warning "Unsupported Bloom Shader = %d" E.CS_1D_Kernels_Transpoze_Out]
        ∧ GetBloomTexture E r { p with mSelectedBloomShader := E.CS_1D_Kernels_Transpoze_Out }
          = .ok p.blurComputeOutputPingPong.e0
        ∧ (combineDraws trace).map (fun s => s.texture "BloomTexture")
          = [some p.blurComputeOutputPingPong.e0]) := by
  constructor
  · have htex := GetBloomTexture_CS E r { p with mSelectedBloomShader := E.CS_1D_Kernels } rfl
    refine ⟨brightFilterCalls { p with mSelectedBloomShader := E.CS_1D_Kernels }
        inputTextureID settings
      ++ [.Log_Warning "Unsupported Bloom Shader = %d" E.CS_1D_Kernels]
      ++ combineCalls r { p with mSelectedBloomShader := E.CS_1D_Kernels }
        p.blurComputeOutputPingPong.e1, ?_, ?_, htex, ?_⟩
    · simp [Render, blurCalls, htex, defaultBuild, E.ne.1.symm, bind, Except.bind, pure,
        Except.pure]
    · simp [warnings, brightFilterCalls, combineCalls]
    · simp [combineDraws, submissions, submissionsFrom, brightFilterCalls, combineCalls,
        Submission.inEvent, Submission.texture]
  · have htex := GetBloomTexture_CST E r
      { p with mSelectedBloomShader := E.CS_1D_Kernels_Transpoze_Out } rfl
    refine ⟨brightFilterCalls { p with mSelectedBloomShader := E.CS_1D_Kernels_Transpoze_Out }
        inputTextureID settings
      ++ [.Log_Warning "Unsupported Bloom Shader = %d" E.CS_1D_Kernels_Transpoze_Out]
      ++ combineCalls r { p with mSelectedBloomShader := E.CS_1D_Kernels_Transpoze_Out }
        p.blurComputeOutputPingPong.e0, ?_, ?_, htex, ?_⟩
    · simp [Render, blurCalls, htex, defaultBuild, E.ne.2.1.symm, bind, Except.bind, pure,
        Except.pure]
    · simp [warnings, brightFilterCalls, combineCalls]
    · simp [combineDraws, submissions, submissionsFrom, brightFilterCalls, combineCalls,
        Submission.inEvent, Submission.texture]

/-! ## Nesting of events and profiler entries -/

theorem depthAfter_append (isBegin isEnd : Call → Bool) (a b : List Call) (depth : Nat) :
    depthAfter isBegin isEnd depth (a ++ b)
      = (depthAfter isBegin isEnd depth a).bind fun d => depthAfter isBegin isEnd d b := by
  induction a generalizing depth with
  | nil => rfl
  | cons c cs ih =>
    simp only [List.cons_append, depthAfter]
    split
    · exact ih _
    · split
      · cases depth with
        | zero => rfl
        | succ d => exact ih _
      · exact ih _

/-- A call list that `depthAfter` accepts has, in every prefix, no more ends than the
begins open at the start plus the begins of the prefix, and in all as many ends as that
minus the begins left open. -/
theorem depthAfter_counts (isBegin isEnd : Call → Bool)
    (hdisjoint : ∀ c, isBegin c = true → isEnd c = false) (l : List Call) (depth final : Nat)
    (h : depthAfter isBegin isEnd depth l = some final) :
    final + l.countP isEnd = depth + l.countP isBegin
      ∧ ∀ k, (l.take k).countP isEnd ≤ depth + (l.take k).countP isBegin := by
  induction l generalizing depth with
  | nil =>
    simp only [depthAfter, Option.some.injEq] at h
    simp [h]
  | cons c cs ih =>
    simp only [depthAfter] at h
    by_cases hb : isBegin c = true
    · have he := hdisjoint c hb
      rw [if_pos hb] at h
      obtain ⟨h1, h2⟩ := ih _ h
      refine ⟨by simp [List.countP_cons, hb, he]; omega, fun k => ?_⟩
      cases k with
      | zero => simp
      | succ k =>
        have := h2 k
        simp [List.take_succ_cons, List.countP_cons, hb, he]
        omega
    · rw [if_neg hb] at h
      by_cases he : isEnd c = true
      · rw [if_pos he] at h
        cases depth with
        | zero => cases h
        | succ d =>
          obtain ⟨h1, h2⟩ := ih _ h
          refine ⟨by simp [List.countP_cons, hb, he]; omega, fun k => ?_⟩
          cases k with
          | zero => simp
          | succ k =>
            have := h2 k
            simp [List.take_succ_cons, List.countP_cons, hb, he]
            omega
      · rw [if_neg he] at h
        obtain ⟨h1, h2⟩ := ih _ h
        refine ⟨by simp [List.countP_cons, hb, he]; omega, fun k => ?_⟩
        cases k with
        | zero => simp
        | succ k =>
          have := h2 k
          simp [List.take_succ_cons, List.countP_cons, hb, he]
          omega

theorem depthAfter_events_psPasses (r : Renderer) (p : BloomPass) (ks : List Nat)
    (depth : Nat) :
    depthAfter Call.isBeginEvent Call.isEndEvent depth (ks.flatMap (psPassCalls r p))
      = some depth := by
  induction ks with
  | nil => rfl
  | cons k ks ih =>
    rw [List.flatMap_cons, depthAfter_append]
    simpa [psPassCalls, depthAfter, Call.isBeginEvent, Call.isEndEvent] using ih

theorem depthAfter_entries_psPasses (r : Renderer) (p : BloomPass) (ks : List Nat)
    (depth : Nat) :
    depthAfter Call.isBeginEntry Call.isEndEntry depth (ks.flatMap (psPassCalls r p))
      = some depth := by
  induction ks with
  | nil => rfl
  | cons k ks ih =>
    rw [List.flatMap_cons, depthAfter_append]
    simpa [psPassCalls, depthAfter, Call.isBeginEntry, Call.isEndEntry] using ih

/-- Every blur section leaves the renderer events and the profiler entries as open as it
found them, and closes nothing it did not open. -/
theorem depthAfter_blurCalls (bc : BuildConfig) (E : BloomShaderEnum) (r : Renderer)
    (p : BloomPass) (settings : Settings.Bloom) (depth : Nat) :
    ∃ blur, blurCalls bc E r p settings = .ok blur
      ∧ depthAfter Call.isBeginEvent Call.isEndEvent depth blur = some depth
      ∧ depthAfter Call.isBeginEntry Call.isEndEntry depth blur = some depth := by
  rcases blurCalls_shape bc E r p settings with ⟨-, hb⟩ | ⟨-, -, hb⟩ | ⟨-, -, hb⟩
    | ⟨-, -, -, hb⟩
  · refine ⟨_, hb, ?_, ?_⟩
    · rw [depthAfter_append, depthAfter_append]
      have h1 : depthAfter Call.isBeginEvent Call.isEndEvent depth
          [.GPU_BeginEntry "Bloom Blur<PS>", .BeginEvent "Blur Pass"] = some (depth + 1) := rfl
      rw [h1, Option.some_bind, depthAfter_events_psPasses, Option.some_bind]
      rfl
    · rw [depthAfter_append, depthAfter_append]
      have h1 : depthAfter Call.isBeginEntry Call.isEndEntry depth
          [.GPU_BeginEntry "Bloom Blur<PS>", .BeginEvent "Blur Pass"] = some (depth + 1) := rfl
      rw [h1, Option.some_bind, depthAfter_entries_psPasses, Option.some_bind]
      rfl
  · exact ⟨_, hb, rfl, rfl⟩
  · exact ⟨_, hb, rfl, rfl⟩
  · exact ⟨_, hb, rfl, rfl⟩

/-- C26: for every selector, build and blur strength `Render` returns a call list in
which the `BeginEvent`/`EndEvent` calls are properly nested and balanced, and so are the
`BeginEntry`/`EndEntry` calls of the GPU profiler: no prefix of the list has more ends than
begins, and the whole list has as many ends as begins. -/
theorem C26_events_and_entries_balanced (bc : BuildConfig) (E : BloomShaderEnum)
    (r : Renderer) (p : BloomPass) (inputTextureID : TextureID) (settings : Settings.Bloom) :
    ∃ trace, Render bc E r p inputTextureID settings = .ok trace
      ∧ depthAfter Call.isBeginEvent Call.isEndEvent 0 trace = some 0
      ∧ depthAfter Call.isBeginEntry Call.isEndEntry 0 trace = some 0
      ∧ (∀ k, (trace.take k).countP Call.isEndEvent
          ≤ (trace.take k).countP Call.isBeginEvent)
      ∧ trace.countP Call.isEndEvent = trace.countP Call.isBeginEvent
      ∧ (∀ k, (trace.take k).countP Call.isEndEntry
          ≤ (trace.take k).countP Call.isBeginEntry)
      ∧ trace.countP Call.isEndEntry = trace.countP Call.isBeginEntry := by
  obtain ⟨bloomTex, htex⟩ := GetBloomTexture_total E r p
  have hevents : ∀ blur, depthAfter Call.isBeginEvent Call.isEndEvent 1 blur = some 1 →
      depthAfter Call.isBeginEvent Call.isEndEvent 0
        (brightFilterCalls p inputTextureID settings ++ blur ++ combineCalls r p bloomTex)
        = some 0 := by
    intro blur hblur
    have h1 : depthAfter Call.isBeginEvent Call.isEndEvent 0
        (brightFilterCalls p inputTextureID settings) = some 1 := rfl
    rw [depthAfter_append, depthAfter_append, h1, Option.some_bind, hblur, Option.some_bind]
    rfl
  have hentries : ∀ blur, depthAfter Call.isBeginEntry Call.isEndEntry 0 blur = some 0 →
      depthAfter Call.isBeginEntry Call.isEndEntry 0
        (brightFilterCalls p inputTextureID settings ++ blur ++ combineCalls r p bloomTex)
        = some 0 := by
    intro blur hblur
    have h1 : depthAfter Call.isBeginEntry Call.isEndEntry 0
        (brightFilterCalls p inputTextureID settings) = some 0 := rfl
    rw [depthAfter_append, depthAfter_append, h1, Option.some_bind, hblur, Option.some_bind]
    rfl
  obtain ⟨blur, hblur, he, -⟩ := depthAfter_blurCalls bc E r p settings 1
  obtain ⟨blur0, hblur0, -, hg⟩ := depthAfter_blurCalls bc E r p settings 0
  rw [hblur] at hblur0
  cases hblur0
  have h1 := hevents blur he
  have h2 := hentries blur hg
  obtain ⟨c1, p1⟩ := depthAfter_counts Call.isBeginEvent Call.isEndEvent
    (fun c hc => by cases c <;> simp_all [Call.isBeginEvent, Call.isEndEvent]) _ 0 0 h1
  obtain ⟨c2, p2⟩ := depthAfter_counts Call.isBeginEntry Call.isEndEntry
    (fun c hc => by cases c <;> simp_all [Call.isBeginEntry, Call.isEndEntry]) _ 0 0 h2
  refine ⟨_, ?_, h1, h2, ?_, ?_, ?_, ?_⟩
  · simp [Render, hblur, htex, bind, Except.bind, pure, Except.pure]
  · intro k
    simpa using p1 k
  · simpa using c1
  · intro k
    simpa using p2 k
  · simpa using c2

/-! ## The transpose dispatch -/

/-- C28: on the compute-transpose strategy (compiled in) the second of the three dispatches
of `Render`, the transpose, has floor(W/16) thread groups in X and floor(H/16) in Y for a
W x H window, and 1 in Z. Sixteen times either count does not exceed the dimension, equals
it exactly when the dimension is a multiple of 16, and the count is 0 for a dimension
below 16. -/
theorem C28_transpose_dispatch_groups (bc : BuildConfig) (E : BloomShaderEnum)
    (r : Renderer) (p : BloomPass) (inputTextureID : TextureID) (settings : Settings.Bloom)
    (hbuild : bc.ENABLE_COMPUTE_BLUR_TRANSPOZE = true)
    (hsel : p.mSelectedBloomShader = E.CS_1D_Kernels_Transpoze_Out) :
    ∃ trace first transpose last, ∃ groupsX groupsY : Nat,
      Render bc E r p inputTextureID settings = .ok trace
      ∧ dispatches trace = [first, transpose, last]
      ∧ transpose.shader = some p.sShaderTranspoze
      ∧ transpose.command = .Dispatch (groupsX : Int) (groupsY : Int) 1
      ∧ groupsX = r.WindowWidth / 16 ∧ groupsY = r.WindowHeight / 16
      ∧ 16 * groupsX ≤ r.WindowWidth ∧ 16 * groupsY ≤ r.WindowHeight
      ∧ r.WindowWidth < 16 * (groupsX + 1) ∧ r.WindowHeight < 16 * (groupsY + 1)
      ∧ (16 * groupsX = r.WindowWidth ↔ 16 ∣ r.WindowWidth)
      ∧ (16 * groupsY = r.WindowHeight ↔ 16 ∣ r.WindowHeight)
      ∧ (r.WindowWidth < 16 → groupsX = 0) ∧ (r.WindowHeight < 16 → groupsY = 0) := by
  obtain ⟨a, b, c, hd, h1, h2⟩ := exists_triple_of_match
    (dispatches (cstTrace r p inputTextureID settings))
    (fun _ b _ => b.shader = some p.sShaderTranspoze
      ∧ b.command = .Dispatch ((r.WindowWidth / 16 : Nat) : Int)
          ((r.WindowHeight / 16 : Nat) : Int) 1)
    (by simp [dispatches, submissions, cstTrace, brightFilterCalls, combineCalls,
          submissionsFrom, Submission.isDispatch, Submission.shader])
  refine ⟨_, a, b, c, r.WindowWidth / 16, r.WindowHeight / 16,
    Render_CST bc E r p inputTextureID settings hbuild hsel, hd, h1, h2, rfl, rfl,
    Nat.mul_div_le _ _, Nat.mul_div_le _ _, ?_, ?_, ?_, ?_, ?_, ?_⟩
  · omega
  · omega
  · constructor
    · intro h
      exact ⟨_, h.symm⟩
    · intro h
      exact Nat.mul_div_cancel' h
  · constructor
    · intro h
      exact ⟨_, h.symm⟩
    · intro h
      exact Nat.mul_div_cancel' h
  · intro h
    exact Nat.div_eq_of_lt h
  · intro h
    exact Nat.div_eq_of_lt h

theorem C28_transpose_dispatch_groups_witness :
    ∃ trace first transpose last,
      Render ⟨false, true⟩ BloomShaderEnum.sequential sampleRenderer (samplePass 2) 7
          (sampleSettings 3) = .ok trace
      ∧ dispatches trace = [first, transpose, last]
      ∧ transpose.command = .Dispatch 120 67 1 := by
  obtain ⟨trace, a, b, c, gx, gy, hR, hd, -, hc, hx, hy, -⟩ :=
    C28_transpose_dispatch_groups ⟨false, true⟩ BloomShaderEnum.sequential sampleRenderer
      (samplePass 2) 7 (sampleSettings 3) rfl rfl
  refine ⟨trace, a, b, c, hR, hd, ?_⟩
  rw [hc, hx, hy]
  rfl

/-! ## The scene parser: blocks -/

theorem ParseScene_light (env : ParserEnv) (w : ParserWorld) (params : List String) :
    ParseScene env w ("light" :: params) = parseLight env w ("light" :: params) := by
  simp [ParseScene]

theorem ParseScene_object (env : ParserEnv) (w : ParserWorld) (params : List String) :
    ParseScene env w ("object" :: params) = parseObject env w ("object" :: params) := by
  simp [ParseScene]

theorem ParseScene_pbr (env : ParserEnv) (w : ParserWorld) (params : List String) :
    ParseScene env w ("pbr" :: params) = parsePbr env w ("pbr" :: params) := by
  simp [ParseScene]

theorem ParseScene_mesh (env : ParserEnv) (w : ParserWorld) (params : List String) :
    ParseScene env w ("mesh" :: params) = parseMesh w ("mesh" :: params) := by
  simp [ParseScene, containsSubstring]

theorem ParseScene_brdf (env : ParserEnv) (w : ParserWorld) (params : List String) :
    ParseScene env w ("brdf" :: params) = parseBrdf env w := by
  simp [ParseScene, containsSubstring]

theorem ParseScene_model (env : ParserEnv) (w : ParserWorld) (params : List String) :
    ParseScene env w ("model" :: params) = parseModel w ("model" :: params) := by
  simp [ParseScene, containsSubstring]

/-- C21: the light block of `ParseScene` for a command `light <t> ...`, `t` compared in
lower case. `begin` inside an open light block and `end` outside one are rejected: an error
is logged, the scene and the parser's variables (current light and reading-light flag
among them) stay as they are. An accepted `begin` sets the current light to a
default-constructed light and the flag, and changes nothing else. An accepted `end` clears
the flag and stores the current light in one place: `scene.directionalLight` when its type
is DIRECTIONAL, otherwise as the new last element of `scene.lights`. -/
theorem C21_light_block (env : ParserEnv) (w : ParserWorld) (t : String)
    (more : List String) :
    (GetLowercased t = "begin" → w.statics.bIsReadingLight = true →
        ParseScene env w ("light" :: t :: more)
          = .ok { w with log := w.log ++ [⟨.Error,
              " expecting \"light end\" before starting a new light definition", []⟩] })
      ∧ (GetLowercased t = "end" → w.statics.bIsReadingLight = false →
        ParseScene env w ("light" :: t :: more)
          = .ok { w with log := w.log ++ [⟨.Error,
              " expecting \"light begin\" before ending a light definition", []⟩] })
      ∧ (GetLowercased t = "begin" → w.statics.bIsReadingLight = false →
        ParseScene env w ("light" :: t :: more)
          = .ok { w with statics := { w.statics with
              bIsReadingLight := true, sLight := env.defaultLight } })
      ∧ (GetLowercased t = "end" → w.statics.bIsReadingLight = true →
        w.statics.sLight.mType = .DIRECTIONAL →
        ParseScene env w ("light" :: t :: more)
          = .ok { w with
              statics := { w.statics with bIsReadingLight := false },
              scene := { w.scene with directionalLight := w.statics.sLight } })
      ∧ (GetLowercased t = "end" → w.statics.bIsReadingLight = true →
        w.statics.sLight.mType ≠ .DIRECTIONAL →
        ParseScene env w ("light" :: t :: more)
          = .ok { w with
              statics := { w.statics with bIsReadingLight := false },
              scene := { w.scene with lights := w.scene.lights ++ [w.statics.sLight] } })
      ∧ (GetLowercased t ≠ "begin" → GetLowercased t ≠ "end" →
        ParseScene env w ("light" :: t :: more) = .ok w) := by
  refine ⟨?_, ?_, ?_, ?_, ?_, ?_⟩
  · intro ht hflag
    rw [ParseScene_light]
    simp [parseLight, tokenAt, ht, hflag, ParserWorld.Log_Error, bind, Except.bind, pure,
      Except.pure]
  · intro ht hflag
    rw [ParseScene_light]
    simp [parseLight, parseLightEnd, tokenAt, ht, hflag, ParserWorld.Log_Error, bind,
      Except.bind, pure, Except.pure]
  · intro ht hflag
    rw [ParseScene_light]
    simp [parseLight, parseLightEnd, tokenAt, ht, hflag, bind, Except.bind, pure,
      Except.pure]
  · intro ht hflag htype
    rw [ParseScene_light]
    simp [parseLight, parseLightEnd, tokenAt, ht, hflag, htype, bind, Except.bind, pure,
      Except.pure]
  · intro ht hflag htype
    rw [ParseScene_light]
    simp [parseLight, parseLightEnd, tokenAt, ht, hflag, htype, bind, Except.bind, pure,
      Except.pure]
  · intro hb he
    rw [ParseScene_light]
    simp [parseLight, parseLightEnd, tokenAt, hb, he, bind, Except.bind, pure, Except.pure]

theorem C21_light_block_witness :
    ParseScene sampleEnv sampleWorld ["light", "Begin"]
        = .ok { sampleWorld with statics := { sampleWorld.statics with
            bIsReadingLight := true, sLight := sampleEnv.defaultLight } }
      ∧ ParseScene sampleEnv sampleWorld ["light", "end"]
        = .ok { sampleWorld with log := sampleWorld.log ++ [⟨.Error,
            " expecting \"light begin\" before ending a light definition", []⟩] } :=
  ⟨(C21_light_block sampleEnv sampleWorld "Begin" []).2.2.1 rfl rfl,
    (C21_light_block sampleEnv sampleWorld "end" []).2.1 rfl rfl⟩

/-- C27: with no object block open the commands `mesh`, `model`, `pbr` and `brdf`, whatever
their parameters, and with neither an object block nor a light block open the command
`transform`, make `ParseScene` return with one more log line, an error, and nothing else
changed: the scene, the flags, the current object, material and light, the texture set and
the texture requests are as before. -/
theorem C27_rejected_atomically (env : ParserEnv) (w : ParserWorld) (params : List String) :
    (w.statics.bIsReadingGameObject = false →
        ∀ cmd ∈ ["mesh", "model", "pbr", "brdf"], ∃ line, line.level = .Error
          ∧ ParseScene env w (cmd :: params) = .ok { w with log := w.log ++ [line] })
      ∧ (w.statics.bIsReadingGameObject = false → w.statics.bIsReadingLight = false →
        ∃ line, line.level = .Error
          ∧ ParseScene env w ("transform" :: params)
            = .ok { w with log := w.log ++ [line] }) := by
  constructor
  · intro hflag cmd hcmd
    simp only [List.mem_cons, List.mem_singleton, List.not_mem_nil, or_false] at hcmd
    rcases hcmd with rfl | rfl | rfl | rfl
    · refine ⟨⟨.Error,
        " Creating mesh without defining a game object (missing cmd: \"%s\"",
        ["object begin"]⟩, rfl, ?_⟩
      rw [ParseScene_mesh]
      simp [parseMesh, hflag, ParserWorld.Log_Error]
    · refine ⟨⟨.Error,
        " Creating Transform without defining a game object (missing cmd: \"%s\"",
        ["object begin"]⟩, rfl, ?_⟩
      rw [ParseScene_model]
      simp [parseModel, hflag, ParserWorld.Log_Error]
    · refine ⟨⟨.Error,
        " Creating BRDF Material without defining a game object (missing cmd: \"%s\"",
        ["object begin"]⟩, rfl, ?_⟩
      rw [ParseScene_pbr]
      simp [parsePbr, hflag, ParserWorld.Log_Error]
    · refine ⟨⟨.Error,
        " Creating BRDF Material without defining a game object (missing cmd: \"%s\"",
        ["object begin"]⟩, rfl, ?_⟩
      rw [ParseScene_brdf]
      simp [parseBrdf, hflag, ParserWorld.Log_Error]
  · intro hobject hlight
    refine ⟨⟨.Error, " Creating Transform without defining a game object "
        ++ "(missing cmd: \"%s\"), or a light (missing cmd: \"light begin\")",
        ["object begin"]⟩, rfl, ?_⟩
    rw [ParseScene_transform]
    simp [parseTransform, hobject, hlight, ParserWorld.Log_Error]

theorem C27_rejected_atomically_witness :
    (∀ cmd ∈ ["mesh", "model", "pbr", "brdf"], ∃ line, line.level = .Error
        ∧ ParseScene sampleEnv sampleWorld [cmd, "cube"]
          = .ok { sampleWorld with log := sampleWorld.log ++ [line] })
      ∧ ∃ line, line.level = .Error
        ∧ ParseScene sampleEnv sampleWorld ["transform", "cube"]
          = .ok { sampleWorld with log := sampleWorld.log ++ [line] } :=
  ⟨(C27_rejected_atomically sampleEnv sampleWorld ["cube"]).1 rfl,
    (C27_rejected_atomically sampleEnv sampleWorld ["cube"]).2 rfl rfl⟩

/-! ## Boolean parameters and the level index -/

theorem ParseScene_shadows (env : ParserEnv) (w : ParserWorld) (params : List String) :
    ParseScene env w ("shadows" :: params) = parseShadows env w ("shadows" :: params) := by
  simp [ParseScene, containsSubstring]

theorem ParseScene_ao (env : ParserEnv) (w : ParserWorld) (params : List String) :
    ParseScene env w ("ao" :: params) = parseAo env w ("ao" :: params) := by
  simp [ParseScene, containsSubstring]

theorem ParseScene_skylight (env : ParserEnv) (w : ParserWorld) (params : List String) :
    ParseScene env w ("skylight" :: params) = parseSkylight w ("skylight" :: params) := by
  simp [ParseScene, containsSubstring]

theorem sBoolTypeReflection_at_error (key : String)
    (h : key ∉ ["true", "yes", "1", "false", "no", "0"]) :
    mapAt sBoolTypeReflection key = .error .out_of_range := by
  cases hm : mapAt sBoolTypeReflection key with
  | ok b =>
    exfalso
    apply h
    rcases (sBoolTypeReflection_at key b).1 hm with ⟨-, hk⟩ | ⟨-, hk⟩ <;>
      simp only [List.mem_cons, List.mem_singleton, List.not_mem_nil, or_false] at hk ⊢ <;>
      tauto
  | error e =>
    unfold mapAt at hm
    split at hm
    · cases hm
    · cases hm
      rfl

/-- C29: `sBoolTypeReflection.at` gives true for exactly the keys "true", "yes", "1", false
for exactly "false", "no", "0", and throws `std::out_of_range` for every other key. The
commands `bloom` (scene), `HDR` and `environmentMapping` (settings) look up the lowercased
token; `logger`, `deferredRendering`, `ambientOcclusion` (settings), `skylight`, `ao` and
`shadows` (scene) look up the token as written. The token "TRUE" is so accepted by the
former and makes the latter throw. -/
theorem C29_boolean_parameters (env : ParserEnv) (w : ParserWorld) (_DEBUG : Bool)
    (settings : Settings.Engine) (log : List LogLine) (t t2 f : String) :
    (∀ key, (mapAt sBoolTypeReflection key = .ok true ↔ key ∈ ["true", "yes", "1"])
        ∧ (mapAt sBoolTypeReflection key = .ok false ↔ key ∈ ["false", "no", "0"])
        ∧ (key ∉ ["true", "yes", "1", "false", "no", "0"] →
            mapAt sBoolTypeReflection key = .error .out_of_range))
      ∧ ParseScene env w ["bloom", t]
        = (mapAt sBoolTypeReflection (GetLowercased t)).map (fun b =>
            { w with scene := { w.scene with settings := { w.scene.settings with
                bloom := ⟨b, float_1_5, 3⟩ } } })
      ∧ ParseSetting env _DEBUG settings log ["HDR", t]
        = (mapAt sBoolTypeReflection (GetLowercased t)).map (fun b =>
            ({ settings with rendering := { settings.rendering with
                postProcess := { settings.rendering.postProcess with HDREnabled := b } } },
              log))
      ∧ ParseSetting env _DEBUG settings log ["environmentMapping", t, t2]
        = (mapAt sBoolTypeReflection (GetLowercased t) >>= fun b =>
            (mapAt sBoolTypeReflection (GetLowercased t2)).map fun b2 =>
              ({ settings with rendering := { settings.rendering with
                  bEnableEnvironmentLighting := b,
                  bPreLoadEnvironmentMaps := if _DEBUG then false else b2 } }, log))
      ∧ ParseSetting env _DEBUG settings log ["logger", t, t2]
        = (mapAt sBoolTypeReflection t >>= fun b =>
            (mapAt sBoolTypeReflection t2).map fun b2 =>
              ({ settings with logger := ⟨b, b2⟩ }, log))
      ∧ ParseSetting env _DEBUG settings log ["deferredRendering", t]
        = (mapAt sBoolTypeReflection t).map (fun b =>
            ({ settings with rendering := { settings.rendering with
                bUseDeferredRendering := b } }, log))
      ∧ ParseSetting env _DEBUG settings log ["ambientOcclusion", t]
        = (mapAt sBoolTypeReflection t).map (fun b =>
            ({ settings with rendering := { settings.rendering with
                bAmbientOcclusion := b } }, log))
      ∧ ParseScene env w ["skylight", t]
        = (mapAt sBoolTypeReflection t).map (fun b =>
            { w with scene := { w.scene with settings := { w.scene.settings with
                bSkylightEnabled := b } } })
      ∧ ParseScene env w ["ao", t, f]
        = (mapAt sBoolTypeReflection t >>= fun b =>
            (env.stof f).map fun ambientFactor =>
              { w with scene := { w.scene with settings := { w.scene.settings with
                  ssao := ⟨b, ambientFactor, float_7, float_1⟩ } } })
      ∧ ParseScene env w ["shadows", t]
        = (mapAt sBoolTypeReflection t).map (fun b =>
            w.setLight (fun l => { l with
              mbCastingShadows := b, mDepthBias := float_0_15,
              mNearPlaneDistance := float_0_01, mFarPlaneDistance := float_1000 }))
      ∧ mapAt sBoolTypeReflection (GetLowercased "TRUE") = .ok true
      ∧ mapAt sBoolTypeReflection "TRUE" = .error .out_of_range := by
  refine ⟨fun key => ⟨?_, ?_, sBoolTypeReflection_at_error key⟩, ?_, ?_, ?_, ?_, ?_, ?_, ?_,
    ?_, ?_, rfl, rfl⟩
  · rw [sBoolTypeReflection_at]
    simp
  · rw [sBoolTypeReflection_at]
    simp
  · rw [ParseScene_bloom]
    cases h : mapAt sBoolTypeReflection (GetLowercased t) <;>
      simp [parseBloom, tokenAt, h, Except.map, bind, Except.bind, pure, Except.pure]
  · cases h : mapAt sBoolTypeReflection (GetLowercased t) <;>
      simp [ParseSetting, boolLowercasedAt, tokenAt, h, Except.map, bind, Except.bind, pure,
        Except.pure]
  · cases h : mapAt sBoolTypeReflection (GetLowercased t) <;>
    cases h2 : mapAt sBoolTypeReflection (GetLowercased t2) <;>
    cases _DEBUG <;>
      simp [ParseSetting, parseEnvironmentMapping, boolLowercasedAt, tokenAt, h, h2,
        Except.map, bind, Except.bind, pure, Except.pure]
  · cases h : mapAt sBoolTypeReflection t <;>
    cases h2 : mapAt sBoolTypeReflection t2 <;>
      simp [ParseSetting, boolAt, tokenAt, h, h2, Except.map, bind, Except.bind, pure,
        Except.pure]
  · cases h : mapAt sBoolTypeReflection t <;>
      simp [ParseSetting, boolAt, tokenAt, h, Except.map, bind, Except.bind, pure,
        Except.pure]
  · cases h : mapAt sBoolTypeReflection t <;>
      simp [ParseSetting, boolAt, tokenAt, h, Except.map, bind, Except.bind, pure,
        Except.pure]
  · rw [ParseScene_skylight]
    cases h : mapAt sBoolTypeReflection t <;>
      simp [parseSkylight, tokenAt, h, Except.map, bind, Except.bind, pure, Except.pure]
  · rw [ParseScene_ao]
    cases h : mapAt sBoolTypeReflection t <;>
    cases h2 : env.stof f <;>
      simp [parseAo, stofAt, tokenAt, h, h2, Except.map, bind, Except.bind, pure,
        Except.pure]
  · rw [ParseScene_shadows]
    cases h : mapAt sBoolTypeReflection t <;>
      simp [parseShadows, tokenAt, h, Except.map, bind, Except.bind, pure, Except.pure]

theorem C29_boolean_parameters_witness :
    ParseSetting sampleEnv false sampleEngineSettings [] ["HDR", "TRUE"]
        = .ok ({ sampleEngineSettings with rendering := { sampleEngineSettings.rendering with
            postProcess := { sampleEngineSettings.rendering.postProcess with
              HDREnabled := true } } }, [])
      ∧ ParseSetting sampleEnv false sampleEngineSettings [] ["deferredRendering", "TRUE"]
        = .error .out_of_range
      ∧ ParseScene sampleEnv sampleWorld ["skylight", "Yes"] = .error .out_of_range := by
  obtain ⟨-, -, hHDR, -, -, hdeferred, -, hsky, -⟩ :=
    C29_boolean_parameters sampleEnv sampleWorld false sampleEngineSettings [] "TRUE" "TRUE" "0"
  obtain ⟨-, -, -, -, -, -, -, hsky, -⟩ :=
    C29_boolean_parameters sampleEnv sampleWorld false sampleEngineSettings [] "Yes" "TRUE" "0"
  exact ⟨hHDR.trans rfl, hdeferred.trans rfl, hsky.trans rfl⟩

theorem wrapInt32_of_representable (x : Int) (hlo : INT_MIN ≤ x) (hhi : x ≤ INT_MAX) :
    wrapInt32 x = x := by
  unfold wrapInt32
  unfold INT_MIN at hlo
  unfold INT_MAX at hhi
  omega

/-- What `std::stoi` returns is an `int`. -/
theorem stoi_range (s : String) (n : Int) (h : stoi s = .ok n) :
    INT_MIN ≤ n ∧ n ≤ INT_MAX := by
  obtain ⟨c, hc, v, hshape⟩ : ∃ (c : Prop) (_ : Decidable c) (v : Int),
      stoi s = if c then .error .invalid_argument
        else if v < INT_MIN ∨ INT_MAX < v then .error .out_of_range else .ok v :=
    ⟨_, inferInstance, _, rfl⟩
  rw [hshape] at h
  by_cases h1 : c
  · rw [if_pos h1] at h
    cases h
  · rw [if_neg h1] at h
    by_cases h2 : v < INT_MIN ∨ INT_MAX < v
    · rw [if_pos h2] at h
      cases h
    · rw [if_neg h2] at h
      cases h
      omega

/-- C30 (as stated, refuted): `level -2147483648`. `stoi` reads INT_MIN, a negative n; the
subtraction of line 200 leaves the range of `int`, and the index stored is 2147483647, which
is neither n - 1 nor negative. -/
theorem C30_counterexample :
    stoi "-2147483648" = .ok (-2147483648)
      ∧ ParseSetting sampleEnv false sampleEngineSettings [] ["level", "-2147483648"]
        = .ok ({ sampleEngineSettings with levelToLoad := 2147483647 }, [])
      ∧ (2147483647 : Int) ≠ -2147483648 - 1
      ∧ ¬ (2147483647 : Int) < 0 :=
  ⟨rfl, rfl, by decide, by decide⟩

/-- C30 (amended): the settings command `level <t>` where `stoi` reads the integer n from
`t` and n is not INT_MIN, so that n - 1 is an `int`: `ParseSetting` returns with
`levelToLoad` = 0 when n is 0 or 1 and n - 1 otherwise, and with no other member and no log
line changed. The stored index is non-negative for n >= 0, and for n < 0 it is the negative
value n - 1. -/
theorem C30_level_index (env : ParserEnv) (_DEBUG : Bool) (settings : Settings.Engine)
    (log : List LogLine) (t : String) (more : List String) (n : Int)
    (ht : stoi t = .ok n) (hn : INT_MIN < n) :
    ∃ stored, ParseSetting env _DEBUG settings log ("level" :: t :: more)
        = .ok ({ settings with levelToLoad := stored }, log)
      ∧ stored = (if n = 0 ∨ n = 1 then 0 else n - 1)
      ∧ (0 ≤ n → 0 ≤ stored)
      ∧ (n < 0 → stored = n - 1 ∧ stored < 0) := by
  obtain ⟨hlo, hhi⟩ := stoi_range t n ht
  have hwrap : wrapInt32 (n - 1) = n - 1 := by
    apply wrapInt32_of_representable
    · unfold INT_MIN at hn ⊢
      omega
    · unfold INT_MAX at hhi ⊢
      omega
  have hval : (if wrapInt32 (n - 1) = -1 then 0 else wrapInt32 (n - 1))
      = (if n = 0 ∨ n = 1 then 0 else n - 1) := by
    rw [hwrap]
    split <;> split <;> omega
  refine ⟨if wrapInt32 (n - 1) = -1 then 0 else wrapInt32 (n - 1), ?_, hval, ?_, ?_⟩
  · simp [ParseSetting, parseLevel, stoiAt, tokenAt, ht, bind, Except.bind, pure,
      Except.pure]
  · intro hpos
    rw [hval]
    split <;> omega
  · intro hneg
    have h0 : ¬ (n = 0 ∨ n = 1) := by omega
    rw [hval, if_neg h0]
    omega

theorem C30_level_index_witness :
    ParseSetting sampleEnv false sampleEngineSettings [] ["level", "3"]
        = .ok ({ sampleEngineSettings with levelToLoad := 2 }, [])
      ∧ ParseSetting sampleEnv false sampleEngineSettings [] ["level", "-2"]
        = .ok ({ sampleEngineSettings with levelToLoad := -3 }, [])
      ∧ ParseSetting sampleEnv false sampleEngineSettings [] ["level", "0"]
        = .ok ({ sampleEngineSettings with levelToLoad := 0 }, []) := by
  obtain ⟨s3, h3, e3, -⟩ := C30_level_index sampleEnv false sampleEngineSettings [] "3" []
    3 rfl (by decide)
  obtain ⟨s2, h2, e2, -⟩ := C30_level_index sampleEnv false sampleEngineSettings [] "-2" []
    (-2) rfl (by decide)
  obtain ⟨s0, h0, e0, -⟩ := C30_level_index sampleEnv false sampleEngineSettings [] "0" []
    0 rfl (by decide)
  subst e3 e2 e0
  exact ⟨h3, h2, h0⟩

/-! ## ReadScene and the file-scope variables -/

/-- C23 (as stated, refuted): two `ReadScene` calls on the same file, whose one line is
`object begin`. The first call, from the state at program start, returns a scene with one
object and leaves the reading-object flag set; the second call finds the flag set, rejects
the line and returns a scene with no object. -/
theorem C23_counterexample :
    ∃ first second,
      ReadScene sampleSceneEnv sampleSceneFiles sampleScene sampleSceneWorld "Open.scn"
          = .ok first
        ∧ ReadScene sampleSceneEnv sampleSceneFiles sampleScene first "Open.scn" = .ok second
        ∧ first.statics.bIsReadingGameObject = true
        ∧ first.scene.objects = [sampleSceneEnv.defaultGameObject]
        ∧ second.scene.objects = []
        ∧ first.scene ≠ second.scene :=
  ⟨_, _, rfl, rfl, rfl, rfl, rfl, by decide⟩

/-! ## Null pointers: rules for `Safe` -/

theorem safe_ok {α : Type} (B : Prop) (a : α) (P : α → Prop) (h : P a) :
    Safe B (.ok a) P :=
  ⟨fun h => (by cases h), fun b hb => (by cases hb; exact h)⟩

theorem safe_pure {α : Type} (B : Prop) (a : α) (P : α → Prop) (h : P a) :
    Safe B (pure a : Except Fault α) P :=
  safe_ok B a P h

theorem safe_error {α : Type} (B : Prop) (e : Fault) (P : α → Prop)
    (h : e ≠ .nullDereference) : Safe B (.error e) P :=
  ⟨fun he => absurd (Except.error.inj he) h, fun b hb => (by cases hb)⟩

theorem safe_bind {α β : Type} (B : Prop) (x : Except Fault α) (f : α → Except Fault β)
    (P : β → Prop) (h : Safe B x fun a => Safe B (f a) P) : Safe B (x >>= f) P := by
  cases x with
  | error e =>
    refine ⟨fun he => h.1 ?_, fun b hb => (by cases hb)⟩
    simpa [bind, Except.bind] using he
  | ok a => exact h.2 a rfl

theorem safe_map {α β : Type} (B : Prop) (x : Except Fault α) (f : α → β) (P : β → Prop)
    (h : Safe B x fun a => P (f a)) : Safe B (f <$> x) P := by
  cases x with
  | error e =>
    refine ⟨fun he => h.1 ?_, fun b hb => ?_⟩
    · simpa [Functor.map, Except.map] using he
    · simp [Functor.map, Except.map] at hb
  | ok a =>
    refine ⟨fun he => ?_, fun b hb => ?_⟩
    · simp [Functor.map, Except.map] at he
    · have hb2 : f a = b := by simpa [Functor.map, Except.map] using hb
      exact hb2 ▸ h.2 a rfl

theorem safe_of_forall {α : Type} (B : Prop) (x : Except Fault α) (P : α → Prop)
    (hx : x ≠ .error .nullDereference) (h : ∀ a, P a) : Safe B x P :=
  ⟨fun he => absurd he hx, fun a _ => h a⟩

theorem safe_mono {α : Type} (B : Prop) (x : Except Fault α) (P Q : α → Prop)
    (h : Safe B x P) (hPQ : ∀ a, P a → Q a) : Safe B x Q :=
  ⟨h.1, fun a ha => hPQ a (h.2 a ha)⟩

theorem tokenAt_ne_null (command : List String) (i : Nat) :
    tokenAt command i ≠ .error .nullDereference := by
  unfold tokenAt
  split <;> simp

theorem fromEnd_ne_null (tokens : List String) (k : Nat) :
    fromEnd tokens k ≠ .error .nullDereference := by
  unfold fromEnd
  split
  · simp
  · exact tokenAt_ne_null _ _

theorem mapAt_ne_null {β : Type} (table : List (String × β)) (key : String) :
    mapAt table key ≠ .error .nullDereference := by
  unfold mapAt
  split <;> simp

theorem textureAt_ne_null (textureSet : List TextureID) (i : Nat) :
    textureAt textureSet i ≠ .error .nullDereference := by
  unfold textureAt
  split <;> simp

theorem cAssert_ne_null (env : ParserEnv) (condition : Bool) :
    cAssert env condition ≠ .error .nullDereference := by
  unfold cAssert
  split <;> simp

theorem stoi_ne_null (s : String) : stoi s ≠ .error .nullDereference := by
  obtain ⟨c, hc, v, hshape⟩ : ∃ (c : Prop) (_ : Decidable c) (v : Int),
      stoi s = if c then .error .invalid_argument
        else if v < INT_MIN ∨ INT_MAX < v then .error .out_of_range else .ok v :=
    ⟨_, inferInstance, _, rfl⟩
  rw [hshape]
  split
  · simp
  · split <;> simp

theorem stofAt_ne_null (env : ParserEnv) (henv : StofThrowsAsDocumented env)
    (command : List String) (i : Nat) : stofAt env command i ≠ .error .nullDereference := by
  unfold stofAt
  cases ht : tokenAt command i with
  | error e =>
    intro h
    have h2 : (Except.error e : Except Fault String) = .error .nullDereference := by
      simpa [bind, Except.bind] using h
    exact tokenAt_ne_null command i (ht.trans h2)
  | ok t =>
    intro h
    have h2 : env.stof t = .error .nullDereference := h
    rcases henv t _ h2 with h3 | h3 <;> cases h3

theorem safe_tokenAt (B : Prop) (command : List String) (i : Nat) (P : String → Prop)
    (h : ∀ t, P t) : Safe B (tokenAt command i) P :=
  safe_of_forall _ _ _ (tokenAt_ne_null _ _) h

theorem safe_fromEnd (B : Prop) (tokens : List String) (k : Nat) (P : String → Prop)
    (h : ∀ t, P t) : Safe B (fromEnd tokens k) P :=
  safe_of_forall _ _ _ (fromEnd_ne_null _ _) h

theorem safe_mapAt {β : Type} (B : Prop) (table : List (String × β)) (key : String)
    (P : β → Prop) (h : ∀ v, P v) : Safe B (mapAt table key) P :=
  safe_of_forall _ _ _ (mapAt_ne_null _ _) h

theorem safe_textureAt (B : Prop) (textureSet : List TextureID) (i : Nat)
    (P : TextureID → Prop) (h : ∀ t, P t) : Safe B (textureAt textureSet i) P :=
  safe_of_forall _ _ _ (textureAt_ne_null _ _) h

theorem safe_cAssert (B : Prop) (env : ParserEnv) (condition : Bool) (P : Unit → Prop)
    (h : ∀ u, P u) : Safe B (cAssert env condition) P :=
  safe_of_forall _ _ _ (cAssert_ne_null _ _) h

theorem safe_stoi (B : Prop) (s : String) (P : Int → Prop) (h : ∀ v, P v) :
    Safe B (stoi s) P :=
  safe_of_forall _ _ _ (stoi_ne_null _) h

theorem safe_stofAt (B : Prop) (env : ParserEnv) (henv : B ∨ StofThrowsAsDocumented env)
    (command : List String) (i : Nat) (P : FloatBits → Prop) (h : ∀ v, P v) :
    Safe B (stofAt env command i) P :=
  ⟨fun he => henv.elim id fun hstof => absurd he (stofAt_ne_null env hstof _ _),
    fun a _ => h a⟩

theorem safe_throughObject (B : Prop) (w : ParserWorld) (f : GameObject → GameObject)
    (P : ParserWorld → Prop) (hptr : B ∨ w.statics.pObject ≠ none)
    (h : ∀ w1 : ParserWorld, w1.statics = w.statics → w1.log = w.log →
      w1.textureRequests = w.textureRequests → P w1) :
    Safe B (w.throughObject f) P := by
  unfold ParserWorld.throughObject
  split
  · rename_i hnone
    exact ⟨fun _ => hptr.elim id fun hp => absurd hnone hp, fun a ha => (by cases ha)⟩
  · split
    · exact safe_error _ _ _ (by decide)
    · split
      · exact safe_ok _ _ _ (h _ rfl rfl rfl)
      · exact safe_error _ _ _ (by decide)

theorem safe_throughMaterial (B : Prop) (w : ParserWorld) (f : Material → Material)
    (P : ParserWorld → Prop) (hptr : B ∨ w.statics.pMaterial ≠ none)
    (h : ∀ w1 : ParserWorld, w1.statics = w.statics → w1.log = w.log →
      w1.textureRequests = w.textureRequests → P w1) :
    Safe B (w.throughMaterial f) P := by
  unfold ParserWorld.throughMaterial
  split
  · rename_i hnone
    exact ⟨fun _ => hptr.elim id fun hp => absurd hnone hp, fun a ha => (by cases ha)⟩
  · split
    · exact safe_error _ _ _ (by decide)
    · split
      · exact safe_ok _ _ _ (h _ rfl rfl rfl)
      · exact safe_error _ _ _ (by decide)

theorem safe_ite {α : Type} (B : Prop) (c : Prop) [Decidable c] (x y : Except Fault α)
    (P : α → Prop) (hx : c → Safe B x P) (hy : ¬c → Safe B y P) :
    Safe B (if c then x else y) P := by
  split
  · exact hx (by assumption)
  · exact hy (by assumption)

theorem safe_readTransform (B : Prop) (env : ParserEnv)
    (henv : B ∨ StofThrowsAsDocumented env) (command : List String)
    (P : Transform → Prop) (h : ∀ tf, P tf) : Safe B (readTransform env command) P := by
  unfold readTransform
  repeat' first
    | with_reducible refine safe_pure _ _ _ (h _)
    | with_reducible apply safe_bind
    | with_reducible refine safe_stofAt _ _ henv _ _ _ (fun _ => ?_)
    | dsimp only
    | split

theorem safe_AssignPresets (B : Prop) (w : ParserWorld) (textureSet : List TextureID)
    (P : ParserWorld → Prop) (hptr : B ∨ w.statics.pMaterial ≠ none)
    (h : ∀ w1 : ParserWorld, w1.statics = w.statics → w1.log = w.log →
      w1.textureRequests = w.textureRequests → P w1) :
    Safe B (AssignPresets w textureSet) P := by
  unfold AssignPresets
  repeat' first
    | with_reducible apply safe_bind
    | with_reducible refine safe_textureAt _ _ _ _ (fun _ => ?_)
    | exact safe_throughMaterial _ _ _ _ hptr h

theorem safe_createMaterialForObject (B : Prop) (env : ParserEnv) (w : ParserWorld)
    (type : EMaterialType) (P : ParserWorld → Prop) (hptr : B ∨ w.statics.pObject ≠ none)
    (h : ∀ (w1 : ParserWorld) (ptr : PoolPtr),
      w1.statics = { w.statics with pMaterial := some ptr } → w1.log = w.log →
      w1.textureRequests = w.textureRequests → P w1) :
    Safe B (createMaterialForObject env w type) P := by
  unfold createMaterialForObject
  exact safe_throughObject _ _ _ _ hptr fun w1 h1 h2 h3 => h w1 _ h1 h2 h3

theorem safe_loadPresetTexture (B : Prop) (env : ParserEnv) (PBR_ROOT : String)
    (state : ParserWorld × List TextureID) (strTexMapPath : String) :
    Safe B (loadPresetTexture env PBR_ROOT state strTexMapPath)
      fun r => r.1.statics = state.1.statics := by
  unfold loadPresetTexture
  repeat' first
    | exact safe_pure _ _ _ rfl
    | with_reducible apply safe_bind
    | with_reducible refine safe_fromEnd _ _ _ _ (fun _ => ?_)
    | with_reducible refine safe_tokenAt _ _ _ _ (fun _ => ?_)
    | with_reducible refine safe_mapAt _ _ _ _ (fun _ => ?_)
    | dsimp only
    | split

theorem safe_foldlM_loadPresetTexture (B : Prop) (env : ParserEnv) (PBR_ROOT : String)
    (paths : List String) (state : ParserWorld × List TextureID) :
    Safe B (paths.foldlM (loadPresetTexture env PBR_ROOT) state)
      fun r => r.1.statics = state.1.statics := by
  induction paths generalizing state with
  | nil => exact safe_pure _ _ _ rfl
  | cons p ps ih =>
    rw [List.foldlM_cons]
    refine safe_bind _ _ _ _ ?_
    refine safe_mono _ _ _ _ (safe_loadPresetTexture B env PBR_ROOT state p) fun r hr => ?_
    exact safe_mono _ _ _ _ (ih r) fun r2 hr2 => hr2.trans hr

theorem safe_LoadPBRPreset (B : Prop) (env : ParserEnv) (w : ParserWorld)
    (presetPath : String) (P : ParserWorld × List TextureID → Prop)
    (h : ∀ r : ParserWorld × List TextureID, r.1.statics = w.statics → P r) :
    Safe B (LoadPBRPreset env w presetPath) P := by
  unfold LoadPBRPreset
  dsimp only
  split
  · split
    · exact safe_ok _ _ _ (h _ rfl)
    · exact safe_mono _ _ _ _ (safe_foldlM_loadPresetTexture B env _ _ _) fun r hr => h r hr
  · exact safe_ok _ _ _ (h _ rfl)
set_option maxHeartbeats 4000000 in
theorem ParseScene_safe (B : Prop) (env : ParserEnv)
    (henv : B ∨ StofThrowsAsDocumented env) (w : ParserWorld) (command : List String)
    (hinv : PointersMatchFlags w)
    (hmat : B ∨ w.statics.bIsReadingGameObject = false ∨ w.statics.pMaterial ≠ none) :
    Safe B (ParseScene env w command) PointersMatchFlags := by
  unfold ParseScene
  repeat' first
    | with_reducible refine safe_ok _ _ _ ?_
    | with_reducible refine safe_pure _ _ _ ?_
    | with_reducible exact safe_error _ _ _ (by decide)
    | with_reducible apply safe_bind
    | with_reducible apply safe_map
    | with_reducible refine safe_ite _ _ _ _ _ (fun _ => ?_) (fun _ => ?_)
    | with_reducible refine safe_stofAt _ _ henv _ _ _ (fun _ => ?_)
    | with_reducible refine safe_tokenAt _ _ _ _ (fun _ => ?_)
    | with_reducible refine safe_fromEnd _ _ _ _ (fun _ => ?_)
    | with_reducible refine safe_mapAt _ _ _ _ (fun _ => ?_)
    | with_reducible refine safe_stoi _ _ _ (fun _ => ?_)
    | with_reducible refine safe_cAssert _ _ _ _ (fun _ => ?_)
    | with_reducible refine safe_readTransform _ _ henv _ _ (fun _ => ?_)
    | with_reducible refine safe_throughObject _ _ _ _ ?_ (fun _ _ _ _ => ?_)
    | with_reducible refine safe_throughMaterial _ _ _ _ ?_ (fun _ _ _ _ => ?_)
    | with_reducible refine safe_AssignPresets _ _ _ _ ?_ (fun _ _ _ _ => ?_)
    | with_reducible refine safe_createMaterialForObject _ _ _ _ _ ?_ (fun _ _ _ _ _ => ?_)
    | with_reducible refine safe_LoadPBRPreset _ _ _ _ _ (fun _ _ => ?_)
    | simp only [parseCamera, parseLight, parseObject, parsePbr, parseTextureMap, parseMesh,
        parseBrdf, parsePhong, parseDiffuse, parseTiling, parseRoughness, parseMetalness,
        parseEmissive, parseEmissiveIntensity, parseShininess, parseTextures, parseType,
        parseColor, parseBrightness, parseShadows, parseRange, parseSpot, parseDirectional,
        parseAttenuation, parseTransform, parseModel, parseAo, parseSkylight, parseBloom,
        parseUnknown, closeMaterialBlock, LoadPBRPresetInto]
    | dsimp only
    | split
    | simp_all [PointersMatchFlags, ParserWorld.Log_Error, ParserWorld.Log_Info,
        ParserWorld.Log_Warning, ParserWorld.setLight, ParserWorld.CreateTextureFromFile,
        ParserWorld.resetPresets, parseLightEnd, parseObjectEnd, loadIntoTextureSet]

/-! ## The pointers in the states the parser reaches -/

theorem ParseScene_preserves (env : ParserEnv) (w w' : ParserWorld) (command : List String)
    (hinv : PointersMatchFlags w) (h : ParseScene env w command = .ok w') :
    PointersMatchFlags w' :=
  (ParseScene_safe True env (Or.inl trivial) w command hinv (Or.inl trivial)).2 w' h

theorem reachable_pointersMatchFlags (env : ParserEnv) (w : ParserWorld)
    (h : Reachable env w) : PointersMatchFlags w := by
  induction h with
  | initial scene log textureRequests => simp [PointersMatchFlags, ParserStatics.initial]
  | command w w' command _ hok ih => exact ParseScene_preserves env w w' command ih hok
  | otherScene w scene _ ih => exact ih

/-- From a reachable state a call ends in a null-pointer dereference only inside an object
block in which no material has been created. -/
theorem ParseScene_nullDereference (env : ParserEnv) (henv : StofThrowsAsDocumented env)
    (w : ParserWorld) (command : List String) (hreach : Reachable env w)
    (h : ParseScene env w command = .error .nullDereference) :
    w.statics.bIsReadingGameObject = true ∧ w.statics.pMaterial = none := by
  refine (ParseScene_safe _ env (Or.inr henv) w command
    (reachable_pointersMatchFlags env w hreach) ?_).1 h
  by_cases hflag : w.statics.bIsReadingGameObject = true
  · by_cases hmat : w.statics.pMaterial = none
    · exact Or.inl ⟨hflag, hmat⟩
    · exact Or.inr (Or.inr hmat)
  · exact Or.inr (Or.inl (by simpa using hflag))

theorem sampleEnv_stof : StofThrowsAsDocumented sampleEnv := by
  intro s e h
  have h2 : sampleStof s = .error e := h
  unfold sampleStof at h2
  repeat' split at h2
  all_goals cases h2
  exact Or.inl rfl

theorem sampleObjectBlock_reachable : Reachable sampleEnv sampleObjectBlock :=
  Reachable.command sampleWorld sampleObjectBlock ["object", "begin"]
    (Reachable.initial _ _ _) rfl

theorem sampleClosedBlock_reachable : Reachable sampleEnv sampleClosedBlock :=
  Reachable.command sampleObjectBlock sampleClosedBlock ["object", "end"]
    sampleObjectBlock_reachable rfl

/-- C22: in every state reachable from the initial one the reading-object flag is set exactly
when `pObject` is not null, and with the flag clear (`pObject` null, so that an access through
it is a null-pointer dereference) no command ends in a null-pointer dereference. -/
theorem C22_object_pointer_matches_flag (env : ParserEnv) (w : ParserWorld)
    (henv : StofThrowsAsDocumented env) (hreach : Reachable env w) :
    (w.statics.bIsReadingGameObject = true ↔ w.statics.pObject ≠ none)
      ∧ (w.statics.bIsReadingGameObject = false →
          w.statics.pObject = none
            ∧ (∀ f, w.throughObject f = .error .nullDereference)
            ∧ ∀ command, ParseScene env w command ≠ .error .nullDereference) := by
  have hinv := reachable_pointersMatchFlags env w hreach
  refine ⟨hinv.1, fun hflag => ?_⟩
  have hnone : w.statics.pObject = none := by
    by_contra hne
    have := hinv.1.mpr hne
    simp [hflag] at this
  refine ⟨hnone, fun f => ?_, fun command hnull => ?_⟩
  · simp [ParserWorld.throughObject, hnone]
  · exact (ParseScene_safe False env (Or.inr henv) w command hinv (Or.inr (Or.inl hflag))).1
      hnull

theorem C22_object_pointer_matches_flag_witness :
    (StofThrowsAsDocumented sampleEnv ∧ Reachable sampleEnv sampleObjectBlock
      ∧ ((sampleObjectBlock.statics.bIsReadingGameObject = true ↔
            sampleObjectBlock.statics.pObject ≠ none)
        ∧ (sampleObjectBlock.statics.bIsReadingGameObject = false →
          sampleObjectBlock.statics.pObject = none
            ∧ (∀ f, sampleObjectBlock.throughObject f = .error .nullDereference)
            ∧ ∀ command,
                ParseScene sampleEnv sampleObjectBlock command ≠ .error .nullDereference)))
      ∧ (Reachable sampleEnv sampleClosedBlock
        ∧ ((sampleClosedBlock.statics.bIsReadingGameObject = true ↔
              sampleClosedBlock.statics.pObject ≠ none)
          ∧ (sampleClosedBlock.statics.bIsReadingGameObject = false →
            sampleClosedBlock.statics.pObject = none
              ∧ (∀ f, sampleClosedBlock.throughObject f = .error .nullDereference)
              ∧ ∀ command,
                  ParseScene sampleEnv sampleClosedBlock command ≠ .error .nullDereference))) :=
  ⟨⟨sampleEnv_stof, sampleObjectBlock_reachable,
      C22_object_pointer_matches_flag sampleEnv sampleObjectBlock sampleEnv_stof
        sampleObjectBlock_reachable⟩,
    sampleClosedBlock_reachable,
    C22_object_pointer_matches_flag sampleEnv sampleClosedBlock sampleEnv_stof
      sampleClosedBlock_reachable⟩

/-- C24 (fails on the code): `object begin` from the initial state is followed by `pbr end`;
`pMaterial` is still null and `AssignPresets` writes through it. The closing branch of `brdf`
is behind the test of `bIsReadingMaterial`, and on the same state `brdf` returns. -/
theorem C24_pbr_end_writes_through_null_material :
    Reachable sampleEnv sampleObjectBlock
      ∧ sampleObjectBlock.statics.pMaterial = none
      ∧ ParseScene sampleEnv sampleObjectBlock ["pbr", "end"] = .error .nullDereference
      ∧ ∃ w, ParseScene sampleEnv sampleObjectBlock ["brdf"] = .ok w :=
  ⟨sampleObjectBlock_reachable, rfl, rfl, ⟨_, rfl⟩⟩

/-! ## The log does not steer the parser: rules for `Alike` -/

theorem alike_ok {α : Type} (R : α → α → Prop) (a b : α) (h : R a b) :
    Alike R (.ok a) (.ok b) := h

theorem alike_pure {α : Type} (R : α → α → Prop) (a b : α) (h : R a b) :
    Alike R (pure a) (pure b) := h

theorem alike_error {α : Type} (R : α → α → Prop) (e : Fault) :
    Alike R (.error e) (.error e) := rfl

theorem alike_bind {α β : Type} (S : α → α → Prop) (R : β → β → Prop)
    (x y : Except Fault α) (f g : α → Except Fault β) (hxy : Alike S x y)
    (h : ∀ a b, S a b → Alike R (f a) (g b)) : Alike R (x >>= f) (y >>= g) := by
  cases x with
  | error e1 =>
    cases y with
    | error e2 => exact hxy
    | ok b => exact hxy.elim
  | ok a =>
    cases y with
    | error e2 => exact hxy.elim
    | ok b => exact h a b hxy

theorem alike_bind_same {α β : Type} (R : β → β → Prop) (x : Except Fault α)
    (f g : α → Except Fault β) (h : ∀ a, Alike R (f a) (g a)) :
    Alike R (x >>= f) (x >>= g) := by
  cases x with
  | error e => exact rfl
  | ok a => exact h a

theorem alike_ite {α : Type} (R : α → α → Prop) (c1 c2 : Prop) [Decidable c1]
    [Decidable c2] (x1 y1 x2 y2 : Except Fault α) (hc : c1 ↔ c2)
    (hx : c1 → Alike R x1 x2) (hy : ¬c1 → Alike R y1 y2) :
    Alike R (if c1 then x1 else y1) (if c2 then x2 else y2) := by
  by_cases h1 : c1
  · rw [if_pos h1, if_pos (hc.mp h1)]
    exact hx h1
  · rw [if_neg h1, if_neg (fun h2 => h1 (hc.mpr h2))]
    exact hy h1

theorem alike_throughObject (w1 w2 : ParserWorld) (f : GameObject → GameObject)
    (h : SameButLog w1 w2) : Alike SameButLog (w1.throughObject f) (w2.throughObject f) := by
  obtain ⟨s1, sc1, l1, t1⟩ := w1
  obtain ⟨s2, sc2, l2, t2⟩ := w2
  obtain ⟨hs, hsc, ht⟩ := h
  simp only at hs hsc ht
  subst hs hsc ht
  unfold ParserWorld.throughObject
  dsimp only
  split
  · exact rfl
  · split
    · exact rfl
    · split
      · exact ⟨rfl, rfl, rfl⟩
      · exact rfl

theorem alike_throughMaterial (w1 w2 : ParserWorld) (f : Material → Material)
    (h : SameButLog w1 w2) :
    Alike SameButLog (w1.throughMaterial f) (w2.throughMaterial f) := by
  obtain ⟨s1, sc1, l1, t1⟩ := w1
  obtain ⟨s2, sc2, l2, t2⟩ := w2
  obtain ⟨hs, hsc, ht⟩ := h
  simp only at hs hsc ht
  subst hs hsc ht
  unfold ParserWorld.throughMaterial
  dsimp only
  split
  · exact rfl
  · split
    · exact rfl
    · split
      · exact ⟨rfl, rfl, rfl⟩
      · exact rfl

theorem alike_AssignPresets (w1 w2 : ParserWorld) (textureSet1 textureSet2 : List TextureID)
    (h : SameButLog w1 w2) (hset : textureSet1 = textureSet2) :
    Alike SameButLog (AssignPresets w1 textureSet1) (AssignPresets w2 textureSet2) := by
  subst hset
  unfold AssignPresets
  repeat' first
    | with_reducible refine alike_bind_same _ _ _ _ (fun _ => ?_)
    | exact alike_throughMaterial _ _ _ h

theorem alike_createMaterialForObject (env : ParserEnv) (w1 w2 : ParserWorld)
    (type : EMaterialType) (h : SameButLog w1 w2) :
    Alike SameButLog (createMaterialForObject env w1 type)
      (createMaterialForObject env w2 type) := by
  obtain ⟨s1, sc1, l1, t1⟩ := w1
  obtain ⟨s2, sc2, l2, t2⟩ := w2
  obtain ⟨hs, hsc, ht⟩ := h
  simp only at hs hsc ht
  subst hs hsc ht
  exact alike_throughObject _ _ _ ⟨rfl, rfl, rfl⟩

theorem alike_loadPresetTexture (env : ParserEnv) (PBR_ROOT : String)
    (state1 state2 : ParserWorld × List TextureID) (strTexMapPath : String)
    (h : SameButLog state1.1 state2.1 ∧ state1.2 = state2.2) :
    Alike (fun r1 r2 => SameButLog r1.1 r2.1 ∧ r1.2 = r2.2)
      (loadPresetTexture env PBR_ROOT state1 strTexMapPath)
      (loadPresetTexture env PBR_ROOT state2 strTexMapPath) := by
  unfold loadPresetTexture
  repeat' first
    | with_reducible refine alike_pure _ _ _ ?_
    | with_reducible refine alike_bind_same _ _ _ _ (fun _ => ?_)
    | with_reducible refine alike_ite _ _ _ _ _ _ _ Iff.rfl (fun _ => ?_) (fun _ => ?_)
    | dsimp only
    | simp_all [SameButLog, ParserWorld.CreateTextureFromFile]

theorem alike_foldlM_loadPresetTexture (env : ParserEnv) (PBR_ROOT : String)
    (paths : List String) (state1 state2 : ParserWorld × List TextureID)
    (h : SameButLog state1.1 state2.1 ∧ state1.2 = state2.2) :
    Alike (fun r1 r2 => SameButLog r1.1 r2.1 ∧ r1.2 = r2.2)
      (paths.foldlM (loadPresetTexture env PBR_ROOT) state1)
      (paths.foldlM (loadPresetTexture env PBR_ROOT) state2) := by
  induction paths generalizing state1 state2 with
  | nil => exact alike_pure _ _ _ h
  | cons p ps ih =>
    rw [List.foldlM_cons, List.foldlM_cons]
    exact alike_bind _ _ _ _ _ _ (alike_loadPresetTexture env PBR_ROOT state1 state2 p h)
      fun a b hab => ih a b hab

theorem alike_LoadPBRPreset (env : ParserEnv) (w1 w2 : ParserWorld) (presetPath : String)
    (h : SameButLog w1 w2) :
    Alike (fun r1 r2 => SameButLog r1.1 r2.1 ∧ r1.2 = r2.2)
      (LoadPBRPreset env w1 presetPath) (LoadPBRPreset env w2 presetPath) := by
  unfold LoadPBRPreset
  dsimp only
  split
  · split
    · exact alike_ok _ _ _ ⟨h, rfl⟩
    · exact alike_foldlM_loadPresetTexture env _ _ _ _ ⟨h, rfl⟩
  · exact alike_ok _ _ _ ⟨h, rfl⟩

theorem alike_LoadPBRPresetInto (env : ParserEnv) (w1 w2 : ParserWorld)
    (presetPath : String) (h : SameButLog w1 w2) :
    Alike SameButLog (LoadPBRPresetInto env w1 presetPath)
      (LoadPBRPresetInto env w2 presetPath) := by
  unfold LoadPBRPresetInto
  exact alike_bind _ _ _ _ _ _ (alike_LoadPBRPreset env w1 w2 presetPath h)
    fun a b hab => alike_AssignPresets _ _ _ _ hab.1 hab.2
set_option maxHeartbeats 4000000 in
theorem ParseScene_alike (env : ParserEnv) (w1 w2 : ParserWorld) (command : List String)
    (h : SameButLog w1 w2) :
    Alike SameButLog (ParseScene env w1 command) (ParseScene env w2 command) := by
  unfold ParseScene
  repeat' first
    | with_reducible exact Iff.rfl
    | with_reducible refine alike_ok _ _ _ ?_
    | with_reducible refine alike_pure _ _ _ ?_
    | with_reducible exact alike_error _ _
    | with_reducible refine alike_bind_same _ _ _ _ (fun _ => ?_)
    | with_reducible refine alike_ite _ _ _ _ _ _ _ ?_ (fun _ => ?_) (fun _ => ?_)
    | with_reducible refine alike_throughObject _ _ _ ?_
    | with_reducible refine alike_throughMaterial _ _ _ ?_
    | with_reducible refine alike_AssignPresets _ _ _ _ ?_ ?_
    | with_reducible refine alike_createMaterialForObject _ _ _ _ ?_
    | with_reducible refine alike_LoadPBRPresetInto _ _ _ _ ?_
    | with_reducible refine alike_bind SameButLog _ _ _ _ _ ?_ (fun _ _ _ => ?_)
    | simp only [parseCamera, parseLight, parseObject, parsePbr, parseTextureMap, parseMesh,
        parseBrdf, parsePhong, parseDiffuse, parseTiling, parseRoughness, parseMetalness,
        parseEmissive, parseEmissiveIntensity, parseShininess, parseTextures, parseType,
        parseColor, parseBrightness, parseShadows, parseRange, parseSpot, parseDirectional,
        parseAttenuation, parseTransform, parseModel, parseAo, parseSkylight, parseBloom,
        parseUnknown, closeMaterialBlock]
    | dsimp only
    | split
    | simp_all [SameButLog, ParserWorld.Log_Error, ParserWorld.Log_Info,
        ParserWorld.Log_Warning, ParserWorld.setLight, ParserWorld.CreateTextureFromFile,
        ParserWorld.resetPresets, parseLightEnd, parseObjectEnd, loadIntoTextureSet]
theorem readSceneLine_alike (env : ParserEnv) (w1 w2 : ParserWorld) (line : String)
    (h : SameButLog w1 w2) :
    Alike SameButLog (readSceneLine env w1 line) (readSceneLine env w2 line) := by
  unfold readSceneLine
  repeat' first
    | with_reducible exact alike_pure _ _ _ h
    | with_reducible exact ParseScene_alike env _ _ _ h
    | with_reducible refine alike_bind_same _ _ _ _ (fun _ => ?_)
    | with_reducible refine alike_ite _ _ _ _ _ _ _ Iff.rfl (fun _ => ?_) (fun _ => ?_)

theorem foldlM_readSceneLine_alike (env : ParserEnv) (lines : List String)
    (w1 w2 : ParserWorld) (h : SameButLog w1 w2) :
    Alike SameButLog (lines.foldlM (readSceneLine env) w1)
      (lines.foldlM (readSceneLine env) w2) := by
  induction lines generalizing w1 w2 with
  | nil => exact alike_pure _ _ _ h
  | cons line rest ih =>
    rw [List.foldlM_cons, List.foldlM_cons]
    exact alike_bind _ _ _ _ _ _ (readSceneLine_alike env w1 w2 line h) fun a b hab =>
      ih a b hab

theorem ReadScene_alike (env : ParserEnv) (files : String → Option (List String))
    (fresh : SerializedScene) (w1 w2 : ParserWorld) (name1 name2 : String)
    (hstatics : w1.statics = w2.statics)
    (hrequests : w1.textureRequests = w2.textureRequests)
    (hcontents : files (scene_root ++ name1) = files (scene_root ++ name2)) :
    Alike SameButLog (ReadScene env files fresh w1 name1)
      (ReadScene env files fresh w2 name2) := by
  unfold ReadScene
  dsimp only
  rw [← hcontents]
  cases files (scene_root ++ name1) with
  | none => exact ⟨hstatics, rfl, hrequests⟩
  | some lines =>
    dsimp only
    refine alike_bind _ _ _ _ _ _
      (foldlM_readSceneLine_alike env lines _ _ ⟨hstatics, rfl, hrequests⟩) fun a b hab => ?_
    refine alike_pure _ _ _ ⟨hab.1, ?_, hab.2.2⟩
    dsimp only
    rw [hab.2.1]

theorem alike_map_eq (x y : Except Fault ParserWorld) (h : Alike SameButLog x y) :
    x.map (fun w => (w.scene, w.statics, w.textureRequests))
      = y.map (fun w => (w.scene, w.statics, w.textureRequests)) := by
  cases x with
  | error e1 =>
    cases y with
    | error e2 =>
      have he : e1 = e2 := h
      rw [he]
    | ok b => exact h.elim
  | ok a =>
    cases y with
    | error e2 => exact h.elim
    | ok b =>
      obtain ⟨hs, hsc, ht⟩ : SameButLog a b := h
      simp [Except.map, hs, hsc, ht]

/-- C23 (amended): `ReadScene` returns the same scene, and leaves the same file-scope
variables and texture requests, for two files with the same contents when the two calls start
from the same file-scope variables and texture requests, whatever scene was parsed and
whatever was logged before. It does not reset the file-scope variables: they are those the
last `ParseScene` call left. -/
theorem C23_read_scene_depends_on_parser_state (env : ParserEnv)
    (files : String → Option (List String)) (fresh : SerializedScene) (w1 w2 : ParserWorld)
    (name1 name2 : String) (hstatics : w1.statics = w2.statics)
    (hrequests : w1.textureRequests = w2.textureRequests)
    (hcontents : files (scene_root ++ name1) = files (scene_root ++ name2)) :
    (ReadScene env files fresh w1 name1).map
          (fun w => (w.scene, w.statics, w.textureRequests))
        = (ReadScene env files fresh w2 name2).map
          (fun w => (w.scene, w.statics, w.textureRequests))
      ∧ (∀ lines, files (scene_root ++ name1) = some lines →
          (ReadScene env files fresh w1 name1).map (fun w => w.statics)
            = (lines.foldlM (readSceneLine env)
                { w1 with scene := { fresh with
                    materials := [],
                    directionalLight := { fresh.directionalLight with mbEnabled := false } } }
              ).map (fun w => w.statics)) := by
  constructor
  · exact alike_map_eq _ _
      (ReadScene_alike env files fresh w1 w2 name1 name2 hstatics hrequests hcontents)
  · intro lines hfile
    unfold ReadScene
    simp only [hfile]
    cases hfold : lines.foldlM (readSceneLine env)
        { w1 with scene := { fresh with
            materials := [],
            directionalLight := { fresh.directionalLight with mbEnabled := false } } } <;>
      simp [hfold, Except.map, bind, Except.bind, pure, Except.pure]

theorem C23_read_scene_depends_on_parser_state_witness :
    (ReadScene sampleSceneEnv sampleSceneFiles sampleScene sampleSceneWorld "Open.scn").map
        (fun w => (w.scene, w.statics, w.textureRequests))
      = (ReadScene sampleSceneEnv sampleSceneFiles sampleScene
          { sampleSceneWorld with
            scene := { sampleScene with lights := [sampleLight] },
            log := [⟨.Error, "Cannot open scene file: %s", ["Data\\SceneFiles\\None.scn"]⟩] }
          "Open.scn").map (fun w => (w.scene, w.statics, w.textureRequests)) :=
  (C23_read_scene_depends_on_parser_state sampleSceneEnv sampleSceneFiles sampleScene
    sampleSceneWorld
    { sampleSceneWorld with
      scene := { sampleScene with lights := [sampleLight] },
      log := [⟨.Error, "Cannot open scene file: %s", ["Data\\SceneFiles\\None.scn"]⟩] }
    "Open.scn" "Open.scn" rfl rfl rfl).1

end DX11Renderer
